import Mathlib

/-!
# PowerManagement-espidf: the lifecycle supervisor

A shallow embedding of `power_management.c` (with `power_management_defs.h`):
the enumerations, the request record, the globals and task locals of
`power_management_handle`, its `switch(pm_state)` state bodies, its request
`switch`, one pass of its `while(1)` loop, and runs of passes interleaved with
what the client tasks and the button task do to the shared globals.

Conventions.
* `uint64_t` values are naturals below `2 ^ 64`; the one `uint64_t`
  subtraction of the lifecycle task is `u64_sub`, taken modulo `2 ^ 64`.
* `int _active_lock` is an integer kept in the 32-bit two's-complement range by
  `wrap_int32` at `++` and `--` (the wrap-around produced on the targets).
* Every externally visible action is recorded, in program order, in a list of
  `Effect`s: event emissions, callback invocations, `vTaskDelay`s and the
  stores to the two variables the idle timer compares the clock with,
  `_last_activity_millis` and `_idle_timeout_ms_set`.
* `ESP_LOGx` calls are not modelled.
-/

namespace PowerManagement

/-! ## Enumerations of `power_management_defs.h` -/

/-- Lifecycle states, `power_management_state_t`. -/
inductive power_management_state_t
  | POWER_MANAGEMENT_STATE_INIT
  | POWER_MANAGEMENT_STATE_OFF_CHARGER
  | POWER_MANAGEMENT_STATE_SETUP
  | POWER_MANAGEMENT_STATE_DEV_IDLE
  | POWER_MANAGEMENT_STATE_DEV_ACTIVE
  | POWER_MANAGEMENT_STATE_SHUTDOWN_PREPARE
  | POWER_MANAGEMENT_STATE_SHUTDOWN
  | POWER_MANAGEMENT_STATE_REBOOT_PREPARE
  | POWER_MANAGEMENT_STATE_SLEEP_PREPARE
  | POWER_MANAGEMENT_STATE_SLEEP
  | POWER_MANAGEMENT_STATE_MAX
  deriving DecidableEq

/-- Event kinds, `power_management_event_t`. -/
inductive power_management_event_t
  | POWER_MANAGEMENT_EVENT_ANY
  | POWER_MANAGEMENT_EVENT_BATTERY_LOW
  | POWER_MANAGEMENT_EVENT_BATTERY_CRITICALLY_LOW
  | POWER_MANAGEMENT_EVENT_BATTERY_FULLY_CHARGED
  | POWER_MANAGEMENT_EVENT_BATTERY_DEAD
  | POWER_MANAGEMENT_EVENT_BATTERY_CONNECTED
  | POWER_MANAGEMENT_EVENT_BATTERY_TOO_COLD
  | POWER_MANAGEMENT_EVENT_BATTERY_COOL
  | POWER_MANAGEMENT_EVENT_BATTERY_WARM
  | POWER_MANAGEMENT_EVENT_BATTERY_TOO_HOT
  | POWER_MANAGEMENT_EVENT_OFF_CHARGER
  | POWER_MANAGEMENT_EVENT_CHARGE_CONNECTED_CHARGER
  | POWER_MANAGEMENT_EVENT_CHARGE_STARTED
  | POWER_MANAGEMENT_EVENT_CHARGE_WEAK
  | POWER_MANAGEMENT_EVENT_CHARGE_POWER_CHANGED
  | POWER_MANAGEMENT_EVENT_CHARGE_DISCONNECTED_CHARGER
  | POWER_MANAGEMENT_EVENT_OTG_DEVICE_CONNECTED
  | POWER_MANAGEMENT_EVENT_OTG_DEVICE_DISCONNECTED
  | POWER_MANAGEMENT_EVENT_BUTTON_RELEASED
  | POWER_MANAGEMENT_EVENT_BUTTON_PRESSED
  | POWER_MANAGEMENT_EVENT_BUTTON_CLICKED
  | POWER_MANAGEMENT_EVENT_BUTTON_LONG_PRESSED
  | POWER_MANAGEMENT_EVENT_BUTTON_VERY_LONG_PRESSED
  | POWER_MANAGEMENT_EVENT_IDLE_TIMER_EXPIRED
  | POWER_MANAGEMENT_EVENT_DEVICE_SHUTDOWN
  | POWER_MANAGEMENT_EVENT_DEVICE_SLEEP
  | POWER_MANAGEMENT_EVENT_DEVICE_REBOOT
  | POWER_MANAGEMENT_EVENT_DEVICE_SETUP_FINISHED
  | POWER_MANAGEMENT_EVENT_PMIC_STATUS_UPDATED
  | POWER_MANAGEMENT_EVENT_PMIC_CONTROL_UPDATED
  | POWER_MANAGEMENT_EVENT_BATTERY_LEVEL_UPDATED
  | POWER_MANAGEMENT_EVENT_PORT_CURRENT_UPDATED
  | POWER_MANAGEMENT_EVENT_USER
  | POWER_MANAGEMENT_EVENT_MAX
  deriving DecidableEq

/-- Button classification, `power_management_button_state_t`. -/
inductive power_management_button_state_t
  | POWER_MANAGEMENT_BUTTON_STATE_RELEASED
  | POWER_MANAGEMENT_BUTTON_STATE_PRESSED
  | POWER_MANAGEMENT_BUTTON_STATE_LONG_PRESSED
  | POWER_MANAGEMENT_BUTTON_STATE_VERY_LONG_PRESSED
  deriving DecidableEq

/-- Request kinds, `power_management_request_type_t`. -/
inductive power_management_request_type_t
  | POWER_MANAGEMENT_REQUEST_TYPE_IDLE_TIMER_RESET
  | POWER_MANAGEMENT_REQUEST_TYPE_IDLE_INACTIVITY_TIME_SET
  | POWER_MANAGEMENT_REQUEST_TYPE_IDLE_TIMER_EXPIRED_ACTION_SET
  | POWER_MANAGEMENT_REQUEST_TYPE_ACTIVE_LOCK
  | POWER_MANAGEMENT_REQUEST_TYPE_ACTIVE_UNLOCK
  | POWER_MANAGEMENT_REQUEST_TYPE_SLEEP
  | POWER_MANAGEMENT_REQUEST_TYPE_REBOOT
  | POWER_MANAGEMENT_REQUEST_TYPE_SHUTDOWN
  | POWER_MANAGEMENT_REQUEST_TYPE_POWER_ON
  | POWER_MANAGEMENT_REQUEST_TYPE_MAX
  deriving DecidableEq

/-- Idle-expiry actions, `power_management_idle_timer_expired_action_t`. -/
inductive power_management_idle_timer_expired_action_t
  | POWER_MANAGEMENT_IDLE_TIMER_EXPIRED_ACTION_NOT
  | POWER_MANAGEMENT_IDLE_TIMER_EXPIRED_ACTION_SLEEP
  | POWER_MANAGEMENT_IDLE_TIMER_EXPIRED_ACTION_SHUTDOWN
  deriving DecidableEq

open power_management_state_t power_management_event_t power_management_button_state_t
open power_management_request_type_t power_management_idle_timer_expired_action_t

/-- The request record, `power_management_request_t`. -/
structure power_management_request_t where
  request_type : power_management_request_type_t
  idle_timer_expired_action : power_management_idle_timer_expired_action_t
  inactivity_time_ms : Nat
  deriving DecidableEq

/-! ## Constants -/

/-- `POWER_MANAGEMENT_IDLE_TIMEOUT_MS`. -/
def POWER_MANAGEMENT_IDLE_TIMEOUT_MS : Nat := 30000

/-- `POWER_MANAGEMENT_IDLE_TIMEOUT_MIN_MS`. -/
def POWER_MANAGEMENT_IDLE_TIMEOUT_MIN_MS : Nat := 30000

/-- `POWER_MANAGEMENT_REQUESTS_QUEUE_SIZE`. -/
def POWER_MANAGEMENT_REQUESTS_QUEUE_SIZE : Nat := 10

/-- `POWER_MANAGEMENT_EVENT_AND_ACTION_ON_SLEEP_SHUTDOWN_GAP_MS`. -/
def POWER_MANAGEMENT_EVENT_AND_ACTION_ON_SLEEP_SHUTDOWN_GAP_MS : Nat := 3000

/-! ## Machine arithmetic -/

/-- Number of `uint64_t` values. -/
def UINT64_RANGE : Nat := 18446744073709551616

/-- Number of `uint32_t` values. -/
def UINT32_RANGE : Nat := 4294967296

/-- Largest `int`. -/
def INT_MAX : Int := 2147483647

/-- Subtraction of two `uint64_t` values: the difference modulo `2 ^ 64`. -/
def u64_sub (a b : Nat) : Nat :=
  (a % UINT64_RANGE + (UINT64_RANGE - b % UINT64_RANGE)) % UINT64_RANGE

/-- Conversion of a `uint64_t` to `uint32_t`: the low 32 bits. -/
def u64_to_u32 (a : Nat) : Nat := a % UINT32_RANGE

/-- The 32-bit two's-complement representative of an integer: what an `int`
holds after an increment or decrement that leaves the range. -/
def wrap_int32 (x : Int) : Int := (x + 2147483648) % 4294967296 - 2147483648

/-! ## Callbacks and effects -/

/-- The ten callback pointers of `power_management.c`. -/
inductive Callback
  | _on_device_setup
  | _on_device_sleep
  | _on_device_reboot
  | _on_device_shutdown
  | _on_off_charger_setup
  | _on_off_charger_loop
  | _on_pmic_loop
  | _on_button_state
  | _on_charger_connected_state
  | _on_device_woken_up
  deriving DecidableEq

open Callback

/-- What the supervisor does to the outside, in program order. -/
inductive Effect
  /-- The call `power_management_emit_event(event, NULL, 0)`. -/
  | emit (event : power_management_event_t)
  /-- A call of one of the seven `void` callbacks. -/
  | call (cb : Callback)
  /-- A call of one of the three `bool` callbacks, with the value it returned. -/
  | read (cb : Callback) (value : Bool)
  /-- The call `vTaskDelay(pdMS_TO_TICKS(ms))`. -/
  | delay_ms (ms : Nat)
  /-- The call `vTaskDelay(ticks)`. -/
  | delay_ticks (ticks : Nat)
  /-- A store `_last_activity_millis = pm_millis()`, with the value stored. -/
  | activity (now : Nat)
  /-- A store to `_idle_timeout_ms_set`, with the old and the new value. -/
  | timeout_set (old new : Nat)
  deriving DecidableEq

/-! ## State -/

/-- The file-scope variables read or written by `power_management_handle`,
together with the locals of that function. -/
structure Supervisor where
  /-- Local `pm_state`. -/
  pm_state : power_management_state_t
  /-- Global `_idle_timeout_ms_set` (`uint64_t`). -/
  _idle_timeout_ms_set : Nat
  /-- Global `_last_activity_millis` (`uint64_t`). -/
  _last_activity_millis : Nat
  /-- Global `_active_lock` (`int`). -/
  _active_lock : Int
  /-- Global `_button_state`, written by the button task only. -/
  _button_state : power_management_button_state_t
  /-- Global `_idle_timer_expired_action`. -/
  _idle_timer_expired_action : power_management_idle_timer_expired_action_t
  /-- Local `_idle_timer_expired_event_sent`. -/
  _idle_timer_expired_event_sent : Bool
  /-- Local `_init_start_millis` (`uint64_t`). -/
  _init_start_millis : Nat
  /-- Local `_shutdown_init_log`. -/
  _shutdown_init_log : Bool
  deriving DecidableEq

/-- The values the environment hands to one pass of the loop of
`power_management_handle`. -/
structure Readings where
  /-- Return value of `_on_button_state()`. -/
  button : Bool
  /-- Return value of `_on_device_woken_up()`. -/
  woken_up : Bool
  /-- Return value of `_on_charger_connected_state()`. -/
  charger : Bool
  /-- Return value of `pm_millis()` in the state body. -/
  millis_body : Nat
  /-- Return value of `pm_millis()` in the request switch. -/
  millis_req : Nat
  deriving DecidableEq

/-- The compile-time constants that come from `sdkconfig.h`. -/
structure Config where
  /-- `CONFIG_POWER_MANAGEMENT_INIT_WAIT_FOR_BUTTON_ACTION_MS`. -/
  CONFIG_POWER_MANAGEMENT_INIT_WAIT_FOR_BUTTON_ACTION_MS : Nat
  /-- `CONFIG_POWER_MANAGEMENT_BUTTON_DEBOUNCE_TIME_MS`. -/
  CONFIG_POWER_MANAGEMENT_BUTTON_DEBOUNCE_TIME_MS : Nat
  /-- `CONFIG_POWER_MANAGEMENT_BUTTON_LONG_PRESS_TIME_MS`. -/
  CONFIG_POWER_MANAGEMENT_BUTTON_LONG_PRESS_TIME_MS : Nat
  /-- `CONFIG_POWER_MANAGEMENT_BUTTON_VERY_LONG_PRESS_TIME_MS`. -/
  CONFIG_POWER_MANAGEMENT_BUTTON_VERY_LONG_PRESS_TIME_MS : Nat
  deriving DecidableEq

/-- The state in which `power_management_handle` reaches its `while(1)`: the
static initialisers of the globals and the initialisation of the locals;
`millis0` and `millis1` are the values of the two `pm_millis()` calls. -/
def power_management_handle_start (millis0 millis1 : Nat) : Supervisor :=
  { pm_state := POWER_MANAGEMENT_STATE_INIT
    _idle_timeout_ms_set := POWER_MANAGEMENT_IDLE_TIMEOUT_MS
    _last_activity_millis := millis0
    _active_lock := 0
    _button_state := POWER_MANAGEMENT_BUTTON_STATE_RELEASED
    _idle_timer_expired_action := POWER_MANAGEMENT_IDLE_TIMER_EXPIRED_ACTION_NOT
    _idle_timer_expired_event_sent := false
    _init_start_millis := millis1
    _shutdown_init_log := false }

/-! ## The state bodies of `power_management_handle` -/

/-- `case POWER_MANAGEMENT_STATE_INIT`. -/
def state_INIT (cfg : Config) (r : Readings) (s : Supervisor) : Supervisor × List Effect :=
  if r.button then
    ({ s with pm_state := POWER_MANAGEMENT_STATE_SETUP }, [Effect.read _on_button_state true])
  else if r.woken_up then
    ({ s with pm_state := POWER_MANAGEMENT_STATE_SETUP },
      [Effect.read _on_button_state false, Effect.read _on_device_woken_up true])
  else if r.charger then
    ({ s with pm_state := POWER_MANAGEMENT_STATE_OFF_CHARGER },
      [Effect.read _on_button_state false, Effect.read _on_device_woken_up false,
       Effect.read _on_charger_connected_state true,
       Effect.call _on_off_charger_setup, Effect.delay_ms 3000,
       Effect.emit POWER_MANAGEMENT_EVENT_OFF_CHARGER])
  else if u64_sub r.millis_body s._init_start_millis
      > cfg.CONFIG_POWER_MANAGEMENT_INIT_WAIT_FOR_BUTTON_ACTION_MS then
    ({ s with _shutdown_init_log := true },
      [Effect.read _on_button_state false, Effect.read _on_device_woken_up false,
       Effect.read _on_charger_connected_state false,
       Effect.call _on_device_shutdown])
  else
    (s, [Effect.read _on_button_state false, Effect.read _on_device_woken_up false,
         Effect.read _on_charger_connected_state false])

/-- `case POWER_MANAGEMENT_STATE_OFF_CHARGER`. -/
def state_OFF_CHARGER (r : Readings) (s : Supervisor) : Supervisor × List Effect :=
  if r.charger then
    ((if s._button_state = POWER_MANAGEMENT_BUTTON_STATE_LONG_PRESSED then
        { s with pm_state := POWER_MANAGEMENT_STATE_SETUP }
      else s),
      [Effect.read _on_charger_connected_state true, Effect.call _on_off_charger_loop,
       Effect.delay_ms 100])
  else
    (s, [Effect.read _on_charger_connected_state false, Effect.call _on_device_shutdown])

/-- `case POWER_MANAGEMENT_STATE_SETUP`. -/
def state_SETUP (s : Supervisor) : Supervisor × List Effect :=
  ({ s with pm_state := POWER_MANAGEMENT_STATE_DEV_IDLE },
    [Effect.call _on_device_setup, Effect.delay_ms 3000,
     Effect.emit POWER_MANAGEMENT_EVENT_DEVICE_SETUP_FINISHED])

/-- First statement of `case POWER_MANAGEMENT_STATE_DEV_IDLE` after the
`_on_pmic_loop()` call: `if (_active_lock) pm_state = DEV_ACTIVE`. -/
def state_DEV_IDLE_lock (s : Supervisor) : Supervisor :=
  if s._active_lock ≠ 0 then { s with pm_state := POWER_MANAGEMENT_STATE_DEV_ACTIVE } else s

/-- The `switch(_idle_timer_expired_action)` of the idle-timeout branch. -/
def state_DEV_IDLE_action (s : Supervisor) : Supervisor :=
  match s._idle_timer_expired_action with
  | POWER_MANAGEMENT_IDLE_TIMER_EXPIRED_ACTION_SHUTDOWN =>
    { s with pm_state := POWER_MANAGEMENT_STATE_SHUTDOWN_PREPARE }
  | POWER_MANAGEMENT_IDLE_TIMER_EXPIRED_ACTION_SLEEP =>
    { s with pm_state := POWER_MANAGEMENT_STATE_SLEEP_PREPARE }
  | POWER_MANAGEMENT_IDLE_TIMER_EXPIRED_ACTION_NOT => s

/-- Second statement of the `DEV_IDLE` case: the idle-timeout `if`/`else`. -/
def state_DEV_IDLE_timer (now : Nat) (s : Supervisor) : Supervisor × List Effect :=
  if u64_sub now s._last_activity_millis > s._idle_timeout_ms_set then
    if s._idle_timer_expired_event_sent = false then
      (state_DEV_IDLE_action { s with _idle_timer_expired_event_sent := true },
        [Effect.emit POWER_MANAGEMENT_EVENT_IDLE_TIMER_EXPIRED])
    else
      (state_DEV_IDLE_action s, [])
  else
    ({ s with _idle_timer_expired_event_sent := false }, [])

/-- Third statement of the `DEV_IDLE` case: the very-long-press `if`. -/
def state_DEV_IDLE_button (s : Supervisor) : Supervisor × List Effect :=
  if s._button_state = POWER_MANAGEMENT_BUTTON_STATE_VERY_LONG_PRESSED then
    ({ s with pm_state := POWER_MANAGEMENT_STATE_REBOOT_PREPARE }, [Effect.delay_ms 100])
  else
    (s, [])

/-- `case POWER_MANAGEMENT_STATE_DEV_IDLE`. -/
def state_DEV_IDLE (r : Readings) (s : Supervisor) : Supervisor × List Effect :=
  let s1 := state_DEV_IDLE_lock s
  let t := state_DEV_IDLE_timer r.millis_body s1
  let b := state_DEV_IDLE_button t.1
  (b.1, Effect.call _on_pmic_loop :: (t.2 ++ b.2))

/-- `case POWER_MANAGEMENT_STATE_DEV_ACTIVE`. -/
def state_DEV_ACTIVE (s : Supervisor) : Supervisor × List Effect :=
  ((if s._active_lock = 0 then { s with pm_state := POWER_MANAGEMENT_STATE_DEV_IDLE } else s),
    [Effect.call _on_pmic_loop])

/-- `case POWER_MANAGEMENT_STATE_SHUTDOWN_PREPARE`. -/
def state_SHUTDOWN_PREPARE (s : Supervisor) : Supervisor × List Effect :=
  (s, [Effect.emit POWER_MANAGEMENT_EVENT_DEVICE_SHUTDOWN,
       Effect.delay_ms POWER_MANAGEMENT_EVENT_AND_ACTION_ON_SLEEP_SHUTDOWN_GAP_MS,
       Effect.call _on_device_shutdown])

/-- `case POWER_MANAGEMENT_STATE_REBOOT_PREPARE`. -/
def state_REBOOT_PREPARE (s : Supervisor) : Supervisor × List Effect :=
  (s, [Effect.emit POWER_MANAGEMENT_EVENT_DEVICE_REBOOT,
       Effect.delay_ms POWER_MANAGEMENT_EVENT_AND_ACTION_ON_SLEEP_SHUTDOWN_GAP_MS,
       Effect.call _on_device_reboot])

/-- `case POWER_MANAGEMENT_STATE_SLEEP_PREPARE`. -/
def state_SLEEP_PREPARE (s : Supervisor) : Supervisor × List Effect :=
  (s, [Effect.emit POWER_MANAGEMENT_EVENT_DEVICE_SLEEP,
       Effect.delay_ms POWER_MANAGEMENT_EVENT_AND_ACTION_ON_SLEEP_SHUTDOWN_GAP_MS,
       Effect.call _on_device_sleep])

/-- The `switch(pm_state)` of `power_management_handle`: the body of the
current state, with the effects it produces. -/
def power_management_handle_state_body (cfg : Config) (r : Readings) (s : Supervisor) :
    Supervisor × List Effect :=
  match s.pm_state with
  | POWER_MANAGEMENT_STATE_INIT => state_INIT cfg r s
  | POWER_MANAGEMENT_STATE_OFF_CHARGER => state_OFF_CHARGER r s
  | POWER_MANAGEMENT_STATE_SETUP => state_SETUP s
  | POWER_MANAGEMENT_STATE_DEV_IDLE => state_DEV_IDLE r s
  | POWER_MANAGEMENT_STATE_DEV_ACTIVE => state_DEV_ACTIVE s
  | POWER_MANAGEMENT_STATE_SHUTDOWN_PREPARE => state_SHUTDOWN_PREPARE s
  | POWER_MANAGEMENT_STATE_SHUTDOWN => (s, [])
  | POWER_MANAGEMENT_STATE_REBOOT_PREPARE => state_REBOOT_PREPARE s
  | POWER_MANAGEMENT_STATE_SLEEP_PREPARE => state_SLEEP_PREPARE s
  | POWER_MANAGEMENT_STATE_SLEEP => (s, [])
  | POWER_MANAGEMENT_STATE_MAX => (s, [])

/-! ## The request switch of `power_management_handle` -/

/-- The `switch(req.request_type)` of `power_management_handle`, applied to a
received request; `now` is the value of `pm_millis()`. -/
def power_management_handle_request (now : Nat) (s : Supervisor)
    (req : power_management_request_t) : Supervisor × List Effect :=
  match req.request_type with
  | POWER_MANAGEMENT_REQUEST_TYPE_IDLE_TIMER_RESET =>
    ({ s with _last_activity_millis := now }, [Effect.activity now])
  | POWER_MANAGEMENT_REQUEST_TYPE_IDLE_INACTIVITY_TIME_SET =>
    if req.inactivity_time_ms ≥ POWER_MANAGEMENT_IDLE_TIMEOUT_MIN_MS then
      ({ s with _idle_timeout_ms_set := req.inactivity_time_ms },
        [Effect.timeout_set s._idle_timeout_ms_set req.inactivity_time_ms])
    else
      ({ s with _idle_timeout_ms_set := POWER_MANAGEMENT_IDLE_TIMEOUT_MIN_MS },
        [Effect.timeout_set s._idle_timeout_ms_set POWER_MANAGEMENT_IDLE_TIMEOUT_MIN_MS])
  | POWER_MANAGEMENT_REQUEST_TYPE_ACTIVE_LOCK =>
    ({ s with _last_activity_millis := now, _active_lock := wrap_int32 (s._active_lock + 1) },
      [Effect.activity now])
  | POWER_MANAGEMENT_REQUEST_TYPE_ACTIVE_UNLOCK =>
    ({ s with
        _last_activity_millis := now
        _active_lock :=
          if wrap_int32 (s._active_lock - 1) < 0 then 0 else wrap_int32 (s._active_lock - 1) },
      [Effect.activity now])
  | POWER_MANAGEMENT_REQUEST_TYPE_IDLE_TIMER_EXPIRED_ACTION_SET =>
    ({ s with _idle_timer_expired_action := req.idle_timer_expired_action }, [])
  | POWER_MANAGEMENT_REQUEST_TYPE_SLEEP =>
    ({ s with pm_state := POWER_MANAGEMENT_STATE_SLEEP_PREPARE }, [])
  | POWER_MANAGEMENT_REQUEST_TYPE_REBOOT =>
    ({ s with pm_state := POWER_MANAGEMENT_STATE_REBOOT_PREPARE }, [])
  | POWER_MANAGEMENT_REQUEST_TYPE_SHUTDOWN =>
    ({ s with pm_state := POWER_MANAGEMENT_STATE_SHUTDOWN_PREPARE }, [])
  | POWER_MANAGEMENT_REQUEST_TYPE_POWER_ON => (s, [])
  | POWER_MANAGEMENT_REQUEST_TYPE_MAX => (s, [])

/-- The request switch applied to a sequence of received requests, each with
the clock value read while it is handled. -/
def power_management_handle_requests (s : Supervisor) :
    List (Nat × power_management_request_t) → Supervisor
  | [] => s
  | p :: rest =>
    power_management_handle_requests (power_management_handle_request p.1 s p.2).1 rest

/-- Getter `power_management_idle_get_timeout`: the `uint64_t` global
returned as `uint32_t`. -/
def power_management_idle_get_timeout (s : Supervisor) : Nat :=
  u64_to_u32 s._idle_timeout_ms_set

/-! ## The requests queue and the client API -/

/-- The lifecycle task's variables together with the content of
`_power_management_requests_queue`, oldest request first. -/
structure System where
  /-- Variables of the lifecycle task. -/
  sup : Supervisor
  /-- Content of `_power_management_requests_queue`. -/
  queue : List power_management_request_t
  deriving DecidableEq

/-- `power_management_send_request`: the record is built and appended to the
queue; a request that finds the queue full is dropped. -/
def power_management_send_request (req_type : power_management_request_type_t)
    (inactivity_time_ms : Nat)
    (idle_timer_expired_action : power_management_idle_timer_expired_action_t)
    (q : List power_management_request_t) : List power_management_request_t :=
  if q.length < POWER_MANAGEMENT_REQUESTS_QUEUE_SIZE then
    q ++ [{ request_type := req_type
            idle_timer_expired_action := idle_timer_expired_action
            inactivity_time_ms := inactivity_time_ms }]
  else q

/-- Client call `power_management_idle_set_timeout`. -/
def power_management_idle_set_timeout (timeout_ms : Nat)
    (q : List power_management_request_t) : List power_management_request_t :=
  power_management_send_request POWER_MANAGEMENT_REQUEST_TYPE_IDLE_INACTIVITY_TIME_SET timeout_ms
    POWER_MANAGEMENT_IDLE_TIMER_EXPIRED_ACTION_NOT q

/-- What the other tasks do to the variables shared with the lifecycle task. -/
inductive EnvAction
  /-- A client task calls `power_management_send_request`. -/
  | send (req : power_management_request_t)
  /-- The button task stores a classification in `_button_state`. -/
  | button_state (bs : power_management_button_state_t)
  /-- The button task stores `_last_activity_millis = pm_millis()`. -/
  | button_activity (now : Nat)
  deriving DecidableEq

/-- Effect of one action of another task. -/
def env_step (sys : System) : EnvAction → System × List Effect
  | EnvAction.send req =>
    ({ sys with queue := power_management_send_request req.request_type req.inactivity_time_ms
                           req.idle_timer_expired_action sys.queue }, [])
  | EnvAction.button_state bs => ({ sys with sup := { sys.sup with _button_state := bs } }, [])
  | EnvAction.button_activity now =>
    ({ sys with sup := { sys.sup with _last_activity_millis := now } }, [Effect.activity now])

/-- Effect of a sequence of actions of the other tasks. -/
def env_steps (sys : System) : List EnvAction → System × List Effect
  | [] => (sys, [])
  | a :: rest =>
    ((env_steps (env_step sys a).1 rest).1, (env_step sys a).2 ++ (env_steps (env_step sys a).1 rest).2)

/-- The queue part of the loop of `power_management_handle`: when
`uxQueueMessagesWaiting` is positive, the oldest request is received and
handled. -/
def power_management_handle_drain (r : Readings) (sys : System) : System × List Effect :=
  match sys.queue with
  | [] => (sys, [])
  | req :: rest =>
    ({ sup := (power_management_handle_request r.millis_req sys.sup req).1, queue := rest },
      (power_management_handle_request r.millis_req sys.sup req).2)

/-- One pass of the `while(1)` of `power_management_handle`: state body,
`vTaskDelay(1)`, queue part, `vTaskDelay(1)`. The actions `during` are those
the other tasks perform between the state body and the queue part. -/
def power_management_handle_iteration (cfg : Config) (r : Readings) (during : List EnvAction)
    (sys : System) : System × List Effect :=
  let b := power_management_handle_state_body cfg r sys.sup
  let e := env_steps { sys with sup := b.1 } during
  let d := power_management_handle_drain r e.1
  (d.1, b.2 ++ (Effect.delay_ticks 1 :: (e.2 ++ (d.2 ++ [Effect.delay_ticks 1]))))

/-- Input of one pass: what the other tasks do before it, what the callbacks
and the clock return, and what the other tasks do between the state body and
the queue part. -/
structure Pass where
  /-- Actions of the other tasks before the state body. -/
  before : List EnvAction
  /-- Values returned to the lifecycle task. -/
  readings : Readings
  /-- Actions of the other tasks between state body and queue part. -/
  during : List EnvAction
  deriving DecidableEq

/-- One pass with the actions that precede it. -/
def run_pass (cfg : Config) (p : Pass) (sys : System) : System × List Effect :=
  let a := env_steps sys p.before
  let i := power_management_handle_iteration cfg p.readings p.during a.1
  (i.1, a.2 ++ i.2)

/-- A run: passes in sequence, with the effect trace of the whole. -/
def run (cfg : Config) (sys : System) : List Pass → System × List Effect
  | [] => (sys, [])
  | p :: rest =>
    ((run cfg (run_pass cfg p sys).1 rest).1,
      (run_pass cfg p sys).2 ++ (run cfg (run_pass cfg p sys).1 rest).2)

/-- The system when the lifecycle task reaches its loop: fresh variables and an
empty queue. -/
def system_start (millis0 millis1 : Nat) : System :=
  { sup := power_management_handle_start millis0 millis1, queue := [] }

/-- Clock values read by the button task in a sequence of actions. -/
def env_clocks : List EnvAction → List Nat
  | [] => []
  | EnvAction.button_activity now :: rest => now :: env_clocks rest
  | _ :: rest => env_clocks rest

/-- Clock values read during a pass, in the order of the reads. -/
def pass_clocks (p : Pass) : List Nat :=
  env_clocks p.before ++ (p.readings.millis_body :: (env_clocks p.during ++ [p.readings.millis_req]))

/-- Clock values read during a run, in the order of the reads. -/
def run_clocks : List Pass → List Nat
  | [] => []
  | p :: rest => pass_clocks p ++ run_clocks rest

/-- The clock readings `ts`, in the order they are made, never decrease and
are `uint64_t` values. -/
def clock_nondecreasing (ts : List Nat) : Prop :=
  List.Pairwise (fun a b => a ≤ b) ts ∧ ∀ t ∈ ts, t < UINT64_RANGE

/-! ## Vocabulary of the properties -/

/-- Number of `ACTIVE_LOCK` requests in a sequence of received requests. -/
def count_acquires (reqs : List (Nat × power_management_request_t)) : Nat :=
  reqs.countP (fun p => decide (p.2.request_type = POWER_MANAGEMENT_REQUEST_TYPE_ACTIVE_LOCK))

/-- Number of `ACTIVE_UNLOCK` requests in a sequence of received requests. -/
def count_releases (reqs : List (Nat × power_management_request_t)) : Nat :=
  reqs.countP (fun p => decide (p.2.request_type = POWER_MANAGEMENT_REQUEST_TYPE_ACTIVE_UNLOCK))

/-- Every request of the sequence is an `ACTIVE_LOCK` or an `ACTIVE_UNLOCK`. -/
def lock_requests_only (reqs : List (Nat × power_management_request_t)) : Prop :=
  ∀ p ∈ reqs, p.2.request_type = POWER_MANAGEMENT_REQUEST_TYPE_ACTIVE_LOCK ∨
    p.2.request_type = POWER_MANAGEMENT_REQUEST_TYPE_ACTIVE_UNLOCK

/-- The request enqueued by `power_management_active_lock_acquire`. -/
def request_active_lock : power_management_request_t :=
  { request_type := POWER_MANAGEMENT_REQUEST_TYPE_ACTIVE_LOCK
    idle_timer_expired_action := POWER_MANAGEMENT_IDLE_TIMER_EXPIRED_ACTION_NOT
    inactivity_time_ms := 0 }

/-- The request enqueued by `power_management_active_lock_release`. -/
def request_active_unlock : power_management_request_t :=
  { request_type := POWER_MANAGEMENT_REQUEST_TYPE_ACTIVE_UNLOCK
    idle_timer_expired_action := POWER_MANAGEMENT_IDLE_TIMER_EXPIRED_ACTION_NOT
    inactivity_time_ms := 0 }

/-- Sample values of the `sdkconfig.h` constants. -/
def example_config : Config :=
  { CONFIG_POWER_MANAGEMENT_INIT_WAIT_FOR_BUTTON_ACTION_MS := 5000
    CONFIG_POWER_MANAGEMENT_BUTTON_DEBOUNCE_TIME_MS := 50
    CONFIG_POWER_MANAGEMENT_BUTTON_LONG_PRESS_TIME_MS := 1000
    CONFIG_POWER_MANAGEMENT_BUTTON_VERY_LONG_PRESS_TIME_MS := 5000 }

/-- Readings of a pass at clock value `millis` in which no callback reports
anything. -/
def readings_quiet (millis : Nat) : Readings :=
  { button := false, woken_up := false, charger := false
    millis_body := millis, millis_req := millis }

/-- Sample sequence of lock requests: a release, then an acquire. -/
def example_release_first : List (Nat × power_management_request_t) :=
  [(1, request_active_unlock), (2, request_active_lock)]

/-- The event that announces a terminal callback: `DEVICE_SHUTDOWN` for
`shutdown()`, `DEVICE_SLEEP` for `sleep()`, `DEVICE_REBOOT` for `reboot()`;
the other callbacks are not terminal. -/
def terminal_event : Callback → Option power_management_event_t
  | _on_device_shutdown => some POWER_MANAGEMENT_EVENT_DEVICE_SHUTDOWN
  | _on_device_sleep => some POWER_MANAGEMENT_EVENT_DEVICE_SLEEP
  | _on_device_reboot => some POWER_MANAGEMENT_EVENT_DEVICE_REBOOT
  | _ => none

/-- Every call of a terminal callback in the trace comes after an emission of
its event, with a delay of `GAP_MS` between the two. -/
def terminal_calls_announced (tr : List Effect) : Prop :=
  ∀ cb ev pre post, terminal_event cb = some ev → tr = pre ++ Effect.call cb :: post →
    ∃ a b, pre = a ++ Effect.emit ev :: b ∧
      Effect.delay_ms POWER_MANAGEMENT_EVENT_AND_ACTION_ON_SLEEP_SHUTDOWN_GAP_MS ∈ b

/-- Every call of a terminal callback in the trace comes right after the
emission of its event and a delay of `GAP_MS`, except that a call of
`shutdown()` may instead come right after a `charger_connected()` that
returned false. -/
def terminal_calls_announced_or_unplugged (tr : List Effect) : Prop :=
  ∀ cb ev pre post, terminal_event cb = some ev → tr = pre ++ Effect.call cb :: post →
    (∃ a, pre = a ++ [Effect.emit ev,
        Effect.delay_ms POWER_MANAGEMENT_EVENT_AND_ACTION_ON_SLEEP_SHUTDOWN_GAP_MS]) ∨
    (cb = _on_device_shutdown ∧
      ∃ a, pre = a ++ [Effect.read _on_charger_connected_state false])

/-- No terminal callback is called in the trace. -/
def no_terminal_call (tr : List Effect) : Prop :=
  ∀ cb ev, terminal_event cb = some ev → Effect.call cb ∉ tr

/-- A run from boot with all readings false: a pass at 10 ms, and a pass at
5001 ms, when the wait for a button action has run out. -/
def example_run_unexplained_boot : List Pass :=
  [ { before := [], readings := readings_quiet 10, during := [] },
    { before := [], readings := readings_quiet 5001, during := [] } ]

/-- The request enqueued by `power_management_trigger_reboot`. -/
def request_reboot : power_management_request_t :=
  { request_type := POWER_MANAGEMENT_REQUEST_TYPE_REBOOT
    idle_timer_expired_action := POWER_MANAGEMENT_IDLE_TIMER_EXPIRED_ACTION_NOT
    inactivity_time_ms := 0 }

/-- A run from a wake-up boot in which a client asks for a reboot: `INIT`,
then `REBOOT_PREPARE`. -/
def example_run_reboot : List Pass :=
  [ { before := [EnvAction.send request_reboot]
      readings := { button := false, woken_up := true, charger := false,
                    millis_body := 1, millis_req := 2 }
      during := [] },
    { before := [], readings := readings_quiet 3, during := [] } ]

/-- The emission of `IDLE_TIMER_EXPIRED`. -/
def idle_timer_expired : Effect := Effect.emit POWER_MANAGEMENT_EVENT_IDLE_TIMER_EXPIRED

/-- An activity signal: a store to `_last_activity_millis`. -/
def is_activity : Effect → Bool
  | Effect.activity _ => true
  | _ => false

/-- A store to `_idle_timeout_ms_set` that raises the idle timeout. -/
def is_timeout_raise : Effect → Bool
  | Effect.timeout_set old new => decide (old < new)
  | _ => false

/-- Between any two emissions of `IDLE_TIMER_EXPIRED` in the trace there is an
activity signal: at most one emission between two consecutive signals. -/
def expired_once_per_activity_window (tr : List Effect) : Prop :=
  ∀ pre mid post, tr = pre ++ idle_timer_expired :: (mid ++ idle_timer_expired :: post) →
    ∃ e ∈ mid, is_activity e = true

/-- Between any two emissions of `IDLE_TIMER_EXPIRED` in the trace there is an
activity signal or a store that raises the idle timeout. -/
def expired_once_per_window_unless_raised (tr : List Effect) : Prop :=
  ∀ pre mid post, tr = pre ++ idle_timer_expired :: (mid ++ idle_timer_expired :: post) →
    ∃ e ∈ mid, is_activity e = true ∨ is_timeout_raise e = true

/-- One step of the monitor of `IDLE_TIMER_EXPIRED` emissions. The state
`some true` means that an emission has been seen since the last activity
signal or raise of the timeout, `none` that a second one has been seen. -/
def expired_monitor_step (m : Option Bool) (e : Effect) : Option Bool :=
  match m with
  | none => none
  | some b =>
    if e = idle_timer_expired then (if b then none else some true)
    else if is_activity e = true ∨ is_timeout_raise e = true then some false
    else some b

/-- The monitor of `IDLE_TIMER_EXPIRED` emissions run over a trace. -/
def expired_monitor (m : Option Bool) (tr : List Effect) : Option Bool :=
  tr.foldl expired_monitor_step m

/-- What the monitor state `m` says about the supervisor when the clock has
reached `c`: the last activity is not in the future, and after an emission
the latch is set and the idle timer is still expired. -/
def expired_invariant (s : Supervisor) (m : Bool) (c : Nat) : Prop :=
  s._last_activity_millis ≤ c ∧
  (m = true → s._idle_timer_expired_event_sent = true ∧
    s._last_activity_millis + s._idle_timeout_ms_set < c)

/-- The request enqueued by `power_management_idle_set_timeout`. -/
def request_idle_timeout (timeout_ms : Nat) : power_management_request_t :=
  { request_type := POWER_MANAGEMENT_REQUEST_TYPE_IDLE_INACTIVITY_TIME_SET
    idle_timer_expired_action := POWER_MANAGEMENT_IDLE_TIMER_EXPIRED_ACTION_NOT
    inactivity_time_ms := timeout_ms }

/-- The request enqueued by `power_management_idle_reset_timer`. -/
def request_idle_reset : power_management_request_t :=
  { request_type := POWER_MANAGEMENT_REQUEST_TYPE_IDLE_TIMER_RESET
    idle_timer_expired_action := POWER_MANAGEMENT_IDLE_TIMER_EXPIRED_ACTION_NOT
    inactivity_time_ms := 0 }

/-- A run from a wake-up boot with no idle action configured: the client
resets the idle timer at 3000 ms, the timer expires at 33001 ms, the client
raises the timeout to 60 s, the timer expires again at 63001 ms, and the
client resets the timer once more; no activity between the two resets. -/
def example_run_timeout_raised : List Pass :=
  [ { before := []
      readings := { button := false, woken_up := true, charger := false,
                    millis_body := 0, millis_req := 0 }
      during := [] },
    { before := [EnvAction.send request_idle_reset], readings := readings_quiet 3000,
      during := [] },
    { before := [EnvAction.send (request_idle_timeout 60000)]
      readings := readings_quiet 33001, during := [] },
    { before := [], readings := readings_quiet 33003, during := [] },
    { before := [EnvAction.send request_idle_reset], readings := readings_quiet 63001,
      during := [] } ]

/-- The effect trace of the run `example_run_timeout_raised`. -/
def example_trace_timeout_raised : List Effect :=
  [Effect.read _on_button_state false, Effect.read _on_device_woken_up true,
   Effect.delay_ticks 1, Effect.delay_ticks 1,
   Effect.call _on_device_setup, Effect.delay_ms 3000,
   Effect.emit POWER_MANAGEMENT_EVENT_DEVICE_SETUP_FINISHED,
   Effect.delay_ticks 1, Effect.activity 3000, Effect.delay_ticks 1,
   Effect.call _on_pmic_loop, Effect.emit POWER_MANAGEMENT_EVENT_IDLE_TIMER_EXPIRED,
   Effect.delay_ticks 1, Effect.timeout_set 30000 60000, Effect.delay_ticks 1,
   Effect.call _on_pmic_loop, Effect.delay_ticks 1, Effect.delay_ticks 1,
   Effect.call _on_pmic_loop, Effect.emit POWER_MANAGEMENT_EVENT_IDLE_TIMER_EXPIRED,
   Effect.delay_ticks 1, Effect.activity 63001, Effect.delay_ticks 1]

/-- An effect the monitor of `IDLE_TIMER_EXPIRED` emissions does not react to. -/
def monitor_neutral (e : Effect) : Prop :=
  e ≠ idle_timer_expired ∧ is_activity e = false ∧ is_timeout_raise e = false

/-- The request enqueued by `power_management_idle_timer_expired_action_set`. -/
def request_idle_action (action : power_management_idle_timer_expired_action_t) :
    power_management_request_t :=
  { request_type := POWER_MANAGEMENT_REQUEST_TYPE_IDLE_TIMER_EXPIRED_ACTION_SET
    idle_timer_expired_action := action
    inactivity_time_ms := 0 }

/-- A run from a wake-up boot in which the client acquires the lock and
configures the idle action `SHUTDOWN` at once (both requests are sent before
the first pass; the lock request is handled in the first pass, at 10 ms), and
the `setup()` callback of the second pass lasts 31 s. -/
def example_run_locked_expired : List Pass :=
  [ { before := [EnvAction.send request_active_lock,
                 EnvAction.send
                   (request_idle_action POWER_MANAGEMENT_IDLE_TIMER_EXPIRED_ACTION_SHUTDOWN)]
      readings := { button := false, woken_up := true, charger := false,
                    millis_body := 8, millis_req := 10 }
      during := [] },
    { before := []
      readings := { button := false, woken_up := false, charger := false,
                    millis_body := 12, millis_req := 31012 }
      during := [] } ]

/-- The supervisor in `DEV_IDLE` with the lock held once, no button pressed,
the idle action `SHUTDOWN`, and the last activity at 10 ms. -/
def example_locked_expired : Supervisor :=
  { pm_state := POWER_MANAGEMENT_STATE_DEV_IDLE
    _idle_timeout_ms_set := 30000
    _last_activity_millis := 10
    _active_lock := 1
    _button_state := POWER_MANAGEMENT_BUTTON_STATE_RELEASED
    _idle_timer_expired_action := POWER_MANAGEMENT_IDLE_TIMER_EXPIRED_ACTION_SHUTDOWN
    _idle_timer_expired_event_sent := false
    _init_start_millis := 0
    _shutdown_init_log := false }

/-- The supervisor in the given state, all other variables as at the start
of the lifecycle task at clock value 0. -/
def example_in_state (st : power_management_state_t) : Supervisor :=
  { power_management_handle_start 0 0 with pm_state := st }

/-! ## The button task, `power_management_button_handle` -/

/-- The variables of the button task: the file-scope variables (of which the
task writes `_button_state` and `_last_activity_millis`) and the locals of
`power_management_button_handle`. -/
structure ButtonTask where
  /-- File-scope variables. -/
  sup : Supervisor
  /-- Local `_button_state_current`. -/
  _button_state_current : Bool
  /-- Local `_button_state_old`. -/
  _button_state_old : Bool
  /-- Local `_button_state_change_millis` (`uint64_t`). -/
  _button_state_change_millis : Nat
  deriving DecidableEq

/-- The values the environment hands to one pass of the loop of
`power_management_button_handle`. -/
structure ButtonReadings where
  /-- Return value of `_on_button_state()`. -/
  button : Bool
  /-- Return value of `pm_millis()` where a level change is time-stamped. -/
  millis_edge : Nat
  /-- Return value of `pm_millis()` where the time since the last level change
  is compared with a threshold. -/
  millis_check : Nat
  /-- Return value of `pm_millis()` where `_last_activity_millis` is stored. -/
  millis_activity : Nat
  deriving DecidableEq

/-- The state in which `power_management_button_handle` reaches its
`while(1)`: the locals initialised, the file-scope variables as they are. -/
def power_management_button_handle_start (sup : Supervisor) : ButtonTask :=
  { sup := sup
    _button_state_current := false
    _button_state_old := false
    _button_state_change_millis := 0 }

/-- The assignment `_button_state = bs`. -/
def set_button_state (bt : ButtonTask) (bs : power_management_button_state_t) : ButtonTask :=
  { bt with sup := { bt.sup with _button_state := bs } }

/-- The assignment `_last_activity_millis = now`. -/
def set_last_activity (bt : ButtonTask) (now : Nat) : ButtonTask :=
  { bt with sup := { bt.sup with _last_activity_millis := now } }

/-- First part of `case POWER_MANAGEMENT_BUTTON_STATE_RELEASED`: the level is
read, and a level change is recorded with its time. -/
def button_RELEASED_edge (r : ButtonReadings) (bt : ButtonTask) : ButtonTask :=
  if bt._button_state_old ≠ r.button then
    { bt with
      _button_state_current := r.button
      _button_state_old := r.button
      _button_state_change_millis := r.millis_edge }
  else
    { bt with _button_state_current := r.button }

/-- `case POWER_MANAGEMENT_BUTTON_STATE_RELEASED`. -/
def button_RELEASED (cfg : Config) (r : ButtonReadings) (bt : ButtonTask) :
    ButtonTask × List Effect :=
  if (button_RELEASED_edge r bt)._button_state_old = true ∧
      u64_sub r.millis_check (button_RELEASED_edge r bt)._button_state_change_millis
        > cfg.CONFIG_POWER_MANAGEMENT_BUTTON_DEBOUNCE_TIME_MS then
    (set_button_state (button_RELEASED_edge r bt) POWER_MANAGEMENT_BUTTON_STATE_PRESSED,
      [Effect.read _on_button_state r.button,
       Effect.emit POWER_MANAGEMENT_EVENT_BUTTON_PRESSED])
  else
    (button_RELEASED_edge r bt, [Effect.read _on_button_state r.button])

/-- `case POWER_MANAGEMENT_BUTTON_STATE_PRESSED`. -/
def button_PRESSED (cfg : Config) (r : ButtonReadings) (bt : ButtonTask) :
    ButtonTask × List Effect :=
  if r.button = false then
    (set_button_state bt POWER_MANAGEMENT_BUTTON_STATE_RELEASED,
      [Effect.read _on_button_state false,
       Effect.emit POWER_MANAGEMENT_EVENT_BUTTON_RELEASED,
       Effect.emit POWER_MANAGEMENT_EVENT_BUTTON_CLICKED])
  else if u64_sub r.millis_check bt._button_state_change_millis
      > cfg.CONFIG_POWER_MANAGEMENT_BUTTON_LONG_PRESS_TIME_MS then
    (set_button_state bt POWER_MANAGEMENT_BUTTON_STATE_LONG_PRESSED,
      [Effect.read _on_button_state true,
       Effect.emit POWER_MANAGEMENT_EVENT_BUTTON_LONG_PRESSED])
  else
    (set_last_activity bt r.millis_activity,
      [Effect.read _on_button_state true, Effect.activity r.millis_activity])

/-- `case POWER_MANAGEMENT_BUTTON_STATE_LONG_PRESSED`. -/
def button_LONG_PRESSED (cfg : Config) (r : ButtonReadings) (bt : ButtonTask) :
    ButtonTask × List Effect :=
  if r.button = false then
    (set_button_state bt POWER_MANAGEMENT_BUTTON_STATE_RELEASED,
      [Effect.read _on_button_state false,
       Effect.emit POWER_MANAGEMENT_EVENT_BUTTON_RELEASED])
  else if u64_sub r.millis_check bt._button_state_change_millis
      > cfg.CONFIG_POWER_MANAGEMENT_BUTTON_VERY_LONG_PRESS_TIME_MS then
    (set_button_state bt POWER_MANAGEMENT_BUTTON_STATE_VERY_LONG_PRESSED,
      [Effect.read _on_button_state true,
       Effect.emit POWER_MANAGEMENT_EVENT_BUTTON_VERY_LONG_PRESSED])
  else
    (set_last_activity bt r.millis_activity,
      [Effect.read _on_button_state true, Effect.activity r.millis_activity])

/-- `case POWER_MANAGEMENT_BUTTON_STATE_VERY_LONG_PRESSED`. -/
def button_VERY_LONG_PRESSED (r : ButtonReadings) (bt : ButtonTask) :
    ButtonTask × List Effect :=
  if r.button = false then
    (set_button_state bt POWER_MANAGEMENT_BUTTON_STATE_RELEASED,
      [Effect.read _on_button_state false,
       Effect.emit POWER_MANAGEMENT_EVENT_BUTTON_RELEASED])
  else
    (set_last_activity bt r.millis_activity,
      [Effect.read _on_button_state true, Effect.activity r.millis_activity])

/-- The `switch(_button_state)` of `power_management_button_handle`. -/
def power_management_button_handle_state_body (cfg : Config) (r : ButtonReadings)
    (bt : ButtonTask) : ButtonTask × List Effect :=
  match bt.sup._button_state with
  | POWER_MANAGEMENT_BUTTON_STATE_RELEASED => button_RELEASED cfg r bt
  | POWER_MANAGEMENT_BUTTON_STATE_PRESSED => button_PRESSED cfg r bt
  | POWER_MANAGEMENT_BUTTON_STATE_LONG_PRESSED => button_LONG_PRESSED cfg r bt
  | POWER_MANAGEMENT_BUTTON_STATE_VERY_LONG_PRESSED => button_VERY_LONG_PRESSED r bt

/-- One pass of the `while(1)` of `power_management_button_handle`: a tick of
the button FSM, then `vTaskDelay(1)`. -/
def power_management_button_handle_iteration (cfg : Config) (r : ButtonReadings)
    (bt : ButtonTask) : ButtonTask × List Effect :=
  ((power_management_button_handle_state_body cfg r bt).1,
    (power_management_button_handle_state_body cfg r bt).2 ++ [Effect.delay_ticks 1])

/-- A run of the button task: ticks in sequence, with the effect trace of the
whole. -/
def button_run (cfg : Config) (bt : ButtonTask) : List ButtonReadings → ButtonTask × List Effect
  | [] => (bt, [])
  | r :: rest =>
    ((button_run cfg (power_management_button_handle_iteration cfg r bt).1 rest).1,
      (power_management_button_handle_iteration cfg r bt).2
        ++ (button_run cfg (power_management_button_handle_iteration cfg r bt).1 rest).2)

/-- The events emitted in a trace, in order. -/
def emitted_events : List Effect → List power_management_event_t
  | [] => []
  | Effect.emit event :: rest => event :: emitted_events rest
  | _ :: rest => emitted_events rest

/-- A tick at clock value `millis` on which the button is read as `level`. -/
def sample (level : Bool) (millis : Nat) : ButtonReadings :=
  { button := level, millis_edge := millis, millis_check := millis, millis_activity := millis }

/-- The button sampled once per millisecond from clock value `t` on: the
`i`-th level of the list is read at `t + i`. -/
def samples_from (t : Nat) : List Bool → List ButtonReadings
  | [] => []
  | level :: rest => sample level t :: samples_from (t + 1) rest

/-- Sample values of the `sdkconfig.h` constants with short button times. -/
def example_config_short : Config :=
  { CONFIG_POWER_MANAGEMENT_INIT_WAIT_FOR_BUTTON_ACTION_MS := 5000
    CONFIG_POWER_MANAGEMENT_BUTTON_DEBOUNCE_TIME_MS := 2
    CONFIG_POWER_MANAGEMENT_BUTTON_LONG_PRESS_TIME_MS := 5
    CONFIG_POWER_MANAGEMENT_BUTTON_VERY_LONG_PRESS_TIME_MS := 8 }

/-- The button task at its start, the file-scope variables as at the start of
the lifecycle task at clock value 0. -/
def example_button_start : ButtonTask :=
  power_management_button_handle_start (power_management_handle_start 0 0)

/-- Recogniser of the event sequences made of press cycles, read from the
button state `st` on. A cycle is one of `PRESSED RELEASED CLICKED`,
`PRESSED LONG_PRESSED RELEASED` and
`PRESSED LONG_PRESSED VERY_LONG_PRESSED RELEASED`; the last cycle may be cut
short. So `BUTTON_PRESSED` and `BUTTON_RELEASED` alternate, a press holds at
most one `BUTTON_LONG_PRESSED` and at most one `BUTTON_VERY_LONG_PRESSED`, the
latter after the former, and `BUTTON_CLICKED` comes exactly right after the
`BUTTON_RELEASED` of a press without `BUTTON_LONG_PRESSED`. -/
def button_cycles : power_management_button_state_t → List power_management_event_t → Bool
  | _, [] => true
  | POWER_MANAGEMENT_BUTTON_STATE_RELEASED, POWER_MANAGEMENT_EVENT_BUTTON_PRESSED :: rest =>
    button_cycles POWER_MANAGEMENT_BUTTON_STATE_PRESSED rest
  | POWER_MANAGEMENT_BUTTON_STATE_PRESSED,
      POWER_MANAGEMENT_EVENT_BUTTON_RELEASED :: POWER_MANAGEMENT_EVENT_BUTTON_CLICKED :: rest =>
    button_cycles POWER_MANAGEMENT_BUTTON_STATE_RELEASED rest
  | POWER_MANAGEMENT_BUTTON_STATE_PRESSED, POWER_MANAGEMENT_EVENT_BUTTON_LONG_PRESSED :: rest =>
    button_cycles POWER_MANAGEMENT_BUTTON_STATE_LONG_PRESSED rest
  | POWER_MANAGEMENT_BUTTON_STATE_LONG_PRESSED, POWER_MANAGEMENT_EVENT_BUTTON_RELEASED :: rest =>
    button_cycles POWER_MANAGEMENT_BUTTON_STATE_RELEASED rest
  | POWER_MANAGEMENT_BUTTON_STATE_LONG_PRESSED,
      POWER_MANAGEMENT_EVENT_BUTTON_VERY_LONG_PRESSED :: rest =>
    button_cycles POWER_MANAGEMENT_BUTTON_STATE_VERY_LONG_PRESSED rest
  | POWER_MANAGEMENT_BUTTON_STATE_VERY_LONG_PRESSED,
      POWER_MANAGEMENT_EVENT_BUTTON_RELEASED :: rest =>
    button_cycles POWER_MANAGEMENT_BUTTON_STATE_RELEASED rest
  | _, _ => false

/-- The `BUTTON_PRESSED` and `BUTTON_RELEASED` events of a sequence, in order. -/
def presses_and_releases : List power_management_event_t → List power_management_event_t
  | [] => []
  | POWER_MANAGEMENT_EVENT_BUTTON_PRESSED :: rest =>
    POWER_MANAGEMENT_EVENT_BUTTON_PRESSED :: presses_and_releases rest
  | POWER_MANAGEMENT_EVENT_BUTTON_RELEASED :: rest =>
    POWER_MANAGEMENT_EVENT_BUTTON_RELEASED :: presses_and_releases rest
  | _ :: rest => presses_and_releases rest

/-- The sequence `PRESSED, RELEASED, PRESSED, RELEASED, ...` (when `pressed` is
false) or `RELEASED, PRESSED, RELEASED, ...` (when it is true), of any
length. -/
def alternating (pressed : Bool) : List power_management_event_t → Bool
  | [] => true
  | e :: rest =>
    (if pressed then decide (e = POWER_MANAGEMENT_EVENT_BUTTON_RELEASED)
      else decide (e = POWER_MANAGEMENT_EVENT_BUTTON_PRESSED))
    && alternating (!pressed) rest

/-- The button state reached when the button has been read high on every tick
from a first high read in `RELEASED` up to a tick `e` ms later, for
thresholds `DEBOUNCE < LONG_PRESS < VERY_LONG_PRESS`. -/
def press_class (cfg : Config) (e : Nat) : power_management_button_state_t :=
  if e ≤ cfg.CONFIG_POWER_MANAGEMENT_BUTTON_DEBOUNCE_TIME_MS then
    POWER_MANAGEMENT_BUTTON_STATE_RELEASED
  else if e ≤ cfg.CONFIG_POWER_MANAGEMENT_BUTTON_LONG_PRESS_TIME_MS then
    POWER_MANAGEMENT_BUTTON_STATE_PRESSED
  else if e ≤ cfg.CONFIG_POWER_MANAGEMENT_BUTTON_VERY_LONG_PRESS_TIME_MS then
    POWER_MANAGEMENT_BUTTON_STATE_LONG_PRESSED
  else POWER_MANAGEMENT_BUTTON_STATE_VERY_LONG_PRESSED

/-- The events emitted on the way to `press_class cfg e`. -/
def press_events (cfg : Config) (e : Nat) : List power_management_event_t :=
  if e ≤ cfg.CONFIG_POWER_MANAGEMENT_BUTTON_DEBOUNCE_TIME_MS then []
  else if e ≤ cfg.CONFIG_POWER_MANAGEMENT_BUTTON_LONG_PRESS_TIME_MS then
    [POWER_MANAGEMENT_EVENT_BUTTON_PRESSED]
  else if e ≤ cfg.CONFIG_POWER_MANAGEMENT_BUTTON_VERY_LONG_PRESS_TIME_MS then
    [POWER_MANAGEMENT_EVENT_BUTTON_PRESSED, POWER_MANAGEMENT_EVENT_BUTTON_LONG_PRESSED]
  else
    [POWER_MANAGEMENT_EVENT_BUTTON_PRESSED, POWER_MANAGEMENT_EVENT_BUTTON_LONG_PRESSED,
     POWER_MANAGEMENT_EVENT_BUTTON_VERY_LONG_PRESSED]

/-- The events emitted by the tick that reads the button low in state `st`. -/
def release_events : power_management_button_state_t → List power_management_event_t
  | POWER_MANAGEMENT_BUTTON_STATE_RELEASED => []
  | POWER_MANAGEMENT_BUTTON_STATE_PRESSED =>
    [POWER_MANAGEMENT_EVENT_BUTTON_RELEASED, POWER_MANAGEMENT_EVENT_BUTTON_CLICKED]
  | _ => [POWER_MANAGEMENT_EVENT_BUTTON_RELEASED]

/-- The levels of one press: `lead` low reads, `highs` high reads, `tail` low
reads. -/
def press_levels (lead highs tail : Nat) : List Bool :=
  List.replicate lead false ++ (List.replicate highs true ++ List.replicate tail false)

/-- Every tick of the run that moves the button FSM from `RELEASED` to
`PRESSED` comes after high reads only on the ticks of the `DEBOUNCE_MS`
before it. -/
def presses_debounced (cfg : Config) (bt : ButtonTask) (rs : List ButtonReadings) : Prop :=
  ∀ pre r post, rs = pre ++ r :: post →
    (button_run cfg bt pre).1.sup._button_state = POWER_MANAGEMENT_BUTTON_STATE_RELEASED →
    (button_run cfg bt (pre ++ [r])).1.sup._button_state
      = POWER_MANAGEMENT_BUTTON_STATE_PRESSED →
    ∀ q ∈ pre, r.millis_check ≤ q.millis_check + cfg.CONFIG_POWER_MANAGEMENT_BUTTON_DEBOUNCE_TIME_MS →
      q.button = true

/-- A press of 4 ms, one low read, and a high read again: the samples taken
at 0, 1, ..., 5 ms. -/
def example_bounce_samples : List ButtonReadings :=
  samples_from 0 [true, true, true, true, false, true]

/-- The button task in the button state `bs`, with a level change to high
recorded at clock value `change`. -/
def example_button_in (bs : power_management_button_state_t) (change : Nat) : ButtonTask :=
  { sup := { power_management_handle_start 0 0 with _button_state := bs }
    _button_state_current := true
    _button_state_old := true
    _button_state_change_millis := change }

/-- A pass in which the other tasks do nothing. -/
def quiet_pass (r : Readings) : Pass :=
  { before := [], readings := r, during := [] }

/-- Requests handled one per pass in the order of the list, each one after
the state body of its pass and on the state that body produced. -/
def handle_in_order (cfg : Config) (s : Supervisor) :
    List (Readings × power_management_request_t) → Supervisor
  | [] => s
  | p :: rest =>
    handle_in_order cfg
      (power_management_handle_request p.1.millis_req
        (power_management_handle_state_body cfg p.1 s).1 p.2).1 rest

/-- The supervisor in `DEV_IDLE` with the idle action `SHUTDOWN`, all other
variables as at the start of the lifecycle task at clock value 0. -/
def example_idle_shutdown : Supervisor :=
  { example_in_state POWER_MANAGEMENT_STATE_DEV_IDLE with
    _idle_timer_expired_action := POWER_MANAGEMENT_IDLE_TIMER_EXPIRED_ACTION_SHUTDOWN }

/-- A pass before which a client sends the request `req`, the other tasks
doing nothing else. -/
def pass_sending (req : power_management_request_t) (r : Readings) : Pass :=
  { before := [EnvAction.send req], readings := r, during := [] }

/-- The run of the lock scenario: a pass in which `ACTIVE_LOCK` is sent and
handled, the passes `rA :: rsA`, a pass in which `ACTIVE_UNLOCK` is sent and
handled, and the passes `rsI`. -/
def lock_scenario (rL rA : Readings) (rsA : List Readings) (rU : Readings)
    (rsI : List Readings) : List Pass :=
  (pass_sending request_active_lock rL :: quiet_pass rA :: rsA.map quiet_pass)
    ++ (pass_sending request_active_unlock rU :: rsI.map quiet_pass)

/-! ## The state bodies with the return value of the event post made explicit

`power_management_emit_event` returns what `esp_event_post` returns. In the
definitions below `esp_event_post event` is that return value (an
`esp_err_t`, an `int`) for the post of `event`; within one state body or one
button tick no event is posted twice, so such a function describes every
combination of successes and failures of the posts of one body. Each internal
call is the expression statement `power_management_emit_event(event, NULL, 0);`. -/

/-- ESP-IDF's `ESP_OK`. -/
def ESP_OK : Int := 0

/-- ESP-IDF's `ESP_FAIL`. -/
def ESP_FAIL : Int := -1

/-- `power_management_emit_event(event, NULL, 0)`: the post, and the return
value of `esp_event_post` as the return value. -/
def power_management_emit_event (esp_event_post : power_management_event_t → Int)
    (event : power_management_event_t) : Int × List Effect :=
  (esp_event_post event, [Effect.emit event])

/-- The expression statement `power_management_emit_event(event, NULL, 0);`:
the effects of the call, its value not stored. -/
def emit_statement (esp_event_post : power_management_event_t → Int)
    (event : power_management_event_t) : List Effect :=
  (power_management_emit_event esp_event_post event).2

/-- `case POWER_MANAGEMENT_STATE_INIT`, the post's return value explicit. -/
def state_INIT_posting (esp_event_post : power_management_event_t → Int) (cfg : Config)
    (r : Readings) (s : Supervisor) : Supervisor × List Effect :=
  if r.button then
    ({ s with pm_state := POWER_MANAGEMENT_STATE_SETUP }, [Effect.read _on_button_state true])
  else if r.woken_up then
    ({ s with pm_state := POWER_MANAGEMENT_STATE_SETUP },
      [Effect.read _on_button_state false, Effect.read _on_device_woken_up true])
  else if r.charger then
    ({ s with pm_state := POWER_MANAGEMENT_STATE_OFF_CHARGER },
      [Effect.read _on_button_state false, Effect.read _on_device_woken_up false,
       Effect.read _on_charger_connected_state true,
       Effect.call _on_off_charger_setup, Effect.delay_ms 3000]
      ++ emit_statement esp_event_post POWER_MANAGEMENT_EVENT_OFF_CHARGER)
  else if u64_sub r.millis_body s._init_start_millis
      > cfg.CONFIG_POWER_MANAGEMENT_INIT_WAIT_FOR_BUTTON_ACTION_MS then
    ({ s with _shutdown_init_log := true },
      [Effect.read _on_button_state false, Effect.read _on_device_woken_up false,
       Effect.read _on_charger_connected_state false,
       Effect.call _on_device_shutdown])
  else
    (s, [Effect.read _on_button_state false, Effect.read _on_device_woken_up false,
         Effect.read _on_charger_connected_state false])

/-- `case POWER_MANAGEMENT_STATE_SETUP`, the post's return value explicit. -/
def state_SETUP_posting (esp_event_post : power_management_event_t → Int) (s : Supervisor) :
    Supervisor × List Effect :=
  ({ s with pm_state := POWER_MANAGEMENT_STATE_DEV_IDLE },
    [Effect.call _on_device_setup, Effect.delay_ms 3000]
    ++ emit_statement esp_event_post POWER_MANAGEMENT_EVENT_DEVICE_SETUP_FINISHED)

/-- The idle-timeout `if`/`else` of the `DEV_IDLE` case, the post's return
value explicit: the post, then the store to the latch, then the action
switch. -/
def state_DEV_IDLE_timer_posting (esp_event_post : power_management_event_t → Int) (now : Nat)
    (s : Supervisor) : Supervisor × List Effect :=
  if u64_sub now s._last_activity_millis > s._idle_timeout_ms_set then
    if s._idle_timer_expired_event_sent = false then
      (state_DEV_IDLE_action { s with _idle_timer_expired_event_sent := true },
        emit_statement esp_event_post POWER_MANAGEMENT_EVENT_IDLE_TIMER_EXPIRED)
    else
      (state_DEV_IDLE_action s, [])
  else
    ({ s with _idle_timer_expired_event_sent := false }, [])

/-- `case POWER_MANAGEMENT_STATE_DEV_IDLE`, the post's return value explicit. -/
def state_DEV_IDLE_posting (esp_event_post : power_management_event_t → Int) (r : Readings)
    (s : Supervisor) : Supervisor × List Effect :=
  let s1 := state_DEV_IDLE_lock s
  let t := state_DEV_IDLE_timer_posting esp_event_post r.millis_body s1
  let b := state_DEV_IDLE_button t.1
  (b.1, Effect.call _on_pmic_loop :: (t.2 ++ b.2))

/-- `case POWER_MANAGEMENT_STATE_SHUTDOWN_PREPARE`, the post's return value
explicit. -/
def state_SHUTDOWN_PREPARE_posting (esp_event_post : power_management_event_t → Int)
    (s : Supervisor) : Supervisor × List Effect :=
  (s, emit_statement esp_event_post POWER_MANAGEMENT_EVENT_DEVICE_SHUTDOWN
      ++ [Effect.delay_ms POWER_MANAGEMENT_EVENT_AND_ACTION_ON_SLEEP_SHUTDOWN_GAP_MS,
          Effect.call _on_device_shutdown])

/-- `case POWER_MANAGEMENT_STATE_REBOOT_PREPARE`, the post's return value
explicit. -/
def state_REBOOT_PREPARE_posting (esp_event_post : power_management_event_t → Int)
    (s : Supervisor) : Supervisor × List Effect :=
  (s, emit_statement esp_event_post POWER_MANAGEMENT_EVENT_DEVICE_REBOOT
      ++ [Effect.delay_ms POWER_MANAGEMENT_EVENT_AND_ACTION_ON_SLEEP_SHUTDOWN_GAP_MS,
          Effect.call _on_device_reboot])

/-- `case POWER_MANAGEMENT_STATE_SLEEP_PREPARE`, the post's return value
explicit. -/
def state_SLEEP_PREPARE_posting (esp_event_post : power_management_event_t → Int)
    (s : Supervisor) : Supervisor × List Effect :=
  (s, emit_statement esp_event_post POWER_MANAGEMENT_EVENT_DEVICE_SLEEP
      ++ [Effect.delay_ms POWER_MANAGEMENT_EVENT_AND_ACTION_ON_SLEEP_SHUTDOWN_GAP_MS,
          Effect.call _on_device_sleep])

/-- The `switch(pm_state)` of `power_management_handle`, the posts' return
values explicit. -/
def power_management_handle_state_body_posting
    (esp_event_post : power_management_event_t → Int) (cfg : Config) (r : Readings)
    (s : Supervisor) : Supervisor × List Effect :=
  match s.pm_state with
  | POWER_MANAGEMENT_STATE_INIT => state_INIT_posting esp_event_post cfg r s
  | POWER_MANAGEMENT_STATE_OFF_CHARGER => state_OFF_CHARGER r s
  | POWER_MANAGEMENT_STATE_SETUP => state_SETUP_posting esp_event_post s
  | POWER_MANAGEMENT_STATE_DEV_IDLE => state_DEV_IDLE_posting esp_event_post r s
  | POWER_MANAGEMENT_STATE_DEV_ACTIVE => state_DEV_ACTIVE s
  | POWER_MANAGEMENT_STATE_SHUTDOWN_PREPARE => state_SHUTDOWN_PREPARE_posting esp_event_post s
  | POWER_MANAGEMENT_STATE_SHUTDOWN => (s, [])
  | POWER_MANAGEMENT_STATE_REBOOT_PREPARE => state_REBOOT_PREPARE_posting esp_event_post s
  | POWER_MANAGEMENT_STATE_SLEEP_PREPARE => state_SLEEP_PREPARE_posting esp_event_post s
  | POWER_MANAGEMENT_STATE_SLEEP => (s, [])
  | POWER_MANAGEMENT_STATE_MAX => (s, [])

/-- `case POWER_MANAGEMENT_BUTTON_STATE_RELEASED`, the post's return value
explicit. -/
def button_RELEASED_posting (esp_event_post : power_management_event_t → Int) (cfg : Config)
    (r : ButtonReadings) (bt : ButtonTask) : ButtonTask × List Effect :=
  if (button_RELEASED_edge r bt)._button_state_old = true ∧
      u64_sub r.millis_check (button_RELEASED_edge r bt)._button_state_change_millis
        > cfg.CONFIG_POWER_MANAGEMENT_BUTTON_DEBOUNCE_TIME_MS then
    (set_button_state (button_RELEASED_edge r bt) POWER_MANAGEMENT_BUTTON_STATE_PRESSED,
      Effect.read _on_button_state r.button
        :: emit_statement esp_event_post POWER_MANAGEMENT_EVENT_BUTTON_PRESSED)
  else
    (button_RELEASED_edge r bt, [Effect.read _on_button_state r.button])

/-- `case POWER_MANAGEMENT_BUTTON_STATE_PRESSED`, the posts' return values
explicit. -/
def button_PRESSED_posting (esp_event_post : power_management_event_t → Int) (cfg : Config)
    (r : ButtonReadings) (bt : ButtonTask) : ButtonTask × List Effect :=
  if r.button = false then
    (set_button_state bt POWER_MANAGEMENT_BUTTON_STATE_RELEASED,
      Effect.read _on_button_state false
        :: (emit_statement esp_event_post POWER_MANAGEMENT_EVENT_BUTTON_RELEASED
            ++ emit_statement esp_event_post POWER_MANAGEMENT_EVENT_BUTTON_CLICKED))
  else if u64_sub r.millis_check bt._button_state_change_millis
      > cfg.CONFIG_POWER_MANAGEMENT_BUTTON_LONG_PRESS_TIME_MS then
    (set_button_state bt POWER_MANAGEMENT_BUTTON_STATE_LONG_PRESSED,
      Effect.read _on_button_state true
        :: emit_statement esp_event_post POWER_MANAGEMENT_EVENT_BUTTON_LONG_PRESSED)
  else
    (set_last_activity bt r.millis_activity,
      [Effect.read _on_button_state true, Effect.activity r.millis_activity])

/-- `case POWER_MANAGEMENT_BUTTON_STATE_LONG_PRESSED`, the posts' return
values explicit. -/
def button_LONG_PRESSED_posting (esp_event_post : power_management_event_t → Int)
    (cfg : Config) (r : ButtonReadings) (bt : ButtonTask) : ButtonTask × List Effect :=
  if r.button = false then
    (set_button_state bt POWER_MANAGEMENT_BUTTON_STATE_RELEASED,
      Effect.read _on_button_state false
        :: emit_statement esp_event_post POWER_MANAGEMENT_EVENT_BUTTON_RELEASED)
  else if u64_sub r.millis_check bt._button_state_change_millis
      > cfg.CONFIG_POWER_MANAGEMENT_BUTTON_VERY_LONG_PRESS_TIME_MS then
    (set_button_state bt POWER_MANAGEMENT_BUTTON_STATE_VERY_LONG_PRESSED,
      Effect.read _on_button_state true
        :: emit_statement esp_event_post POWER_MANAGEMENT_EVENT_BUTTON_VERY_LONG_PRESSED)
  else
    (set_last_activity bt r.millis_activity,
      [Effect.read _on_button_state true, Effect.activity r.millis_activity])

/-- `case POWER_MANAGEMENT_BUTTON_STATE_VERY_LONG_PRESSED`, the post's return
value explicit. -/
def button_VERY_LONG_PRESSED_posting (esp_event_post : power_management_event_t → Int)
    (r : ButtonReadings) (bt : ButtonTask) : ButtonTask × List Effect :=
  if r.button = false then
    (set_button_state bt POWER_MANAGEMENT_BUTTON_STATE_RELEASED,
      Effect.read _on_button_state false
        :: emit_statement esp_event_post POWER_MANAGEMENT_EVENT_BUTTON_RELEASED)
  else
    (set_last_activity bt r.millis_activity,
      [Effect.read _on_button_state true, Effect.activity r.millis_activity])

/-- The `switch(_button_state)` of `power_management_button_handle`, the
posts' return values explicit. -/
def power_management_button_handle_state_body_posting
    (esp_event_post : power_management_event_t → Int) (cfg : Config) (r : ButtonReadings)
    (bt : ButtonTask) : ButtonTask × List Effect :=
  match bt.sup._button_state with
  | POWER_MANAGEMENT_BUTTON_STATE_RELEASED => button_RELEASED_posting esp_event_post cfg r bt
  | POWER_MANAGEMENT_BUTTON_STATE_PRESSED => button_PRESSED_posting esp_event_post cfg r bt
  | POWER_MANAGEMENT_BUTTON_STATE_LONG_PRESSED =>
    button_LONG_PRESSED_posting esp_event_post cfg r bt
  | POWER_MANAGEMENT_BUTTON_STATE_VERY_LONG_PRESSED =>
    button_VERY_LONG_PRESSED_posting esp_event_post r bt

/-- An event bus on which every post succeeds. -/
def post_succeeds : power_management_event_t → Int := fun _ => ESP_OK

/-- An event bus on which every post fails. -/
def post_fails : power_management_event_t → Int := fun _ => ESP_FAIL

/-- The supervisor in `DEV_IDLE` as at the start of the lifecycle task at
clock value 0, ready to detect the expiry of the idle timer. -/
def example_idle_unlatched : Supervisor := example_in_state POWER_MANAGEMENT_STATE_DEV_IDLE

/-- The supervisor in `DEV_IDLE` with the idle action `SHUTDOWN` and the last
activity recorded at clock value 4294967000, 296 ms before `2 ^ 32`. -/
def example_after_wrap : Supervisor :=
  { example_idle_shutdown with _last_activity_millis := 4294967000 }

/-- Place of a lifecycle state in the order of a boot: `INIT`, `OFF_CHARGER`,
`SETUP`, and last the states of the device that has been set up or is being
stopped. -/
def boot_phase : power_management_state_t → Nat
  | POWER_MANAGEMENT_STATE_INIT => 0
  | POWER_MANAGEMENT_STATE_OFF_CHARGER => 1
  | POWER_MANAGEMENT_STATE_SETUP => 2
  | _ => 3

/-- The values of `pm_state` in the course of a run, in order: for each pass
the value after the state body and the value after the queue part. -/
def run_states (cfg : Config) (sys : System) : List Pass → List power_management_state_t
  | [] => []
  | p :: rest =>
    (power_management_handle_state_body cfg p.readings
        (env_steps sys p.before).1.sup).1.pm_state
      :: (run_pass cfg p sys).1.sup.pm_state
      :: run_states cfg (run_pass cfg p sys).1 rest

/-- Number of calls of `_on_device_setup` in a trace. -/
def setup_calls (tr : List Effect) : Nat :=
  tr.count (Effect.call _on_device_setup)

/-- Number of `DEVICE_SETUP_FINISHED` events in a trace. -/
def setup_finished_events (tr : List Effect) : Nat :=
  tr.count (Effect.emit POWER_MANAGEMENT_EVENT_DEVICE_SETUP_FINISHED)

/-- A run that boots on the charger, is switched on by a long press, and goes
on in `DEV_IDLE`. -/
def example_run_charger_boot : List Pass :=
  [ quiet_pass { button := false, woken_up := false, charger := true,
                 millis_body := 1, millis_req := 3002 },
    { before := [EnvAction.button_state POWER_MANAGEMENT_BUTTON_STATE_LONG_PRESSED],
      readings := { button := false, woken_up := false, charger := true,
                    millis_body := 4000, millis_req := 4101 },
      during := [EnvAction.button_state POWER_MANAGEMENT_BUTTON_STATE_RELEASED] },
    quiet_pass (readings_quiet 4200),
    quiet_pass (readings_quiet 7300),
    quiet_pass (readings_quiet 7400) ]

/-- How often the `SETUP` body can still run from a lifecycle state: once up
to `SETUP`, never after it. -/
def setup_ahead (st : power_management_state_t) : Nat :=
  if boot_phase st ≤ 2 then 1 else 0

/-- No `ACTIVE_LOCK` request of the sequence is handled while the counter is
`INT_MAX`: the increment `_active_lock++` never overflows the `int`. -/
def no_lock_overflow (s : Supervisor) : List (Nat × power_management_request_t) → Bool
  | [] => true
  | p :: rest =>
    (decide (p.2.request_type ≠ POWER_MANAGEMENT_REQUEST_TYPE_ACTIVE_LOCK)
        || decide (s._active_lock < INT_MAX))
      && no_lock_overflow (power_management_handle_request p.1 s p.2).1 rest

/-- Largest excess of the number of releases over the number of acquires
among the initial segments of a sequence of requests; 0 when no initial
segment holds more releases than acquires. -/
def release_excess (reqs : List (Nat × power_management_request_t)) : Nat :=
  ((List.range (reqs.length + 1)).map
    (fun k => count_releases (reqs.take k) - count_acquires (reqs.take k))).foldr max 0

/-- Sample sequence of lock requests: acquire, release, release. -/
def example_release_twice : List (Nat × power_management_request_t) :=
  [(1, request_active_lock), (2, request_active_unlock), (3, request_active_unlock)]

/-- Sample sequence of lock requests: release, acquire, acquire, release,
release, release, acquire. -/
def example_lock_mixed : List (Nat × power_management_request_t) :=
  [(1, request_active_unlock), (2, request_active_lock), (3, request_active_lock),
   (4, request_active_unlock), (5, request_active_unlock), (6, request_active_unlock),
   (7, request_active_lock)]

theorem wrap_int32_of_range (x : Int) (h0 : -2147483648 ≤ x) (h1 : x ≤ 2147483647) :
    wrap_int32 x = x := by
  unfold wrap_int32; omega

theorem handle_request_lock (now : Nat) (s : Supervisor) (req : power_management_request_t)
    (h : req.request_type = POWER_MANAGEMENT_REQUEST_TYPE_ACTIVE_LOCK) :
    (power_management_handle_request now s req).1 =
      { s with _last_activity_millis := now, _active_lock := wrap_int32 (s._active_lock + 1) } := by
  simp [power_management_handle_request, h]

theorem handle_request_unlock (now : Nat) (s : Supervisor) (req : power_management_request_t)
    (h : req.request_type = POWER_MANAGEMENT_REQUEST_TYPE_ACTIVE_UNLOCK) :
    (power_management_handle_request now s req).1 =
      { s with
        _last_activity_millis := now
        _active_lock :=
          if wrap_int32 (s._active_lock - 1) < 0 then 0 else wrap_int32 (s._active_lock - 1) } := by
  simp [power_management_handle_request, h]

theorem lock_replicate (n : Nat) :
    ∀ s : Supervisor, 0 ≤ s._active_lock → s._active_lock + n ≤ 2147483647 →
      (power_management_handle_requests s (List.replicate n (0, request_active_lock)))._active_lock
        = s._active_lock + n := by
  induction n with
  | zero => intro s _ _; simp [power_management_handle_requests]
  | succ n ih =>
    intro s h0 h1
    rw [List.replicate_succ]
    simp only [power_management_handle_requests]
    have hs : (power_management_handle_request 0 s request_active_lock).1._active_lock
        = s._active_lock + 1 := by
      rw [handle_request_lock _ _ _ rfl]
      exact wrap_int32_of_range _ (by omega) (by omega)
    rw [ih _ (by omega) (by omega), hs]
    push_cast
    omega

theorem foldr_max_ge (l : List Nat) : ∀ x ∈ l, x ≤ l.foldr max 0 := by
  induction l with
  | nil => intro x hx; cases hx
  | cons a rest ih =>
    intro x hx
    simp only [List.foldr_cons]
    rcases List.mem_cons.mp hx with h | h
    · rw [h]; exact le_max_left _ _
    · exact le_trans (ih x h) (le_max_right _ _)

theorem foldr_max_attained (l : List Nat) : l.foldr max 0 = 0 ∨ l.foldr max 0 ∈ l := by
  induction l with
  | nil => left; rfl
  | cons a rest ih =>
    simp only [List.foldr_cons, List.mem_cons]
    rcases le_total a (rest.foldr max 0) with h | h
    · rw [max_eq_right h]
      rcases ih with h0 | hm
      · left; exact h0
      · right; right; exact hm
    · rw [max_eq_left h]
      right; left; rfl

theorem release_excess_bound (reqs : List (Nat × power_management_request_t)) (k : Nat) :
    count_releases (reqs.take k) ≤ count_acquires (reqs.take k) + release_excess reqs := by
  have hk : ∀ j, j ≤ reqs.length →
      count_releases (reqs.take j) ≤ count_acquires (reqs.take j) + release_excess reqs := by
    intro j hj
    have hm : count_releases (reqs.take j) - count_acquires (reqs.take j)
        ∈ (List.range (reqs.length + 1)).map
            (fun k => count_releases (reqs.take k) - count_acquires (reqs.take k)) :=
      List.mem_map.mpr ⟨j, List.mem_range.mpr (by omega), rfl⟩
    have := foldr_max_ge _ _ hm
    unfold release_excess
    omega
  rcases le_total k reqs.length with h | h
  · exact hk k h
  · rw [List.take_of_length_le h]
    have := hk reqs.length (le_refl _)
    rw [List.take_length] at this
    exact this

theorem release_excess_attained (reqs : List (Nat × power_management_request_t)) :
    release_excess reqs = 0 ∨
    ∃ k, count_releases (reqs.take k) = count_acquires (reqs.take k) + release_excess reqs := by
  rcases Nat.eq_zero_or_pos (release_excess reqs) with h0 | hpos
  · left; exact h0
  · right
    rcases foldr_max_attained ((List.range (reqs.length + 1)).map
        (fun k => count_releases (reqs.take k) - count_acquires (reqs.take k))) with h | h
    · unfold release_excess at hpos; omega
    · obtain ⟨k, _, hk⟩ := List.mem_map.mp h
      refine ⟨k, ?_⟩
      unfold release_excess at hpos ⊢
      omega

/-- The counter after a sequence of lock requests, started at any non-negative
value, when no increment overflows: the start value plus the acquires minus
the releases plus `e`, the largest shortfall met on the way. -/
theorem lock_walk_excess (reqs : List (Nat × power_management_request_t)) :
    ∀ (s : Supervisor) (e : Nat), 0 ≤ s._active_lock → s._active_lock ≤ 2147483647 →
      lock_requests_only reqs →
      no_lock_overflow s reqs = true →
      (∀ k, (count_releases (reqs.take k) : Int)
        ≤ s._active_lock + count_acquires (reqs.take k) + e) →
      (e = 0 ∨ ∃ k, (count_releases (reqs.take k) : Int)
        = s._active_lock + count_acquires (reqs.take k) + e) →
      (power_management_handle_requests s reqs)._active_lock
        = s._active_lock + count_acquires reqs - count_releases reqs + e := by
  induction reqs with
  | nil =>
    intro s e h0 _ _ _ hb ha
    have hb0 := hb 0
    simp only [List.take_nil, count_acquires, count_releases, List.countP_nil,
      power_management_handle_requests] at *
    rcases ha with ha | ⟨k, ha⟩ <;> omega
  | cons p rest ih =>
    intro s e h0 h1 hl hov hb ha
    have hp := hl p (List.mem_cons_self _ _)
    have hrest : lock_requests_only rest := fun q hq => hl q (List.mem_cons_of_mem _ hq)
    simp only [no_lock_overflow, Bool.and_eq_true, Bool.or_eq_true, decide_eq_true_eq] at hov
    obtain ⟨hov1, hov2⟩ := hov
    simp only [power_management_handle_requests]
    rcases hp with hp | hp
    · have hne : p.2.request_type ≠ POWER_MANAGEMENT_REQUEST_TYPE_ACTIVE_UNLOCK := by
        rw [hp]; decide
      have hat : ∀ l : List (Nat × power_management_request_t),
          count_acquires (p :: l) = count_acquires l + 1 := by
        intro l; simp [count_acquires, hp]
      have hrt : ∀ l : List (Nat × power_management_request_t),
          count_releases (p :: l) = count_releases l := by
        intro l; simp [count_releases, hne]
      have hmax : s._active_lock < 2147483647 := by
        rcases hov1 with h | h
        · exact absurd hp h
        · exact h
      have hs : (power_management_handle_request p.1 s p.2).1._active_lock
          = s._active_lock + 1 := by
        rw [handle_request_lock _ _ _ hp]
        exact wrap_int32_of_range _ (by omega) (by omega)
      have := ih (power_management_handle_request p.1 s p.2).1 e (by omega) (by omega) hrest hov2
        (by
          intro k
          have := hb (k + 1)
          rw [List.take_succ_cons, hat, hrt] at this
          rw [hs]; push_cast at this; omega)
        (by
          rcases ha with ha | ⟨k, ha⟩
          · left; exact ha
          · cases k with
            | zero =>
              left
              simp only [List.take_zero, count_acquires, count_releases, List.countP_nil] at ha
              omega
            | succ k =>
              right
              refine ⟨k, ?_⟩
              rw [List.take_succ_cons, hat, hrt] at ha
              rw [hs]; push_cast at ha; omega)
      rw [this, hs, hat, hrt]
      push_cast
      omega
    · have hne : p.2.request_type ≠ POWER_MANAGEMENT_REQUEST_TYPE_ACTIVE_LOCK := by
        rw [hp]; decide
      have hat : ∀ l : List (Nat × power_management_request_t),
          count_acquires (p :: l) = count_acquires l := by
        intro l; simp [count_acquires, hne]
      have hrt : ∀ l : List (Nat × power_management_request_t),
          count_releases (p :: l) = count_releases l + 1 := by
        intro l; simp [count_releases, hp]
      have hs : (power_management_handle_request p.1 s p.2).1._active_lock
          = if s._active_lock - 1 < 0 then 0 else s._active_lock - 1 := by
        rw [handle_request_unlock _ _ _ hp]
        simp only [wrap_int32_of_range (s._active_lock - 1) (by omega) (by omega)]
      have hb1 := hb 1
      have hr1 : count_releases (List.take 1 (p :: rest)) = 1 := by
        simp [count_releases, hp]
      have ha1 : count_acquires (List.take 1 (p :: rest)) = 0 := by
        simp [count_acquires, hne]
      rw [hr1, ha1] at hb1
      by_cases hz : s._active_lock = 0
      · have hs0 : (power_management_handle_request p.1 s p.2).1._active_lock = 0 := by
          rw [hs, hz]; rfl
        have he : 1 ≤ e := by omega
        have := ih (power_management_handle_request p.1 s p.2).1 (e - 1) (by omega) (by omega)
          hrest hov2
          (by
            intro k
            have := hb (k + 1)
            rw [List.take_succ_cons, hat, hrt] at this
            rw [hs0]; push_cast at this; omega)
          (by
            rcases ha with ha | ⟨k, ha⟩
            · omega
            · cases k with
              | zero =>
                simp only [List.take_zero, count_acquires, count_releases,
                  List.countP_nil] at ha
                omega
              | succ k =>
                right
                refine ⟨k, ?_⟩
                rw [List.take_succ_cons, hat, hrt] at ha
                rw [hs0]; push_cast at ha; omega)
        rw [this, hs0, hat, hrt]
        push_cast
        omega
      · have hs1 : (power_management_handle_request p.1 s p.2).1._active_lock
            = s._active_lock - 1 := by
          rw [hs, if_neg (by omega)]
        have := ih (power_management_handle_request p.1 s p.2).1 e (by omega) (by omega)
          hrest hov2
          (by
            intro k
            have := hb (k + 1)
            rw [List.take_succ_cons, hat, hrt] at this
            rw [hs1]; push_cast at this; omega)
          (by
            rcases ha with ha | ⟨k, ha⟩
            · left; exact ha
            · cases k with
              | zero =>
                left
                simp only [List.take_zero, count_acquires, count_releases,
                  List.countP_nil] at ha
                omega
              | succ k =>
                right
                refine ⟨k, ?_⟩
                rw [List.take_succ_cons, hat, hrt] at ha
                rw [hs1]; push_cast at ha; omega)
        rw [this, hs1, hat, hrt]
        push_cast
        omega

theorem handle_requests_append (a b : List (Nat × power_management_request_t)) :
    ∀ s : Supervisor, power_management_handle_requests s (a ++ b)
      = power_management_handle_requests (power_management_handle_requests s a) b := by
  induction a with
  | nil => intro s; rfl
  | cons p rest ih => intro s; exact ih (power_management_handle_request p.1 s p.2).1

/-- The counter after `2 ^ 31` `ACTIVE_LOCK` requests handled from 0. -/
theorem lock_replicate_overflow (s : Supervisor) (h : s._active_lock = 0) :
    (power_management_handle_requests s
      (List.replicate 2147483647 (0, request_active_lock) ++ [(0, request_active_lock)]))._active_lock
      = -2147483648 := by
  rw [handle_requests_append]
  have h1 := lock_replicate 2147483647 s (by omega) (by omega)
  rw [h] at h1
  generalize power_management_handle_requests s
    (List.replicate 2147483647 (0, request_active_lock)) = s1 at h1 ⊢
  show (power_management_handle_request 0 s1 request_active_lock).1._active_lock = -2147483648
  rw [handle_request_lock _ _ _ rfl]
  show wrap_int32 (s1._active_lock + 1) = -2147483648
  rw [h1]
  decide

/-! ## C1 -/

/-- C1, as stated, fails twice. From `active_lock_count = 0`, a release
followed by an acquire leaves the counter at 1, while
`#acquires - min(#acquires, #releases) = 1 - 1 = 0`: the release handled at
zero is clamped and not remembered. And `2 ^ 31` acquires leave the counter at
`-2 ^ 31`, below 0: the increment overflows the `int`. -/
theorem C1_counterexample :
    (power_management_handle_start 0 0)._active_lock = 0 ∧
    lock_requests_only example_release_first ∧
    ¬ (0 ≤ (power_management_handle_requests (power_management_handle_start 0 0)
              example_release_first)._active_lock ∧
       (power_management_handle_requests (power_management_handle_start 0 0)
              example_release_first)._active_lock
        = (count_acquires example_release_first : Int)
          - (min (count_acquires example_release_first)
                 (count_releases example_release_first) : Nat)) ∧
    lock_requests_only (List.replicate 2147483648 (0, request_active_lock)) ∧
    ¬ (0 ≤ (power_management_handle_requests (power_management_handle_start 0 0)
              (List.replicate 2147483648 (0, request_active_lock)))._active_lock) := by
  refine ⟨rfl, ?_, ?_, ?_, ?_⟩
  · simp [lock_requests_only, example_release_first, request_active_unlock, request_active_lock]
  · decide
  · intro p hp
    rw [List.eq_of_mem_replicate hp]
    left; rfl
  · have h := lock_replicate_overflow (power_management_handle_start 0 0) rfl
    rw [← List.replicate_succ'] at h
    rw [h]
    decide

/-- C1, amended: for every sequence of `ACTIVE_LOCK` and `ACTIVE_UNLOCK`
requests handled from `active_lock_count = 0` in which no `ACTIVE_LOCK` is
handled while the counter is `INT_MAX`, the resulting counter is non-negative
and equals `#acquires - #releases + e`, where `e` is the largest excess of
releases over acquires among the initial segments of the sequence (the
releases handled at zero, which are clamped and not remembered). It is never
below `#acquires - min(#acquires, #releases)` and equals that value exactly
when `e = #releases - #acquires` (truncated at 0): in particular when no
initial segment holds more releases than acquires, and whenever the counter
ends at 0. -/
theorem C1_active_lock_count (s : Supervisor) (reqs : List (Nat × power_management_request_t))
    (hs : s._active_lock = 0) (hl : lock_requests_only reqs)
    (hn : no_lock_overflow s reqs = true) :
    0 ≤ (power_management_handle_requests s reqs)._active_lock ∧
    (power_management_handle_requests s reqs)._active_lock
      = (count_acquires reqs : Int) - count_releases reqs + release_excess reqs ∧
    (count_acquires reqs : Int) - (min (count_acquires reqs) (count_releases reqs) : Nat)
      ≤ (power_management_handle_requests s reqs)._active_lock ∧
    ((power_management_handle_requests s reqs)._active_lock
        = (count_acquires reqs : Int) - (min (count_acquires reqs) (count_releases reqs) : Nat)
      ↔ release_excess reqs = count_releases reqs - count_acquires reqs) ∧
    ((∀ k, count_releases (reqs.take k) ≤ count_acquires (reqs.take k)) →
      (power_management_handle_requests s reqs)._active_lock
        = (count_acquires reqs : Int) - (min (count_acquires reqs) (count_releases reqs) : Nat)) ∧
    ((power_management_handle_requests s reqs)._active_lock = 0 →
      (power_management_handle_requests s reqs)._active_lock
        = (count_acquires reqs : Int)
          - (min (count_acquires reqs) (count_releases reqs) : Nat)) := by
  have hw := lock_walk_excess reqs s (release_excess reqs) (by omega) (by omega) hl hn
    (by
      intro k
      have := release_excess_bound reqs k
      rw [hs]; omega)
    (by
      rcases release_excess_attained reqs with h | ⟨k, h⟩
      · left; exact h
      · right; exact ⟨k, by rw [hs]; omega⟩)
  rw [hs] at hw
  have hb := release_excess_bound reqs reqs.length
  rw [List.take_length] at hb
  refine ⟨by omega, by omega, by omega, by omega, ?_, by omega⟩
  intro hk
  have h0 : release_excess reqs = 0 := by
    rcases release_excess_attained reqs with h | ⟨k, h⟩
    · exact h
    · have := hk k; omega
  have := hk reqs.length
  rw [List.take_length] at this
  omega

/-- Witness of C1 amended: release, acquire, acquire, release, release,
release, acquire from the initial state; two releases are handled at zero and
the counter ends at `3 - 4 + 2 = 1`. -/
theorem C1_active_lock_count_witness :
    (power_management_handle_start 0 0)._active_lock = 0 ∧
    lock_requests_only example_lock_mixed ∧
    no_lock_overflow (power_management_handle_start 0 0) example_lock_mixed = true ∧
    release_excess example_lock_mixed = 2 ∧
    (power_management_handle_requests (power_management_handle_start 0 0)
        example_lock_mixed)._active_lock
      = (count_acquires example_lock_mixed : Int) - count_releases example_lock_mixed
        + release_excess example_lock_mixed ∧
    (power_management_handle_requests (power_management_handle_start 0 0)
        example_release_twice)._active_lock
      = (count_acquires example_release_twice : Int)
        - (min (count_acquires example_release_twice)
            (count_releases example_release_twice) : Nat) :=
  ⟨rfl,
    by simp [lock_requests_only, example_lock_mixed, request_active_unlock, request_active_lock],
    by decide,
    by decide,
    (C1_active_lock_count (power_management_handle_start 0 0) example_lock_mixed rfl
      (by simp [lock_requests_only, example_lock_mixed, request_active_unlock,
        request_active_lock])
      (by decide)).2.1,
    (C1_active_lock_count (power_management_handle_start 0 0) example_release_twice rfl
      (by simp [lock_requests_only, example_release_twice, request_active_unlock,
        request_active_lock])
      (by decide)).2.2.2.1.mpr (by decide)⟩

/-! ## C2 -/

theorem body_lock (cfg : Config) (r : Readings) (s : Supervisor) :
    (power_management_handle_state_body cfg r s).1._active_lock = s._active_lock := by
  unfold power_management_handle_state_body
  split <;> simp only [state_INIT, state_OFF_CHARGER, state_SETUP, state_DEV_IDLE, state_DEV_ACTIVE,
    state_SHUTDOWN_PREPARE, state_REBOOT_PREPARE, state_SLEEP_PREPARE, state_DEV_IDLE_lock,
    state_DEV_IDLE_timer, state_DEV_IDLE_button, state_DEV_IDLE_action]
  all_goals (repeat' split) <;> rfl

theorem env_step_lock (sys : System) (a : EnvAction) :
    (env_step sys a).1.sup._active_lock = sys.sup._active_lock := by
  cases a <;> rfl

theorem env_steps_lock (as : List EnvAction) :
    ∀ sys : System, (env_steps sys as).1.sup._active_lock = sys.sup._active_lock := by
  induction as with
  | nil => intro sys; rfl
  | cons a rest ih => intro sys; simp only [env_steps, ih, env_step_lock]

theorem handle_request_lock_nonneg (now : Nat) (s : Supervisor) (req : power_management_request_t)
    (h0 : 0 ≤ s._active_lock) (h1 : s._active_lock < INT_MAX) :
    0 ≤ (power_management_handle_request now s req).1._active_lock := by
  unfold INT_MAX at h1
  unfold power_management_handle_request
  split
  case h_3 => simp only; rw [wrap_int32_of_range _ (by omega) (by omega)]; omega
  case h_4 => simp only; split <;> omega
  case h_2 => split <;> exact h0
  all_goals exact h0

theorem iteration_lock (cfg : Config) (r : Readings) (during : List EnvAction) (sys : System) :
    (power_management_handle_iteration cfg r during sys).1.sup._active_lock
      = (power_management_handle_drain r
          (env_steps { sys with sup := (power_management_handle_state_body cfg r sys.sup).1 }
            during).1).1.sup._active_lock := rfl

theorem drain_lock_nonneg (r : Readings) (sys : System)
    (h0 : 0 ≤ sys.sup._active_lock) (h1 : sys.sup._active_lock < INT_MAX) :
    0 ≤ (power_management_handle_drain r sys).1.sup._active_lock := by
  unfold power_management_handle_drain
  split
  · exact h0
  · exact handle_request_lock_nonneg _ _ _ h0 h1

theorem iteration_lock_overflow (cfg : Config) (r : Readings) (s : Supervisor)
    (h : s._active_lock = 2147483647) :
    (power_management_handle_iteration cfg r []
        { sup := s, queue := [request_active_lock] }).1.sup._active_lock < 0 := by
  rw [iteration_lock]
  simp only [env_steps, power_management_handle_drain]
  rw [handle_request_lock _ _ _ rfl]
  simp only [body_lock, h]
  decide

/-- C2, as stated, fails: after `2 ^ 31 - 1` `ACTIVE_LOCK` requests handled from
the initial state the counter is `INT_MAX`, still non-negative, and the pass
that handles one more `ACTIVE_LOCK` leaves it negative. -/
theorem C2_counterexample :
    0 ≤ (power_management_handle_requests (power_management_handle_start 0 0)
          (List.replicate 2147483647 (0, request_active_lock)))._active_lock ∧
    (power_management_handle_iteration example_config (readings_quiet 0) []
        { sup := power_management_handle_requests (power_management_handle_start 0 0)
                   (List.replicate 2147483647 (0, request_active_lock))
          queue := [request_active_lock] }).1.sup._active_lock < 0 := by
  have h := lock_replicate 2147483647 (power_management_handle_start 0 0) (le_refl _) (by decide)
  have h2 : (power_management_handle_requests (power_management_handle_start 0 0)
      (List.replicate 2147483647 (0, request_active_lock)))._active_lock = 2147483647 := by
    rw [h]; rfl
  exact ⟨by rw [h2]; decide, iteration_lock_overflow _ _ _ h2⟩

/-- C2, amended: `active_lock_count` is 0 in the initial state, and every pass
of the lifecycle loop (any state body, any actions of the other tasks, any
request) that starts with `0 ≤ active_lock_count < INT_MAX` ends with
`active_lock_count ≥ 0`; handling `ACTIVE_UNLOCK` while the counter is zero
leaves it at zero. -/
theorem C2_active_lock_nonneg (cfg : Config) (r : Readings) (during : List EnvAction)
    (sys : System) (millis0 millis1 : Nat)
    (h0 : 0 ≤ sys.sup._active_lock) (h1 : sys.sup._active_lock < INT_MAX) :
    (power_management_handle_start millis0 millis1)._active_lock = 0 ∧
    0 ≤ (power_management_handle_iteration cfg r during sys).1.sup._active_lock ∧
    (sys.sup._active_lock = 0 →
      (power_management_handle_request r.millis_req sys.sup request_active_unlock).1._active_lock
        = 0) := by
  refine ⟨rfl, ?_, ?_⟩
  · rw [iteration_lock]
    apply drain_lock_nonneg
    · rw [env_steps_lock]; simp only [body_lock]; exact h0
    · rw [env_steps_lock]; simp only [body_lock]; exact h1
  · intro hz
    rw [handle_request_unlock _ _ _ rfl]
    simp only [hz]
    decide

/-- Witness of C2 amended: the first pass from the initial state, with a
release sent while the counter is zero. -/
theorem C2_active_lock_nonneg_witness :
    0 ≤ (system_start 0 0).sup._active_lock ∧ (system_start 0 0).sup._active_lock < INT_MAX ∧
    ((power_management_handle_start 0 0)._active_lock = 0 ∧
    0 ≤ (power_management_handle_iteration example_config (readings_quiet 1)
          [EnvAction.send request_active_unlock] (system_start 0 0)).1.sup._active_lock ∧
    ((system_start 0 0).sup._active_lock = 0 →
      (power_management_handle_request (readings_quiet 1).millis_req (system_start 0 0).sup
        request_active_unlock).1._active_lock = 0)) :=
  ⟨by decide, by decide,
    C2_active_lock_nonneg example_config (readings_quiet 1) [EnvAction.send request_active_unlock]
      (system_start 0 0) 0 0 (by decide) (by decide)⟩

/-! ## Helper lemmas on the state bodies -/

theorem u64_sub_of_le (a b : Nat) (h : b ≤ a) (ha : a < UINT64_RANGE) : u64_sub a b = a - b := by
  unfold u64_sub UINT64_RANGE at *
  omega

theorem body_INIT (cfg : Config) (r : Readings) (s : Supervisor)
    (h : s.pm_state = POWER_MANAGEMENT_STATE_INIT) :
    power_management_handle_state_body cfg r s = state_INIT cfg r s := by
  unfold power_management_handle_state_body; rw [h]

theorem body_OFF_CHARGER (cfg : Config) (r : Readings) (s : Supervisor)
    (h : s.pm_state = POWER_MANAGEMENT_STATE_OFF_CHARGER) :
    power_management_handle_state_body cfg r s = state_OFF_CHARGER r s := by
  unfold power_management_handle_state_body; rw [h]

theorem body_DEV_IDLE (cfg : Config) (r : Readings) (s : Supervisor)
    (h : s.pm_state = POWER_MANAGEMENT_STATE_DEV_IDLE) :
    power_management_handle_state_body cfg r s = state_DEV_IDLE r s := by
  unfold power_management_handle_state_body; rw [h]

theorem body_DEV_ACTIVE (cfg : Config) (r : Readings) (s : Supervisor)
    (h : s.pm_state = POWER_MANAGEMENT_STATE_DEV_ACTIVE) :
    power_management_handle_state_body cfg r s = state_DEV_ACTIVE s := by
  unfold power_management_handle_state_body; rw [h]

/-! ## C3 -/

/-- C3, on the failing input: the run `example_run_locked_expired` brings the
supervisor into `DEV_IDLE` with the lock held (`active_lock_count = 1`) and no
very-long press; the `DEV_IDLE` body executed at 31014 ms emits
`IDLE_TIMER_EXPIRED` and leaves the state `SHUTDOWN_PREPARE`, not
`DEV_ACTIVE`. -/
theorem C3_dev_idle_lock_failing :
    clock_nondecreasing (0 :: 0 :: run_clocks example_run_locked_expired) ∧
    (run example_config (system_start 0 0) example_run_locked_expired).1.sup
      = example_locked_expired ∧
    example_locked_expired.pm_state = POWER_MANAGEMENT_STATE_DEV_IDLE ∧
    0 < example_locked_expired._active_lock ∧
    example_locked_expired._button_state ≠ POWER_MANAGEMENT_BUTTON_STATE_VERY_LONG_PRESSED ∧
    power_management_handle_state_body example_config (readings_quiet 31014)
        example_locked_expired
      = ({ example_locked_expired with
            pm_state := POWER_MANAGEMENT_STATE_SHUTDOWN_PREPARE
            _idle_timer_expired_event_sent := true },
         [Effect.call _on_pmic_loop,
          Effect.emit POWER_MANAGEMENT_EVENT_IDLE_TIMER_EXPIRED]) := by
  refine ⟨?_, ?_, ?_, ?_, ?_, ?_⟩
  · unfold clock_nondecreasing; decide
  all_goals decide

/-! ## C4 -/

/-- C4: in `DEV_ACTIVE`, with `active_lock_count > 0` the body leaves the
whole supervisor state unchanged (the state stays `DEV_ACTIVE`, whatever the
clock, the last activity, the idle action and the button state are) and emits
no event; with `active_lock_count = 0` the next state is `DEV_IDLE`; in both
cases the effect trace is exactly one call of `pmic_loop()`. -/
theorem C4_dev_active_body (cfg : Config) (r : Readings) (s : Supervisor)
    (h : s.pm_state = POWER_MANAGEMENT_STATE_DEV_ACTIVE) :
    (0 < s._active_lock → power_management_handle_state_body cfg r s = (s, [Effect.call _on_pmic_loop])) ∧
    (s._active_lock = 0 →
      power_management_handle_state_body cfg r s
        = ({ s with pm_state := POWER_MANAGEMENT_STATE_DEV_IDLE }, [Effect.call _on_pmic_loop])) ∧
    (power_management_handle_state_body cfg r s).2 = [Effect.call _on_pmic_loop] := by
  rw [body_DEV_ACTIVE cfg r s h]
  refine ⟨?_, ?_, rfl⟩
  · intro hl
    have : s._active_lock ≠ 0 := by omega
    simp [state_DEV_ACTIVE, this]
  · intro hl
    simp [state_DEV_ACTIVE, hl]

/-- Witness of C4: the lock held once, 100 s after the last activity. -/
theorem C4_dev_active_body_witness :
    ({ example_in_state POWER_MANAGEMENT_STATE_DEV_ACTIVE with _active_lock := 1 } :
        Supervisor).pm_state = POWER_MANAGEMENT_STATE_DEV_ACTIVE ∧
    power_management_handle_state_body example_config (readings_quiet 100000)
        { example_in_state POWER_MANAGEMENT_STATE_DEV_ACTIVE with _active_lock := 1 }
      = ({ example_in_state POWER_MANAGEMENT_STATE_DEV_ACTIVE with _active_lock := 1 },
         [Effect.call _on_pmic_loop]) :=
  ⟨rfl, (C4_dev_active_body example_config (readings_quiet 100000)
    { example_in_state POWER_MANAGEMENT_STATE_DEV_ACTIVE with _active_lock := 1 } rfl).1
    (by decide)⟩

/-! ## C5 -/

/-- C5, on the failing input: `power_management_idle_set_timeout(4294967296)`
on the empty queue, drained by the next pass; afterwards
`power_management_idle_get_timeout()` returns 0, while
`max(4294967296, IDLE_TIMEOUT_MIN_MS) = 4294967296`. -/
theorem C5_get_timeout_truncates :
    (power_management_handle_iteration example_config (readings_quiet 0) []
        { sup := power_management_handle_start 0 0
          queue := power_management_idle_set_timeout 4294967296 [] }).1.queue = [] ∧
    power_management_idle_get_timeout
      (power_management_handle_iteration example_config (readings_quiet 0) []
        { sup := power_management_handle_start 0 0
          queue := power_management_idle_set_timeout 4294967296 [] }).1.sup = 0 ∧
    max 4294967296 POWER_MANAGEMENT_IDLE_TIMEOUT_MIN_MS = 4294967296 := by
  decide

/-! ## C6 -/

/-- C6: handling an `IDLE_INACTIVITY_SET` request with value `v` sets
`idle_timeout_ms` to `v` when `v ≥ IDLE_TIMEOUT_MIN_MS` and to
`IDLE_TIMEOUT_MIN_MS` otherwise, and changes no other field;
`IDLE_TIMEOUT_MIN_MS` is 30000, the initial timeout equals it, and
`idle_timeout_ms ≥ IDLE_TIMEOUT_MIN_MS` is preserved by every request. -/
theorem C6_idle_inactivity_set (now : Nat) (s : Supervisor) (req : power_management_request_t)
    (any : power_management_request_t) (millis0 millis1 : Nat)
    (ht : req.request_type = POWER_MANAGEMENT_REQUEST_TYPE_IDLE_INACTIVITY_TIME_SET)
    (hinv : POWER_MANAGEMENT_IDLE_TIMEOUT_MIN_MS ≤ s._idle_timeout_ms_set) :
    (req.inactivity_time_ms ≥ POWER_MANAGEMENT_IDLE_TIMEOUT_MIN_MS →
      (power_management_handle_request now s req).1
        = { s with _idle_timeout_ms_set := req.inactivity_time_ms }) ∧
    (req.inactivity_time_ms < POWER_MANAGEMENT_IDLE_TIMEOUT_MIN_MS →
      (power_management_handle_request now s req).1
        = { s with _idle_timeout_ms_set := POWER_MANAGEMENT_IDLE_TIMEOUT_MIN_MS }) ∧
    POWER_MANAGEMENT_IDLE_TIMEOUT_MIN_MS = 30000 ∧
    (power_management_handle_start millis0 millis1)._idle_timeout_ms_set
      = POWER_MANAGEMENT_IDLE_TIMEOUT_MIN_MS ∧
    POWER_MANAGEMENT_IDLE_TIMEOUT_MIN_MS
      ≤ (power_management_handle_request now s any).1._idle_timeout_ms_set := by
  refine ⟨?_, ?_, rfl, rfl, ?_⟩
  · intro hv; simp [power_management_handle_request, ht, hv]
  · intro hv
    have : ¬ (req.inactivity_time_ms ≥ POWER_MANAGEMENT_IDLE_TIMEOUT_MIN_MS) := by omega
    simp only [power_management_handle_request, ht, this, if_false]
  · unfold power_management_handle_request
    split
    case h_2 => split <;> simp only <;> omega
    all_goals exact hinv

/-- Witness of C6: a timeout of 10 ms requested in the initial state. -/
theorem C6_idle_inactivity_set_witness :
    (request_idle_timeout 10).request_type
      = POWER_MANAGEMENT_REQUEST_TYPE_IDLE_INACTIVITY_TIME_SET ∧
    POWER_MANAGEMENT_IDLE_TIMEOUT_MIN_MS
      ≤ (power_management_handle_start 0 0)._idle_timeout_ms_set ∧
    (power_management_handle_request 7 (power_management_handle_start 0 0)
        (request_idle_timeout 10)).1
      = { power_management_handle_start 0 0 with
          _idle_timeout_ms_set := POWER_MANAGEMENT_IDLE_TIMEOUT_MIN_MS } :=
  ⟨rfl, by decide,
    (C6_idle_inactivity_set 7 (power_management_handle_start 0 0) (request_idle_timeout 10)
      request_active_lock 0 0 rfl (by decide)).2.1 (by decide)⟩

/-! ## C7 -/

theorem expired_monitor_none (tr : List Effect) : expired_monitor none tr = none := by
  induction tr with
  | nil => rfl
  | cons e rest ih => exact ih

theorem expired_monitor_append (m : Option Bool) (a b : List Effect) :
    expired_monitor m (a ++ b) = expired_monitor (expired_monitor m a) b := by
  unfold expired_monitor; exact List.foldl_append _ _ _ _

theorem expired_monitor_cons (m : Option Bool) (e : Effect) (tr : List Effect) :
    expired_monitor m (e :: tr) = expired_monitor (expired_monitor_step m e) tr := rfl

theorem expired_monitor_stays (mid : List Effect)
    (h : ∀ e ∈ mid, ¬ (is_activity e = true ∨ is_timeout_raise e = true)) :
    expired_monitor (some true) mid = none ∨ expired_monitor (some true) mid = some true := by
  induction mid with
  | nil => right; rfl
  | cons e rest ih =>
    rw [expired_monitor_cons]
    have he := h e (List.mem_cons_self _ _)
    have hrest := ih (fun x hx => h x (List.mem_cons_of_mem _ hx))
    unfold expired_monitor_step
    simp only [he, if_false]
    split
    · left; simp only [if_true]; exact expired_monitor_none _
    · exact hrest

/-- A trace that the monitor accepts has, between any two emissions of
`IDLE_TIMER_EXPIRED`, an activity signal or a raise of the timeout. -/
theorem expired_monitor_sound (m : Bool) (tr : List Effect)
    (h : expired_monitor (some m) tr ≠ none) : expired_once_per_window_unless_raised tr := by
  intro pre mid post heq
  by_contra hcon
  push_neg at hcon
  apply h
  rw [heq, expired_monitor_append, expired_monitor_cons]
  have h1 : expired_monitor_step (expired_monitor (some m) pre) idle_timer_expired = none ∨
      expired_monitor_step (expired_monitor (some m) pre) idle_timer_expired = some true := by
    unfold expired_monitor_step
    split
    · left; rfl
    · rename_i b _
      cases b <;> simp
  rcases h1 with h1 | h1
  · rw [h1]; exact expired_monitor_none _
  · rw [h1, expired_monitor_append, expired_monitor_cons]
    have h2 := expired_monitor_stays mid (fun e he hx => by
      have := hcon e he
      rcases hx with hx | hx
      · exact this.1 hx
      · exact this.2 hx)
    rcases h2 with h2 | h2
    · rw [h2]; exact expired_monitor_none _
    · rw [h2]
      have : expired_monitor_step (some true) idle_timer_expired = none := by
        simp [expired_monitor_step]
      rw [this]; exact expired_monitor_none _

theorem expired_monitor_neutral (b : Bool) (tr : List Effect)
    (h : ∀ e ∈ tr, monitor_neutral e) : expired_monitor (some b) tr = some b := by
  induction tr with
  | nil => rfl
  | cons e rest ih =>
    rw [expired_monitor_cons]
    obtain ⟨h1, h2, h3⟩ := h e (List.mem_cons_self _ _)
    have : expired_monitor_step (some b) e = some b := by
      simp [expired_monitor_step, h1, h2, h3]
    rw [this]
    exact ih (fun x hx => h x (List.mem_cons_of_mem _ hx))

theorem expired_invariant_mono (s : Supervisor) (m : Bool) (c c2 : Nat) (hc : c ≤ c2)
    (h : expired_invariant s m c) : expired_invariant s m c2 := by
  obtain ⟨h1, h2⟩ := h
  refine ⟨by omega, fun hm => ?_⟩
  obtain ⟨h3, h4⟩ := h2 hm
  exact ⟨h3, by omega⟩

theorem expired_invariant_congr (s s2 : Supervisor) (m : Bool) (c : Nat)
    (h1 : s2._last_activity_millis = s._last_activity_millis)
    (h2 : s2._idle_timer_expired_event_sent = s._idle_timer_expired_event_sent)
    (h3 : s2._idle_timeout_ms_set = s._idle_timeout_ms_set)
    (h : expired_invariant s m c) : expired_invariant s2 m c := by
  unfold expired_invariant at *
  rw [h1, h2, h3]; exact h

theorem timer_expired_invariant (now c : Nat) (s : Supervisor) (m : Bool)
    (h : expired_invariant s m c) (hc : c ≤ now) (hn : now < UINT64_RANGE) :
    ∃ m2, expired_monitor (some m) (state_DEV_IDLE_timer now s).2 = some m2 ∧
      expired_invariant (state_DEV_IDLE_timer now s).1 m2 now := by
  obtain ⟨h1, h2⟩ := h
  have hact : ∀ t : Supervisor,
      (state_DEV_IDLE_action t)._last_activity_millis = t._last_activity_millis ∧
      (state_DEV_IDLE_action t)._idle_timer_expired_event_sent
        = t._idle_timer_expired_event_sent ∧
      (state_DEV_IDLE_action t)._idle_timeout_ms_set = t._idle_timeout_ms_set := by
    intro t; unfold state_DEV_IDLE_action; split <;> exact ⟨rfl, rfl, rfl⟩
  have hsub : u64_sub now s._last_activity_millis = now - s._last_activity_millis :=
    u64_sub_of_le _ _ (by omega) hn
  unfold state_DEV_IDLE_timer
  rw [hsub]
  split
  · rename_i hexp
    split
    · rename_i hlatch
      -- the emission
      have hm : m = false := by
        cases m
        · rfl
        · have := (h2 rfl).1; rw [hlatch] at this; cases this
      subst hm
      refine ⟨true, by simp [expired_monitor, expired_monitor_step, idle_timer_expired], ?_⟩
      obtain ⟨a1, a2, a3⟩ := hact { s with _idle_timer_expired_event_sent := true }
      unfold expired_invariant
      simp only
      rw [a1, a2, a3]
      simp only
      exact ⟨by omega, fun _ => ⟨trivial, by omega⟩⟩
    · refine ⟨m, rfl, ?_⟩
      obtain ⟨a1, a2, a3⟩ := hact s
      exact expired_invariant_congr s _ m now a1 a2 a3
        (expired_invariant_mono s m c now hc ⟨h1, h2⟩)
  · rename_i hexp
    have hm : m = false := by
      cases m
      · rfl
      · have := (h2 rfl).2; omega
    subst hm
    refine ⟨false, rfl, ?_⟩
    unfold expired_invariant
    simp only
    exact ⟨by omega, fun h => by cases h⟩

theorem neutral_step (s s2 : Supervisor) (tr : List Effect) (m : Bool) (c now : Nat)
    (h1 : s2._last_activity_millis = s._last_activity_millis)
    (h2 : s2._idle_timer_expired_event_sent = s._idle_timer_expired_event_sent)
    (h3 : s2._idle_timeout_ms_set = s._idle_timeout_ms_set)
    (hn : ∀ e ∈ tr, monitor_neutral e)
    (h : expired_invariant s m c) (hc : c ≤ now) :
    ∃ m2, expired_monitor (some m) tr = some m2 ∧ expired_invariant s2 m2 now :=
  ⟨m, expired_monitor_neutral m tr hn,
    expired_invariant_congr s s2 m now h1 h2 h3 (expired_invariant_mono s m c now hc h)⟩

theorem body_expired_invariant (cfg : Config) (r : Readings) (s : Supervisor) (m : Bool) (c : Nat)
    (h : expired_invariant s m c) (hc : c ≤ r.millis_body) (hn : r.millis_body < UINT64_RANGE) :
    ∃ m2, expired_monitor (some m) (power_management_handle_state_body cfg r s).2 = some m2 ∧
      expired_invariant (power_management_handle_state_body cfg r s).1 m2 r.millis_body := by
  unfold power_management_handle_state_body
  split
  · unfold state_INIT
    repeat' split
    all_goals
      exact neutral_step s _ _ m c _ rfl rfl rfl
        (by simp [monitor_neutral, idle_timer_expired, is_activity, is_timeout_raise]) h hc
  · unfold state_OFF_CHARGER
    repeat' split
    all_goals
      exact neutral_step s _ _ m c _ rfl rfl rfl
        (by simp [monitor_neutral, idle_timer_expired, is_activity, is_timeout_raise]) h hc
  · exact neutral_step s _ _ m c _ rfl rfl rfl
      (by simp [state_SETUP, monitor_neutral, idle_timer_expired, is_activity, is_timeout_raise])
      h hc
  · -- DEV_IDLE
    have hl : expired_invariant (state_DEV_IDLE_lock s) m c := by
      apply expired_invariant_congr s _ m c _ _ _ h <;>
        (unfold state_DEV_IDLE_lock; split <;> rfl)
    obtain ⟨m2, hm, hinv⟩ := timer_expired_invariant r.millis_body c _ m hl hc hn
    refine ⟨m2, ?_, ?_⟩
    · simp only [state_DEV_IDLE]
      rw [expired_monitor_cons]
      have : expired_monitor_step (some m) (Effect.call _on_pmic_loop) = some m := by
        simp [expired_monitor_step, idle_timer_expired, is_activity, is_timeout_raise]
      rw [this, expired_monitor_append, hm]
      apply expired_monitor_neutral
      unfold state_DEV_IDLE_button
      split <;> simp [monitor_neutral, idle_timer_expired, is_activity, is_timeout_raise]
    · simp only [state_DEV_IDLE]
      apply expired_invariant_congr _ _ m2 _ _ _ _ hinv <;>
        (unfold state_DEV_IDLE_button; split <;> rfl)
  · unfold state_DEV_ACTIVE
    repeat' split
    all_goals
      exact neutral_step s _ _ m c _ rfl rfl rfl
        (by simp [monitor_neutral, idle_timer_expired, is_activity, is_timeout_raise]) h hc
  all_goals
    exact neutral_step s _ _ m c _ rfl rfl rfl
      (by simp [state_SHUTDOWN_PREPARE, state_REBOOT_PREPARE, state_SLEEP_PREPARE,
        monitor_neutral, idle_timer_expired, is_activity, is_timeout_raise]) h hc

theorem request_expired_invariant (now : Nat) (s : Supervisor) (req : power_management_request_t)
    (m : Bool) (c : Nat) (h : expired_invariant s m c) (hc : c ≤ now) :
    ∃ m2, expired_monitor (some m) (power_management_handle_request now s req).2 = some m2 ∧
      expired_invariant (power_management_handle_request now s req).1 m2 now := by
  have hact : ∀ (s2 : Supervisor), s2._last_activity_millis = now →
      ∃ m2, expired_monitor (some m) [Effect.activity now] = some m2 ∧
        expired_invariant s2 m2 now := by
    intro s2 h2
    refine ⟨false, by simp [expired_monitor, expired_monitor_step, idle_timer_expired,
      is_activity], ?_⟩
    exact ⟨by omega, fun hx => by cases hx⟩
  have hset : ∀ (new : Nat),
      ∃ m2, expired_monitor (some m)
          [Effect.timeout_set s._idle_timeout_ms_set new] = some m2 ∧
        expired_invariant { s with _idle_timeout_ms_set := new } m2 now := by
    intro new
    obtain ⟨h1, h2⟩ := h
    by_cases hlt : s._idle_timeout_ms_set < new
    · refine ⟨false, by simp [expired_monitor, expired_monitor_step, idle_timer_expired,
        is_activity, is_timeout_raise, hlt], ?_⟩
      exact ⟨by simp only; omega, fun hx => by cases hx⟩
    · refine ⟨m, by simp [expired_monitor, expired_monitor_step, idle_timer_expired,
        is_activity, is_timeout_raise, hlt], ?_⟩
      refine ⟨by simp only; omega, fun hm => ?_⟩
      obtain ⟨h3, h4⟩ := h2 hm
      exact ⟨h3, by simp only; omega⟩
  unfold power_management_handle_request
  split
  · exact hact _ rfl
  · split
    · exact hset _
    · exact hset _
  · exact hact _ rfl
  · exact hact _ rfl
  all_goals exact neutral_step s _ _ m c _ rfl rfl rfl (by simp) h hc

theorem env_steps_expired_invariant (as : List EnvAction) :
    ∀ (sys : System) (m : Bool) (c c2 : Nat), expired_invariant sys.sup m c →
      (∀ t ∈ env_clocks as, c ≤ t) → List.Pairwise (fun a b => a ≤ b) (env_clocks as) →
      c ≤ c2 → (∀ t ∈ env_clocks as, t ≤ c2) →
      ∃ m2, expired_monitor (some m) (env_steps sys as).2 = some m2 ∧
        expired_invariant (env_steps sys as).1.sup m2 c2 := by
  induction as with
  | nil =>
    intro sys m c c2 h _ _ hc _
    exact ⟨m, rfl, expired_invariant_mono _ m c c2 hc h⟩
  | cons a rest ih =>
    intro sys m c c2 h hlow hpw hc hup
    cases a with
    | send req =>
      simp only [env_clocks] at hlow hpw hup
      exact ih (env_step sys (EnvAction.send req)).1 m c c2 h hlow hpw hc hup
    | button_state bs =>
      simp only [env_clocks] at hlow hpw hup
      have h2 : expired_invariant
          ({ sys with sup := { sys.sup with _button_state := bs } } : System).sup m c := h
      exact ih (env_step sys (EnvAction.button_state bs)).1 m c c2 h2 hlow hpw hc hup
    | button_activity now =>
      simp only [env_clocks, List.mem_cons, forall_eq_or_imp, List.pairwise_cons] at hlow hpw hup
      have h2 : expired_invariant
          ({ sys with sup := { sys.sup with _last_activity_millis := now } } : System).sup
          false now := ⟨le_refl _, fun hx => by cases hx⟩
      obtain ⟨m2, hm, hinv⟩ :=
        ih (env_step sys (EnvAction.button_activity now)).1 false now c2 h2 hpw.1 hpw.2 hup.1 hup.2
      refine ⟨m2, ?_, hinv⟩
      show expired_monitor (expired_monitor_step (some m) (Effect.activity now)) _ = some m2
      have : expired_monitor_step (some m) (Effect.activity now) = some false := by
        simp [expired_monitor_step, idle_timer_expired, is_activity]
      rw [this]; exact hm

theorem drain_expired_invariant (r : Readings) (sys : System) (m : Bool) (c : Nat)
    (h : expired_invariant sys.sup m c) (hc : c ≤ r.millis_req) :
    ∃ m2, expired_monitor (some m) (power_management_handle_drain r sys).2 = some m2 ∧
      expired_invariant (power_management_handle_drain r sys).1.sup m2 r.millis_req := by
  unfold power_management_handle_drain
  split
  · exact ⟨m, rfl, expired_invariant_mono _ m c _ hc h⟩
  · exact request_expired_invariant _ _ _ m c h hc

theorem run_pass_expired_invariant (cfg : Config) (p : Pass) (sys : System) (m : Bool) (c : Nat)
    (h : expired_invariant sys.sup m c)
    (hlow : ∀ t ∈ pass_clocks p, c ≤ t) (hup : ∀ t ∈ pass_clocks p, t < UINT64_RANGE)
    (hpw : List.Pairwise (fun a b => a ≤ b) (pass_clocks p)) :
    ∃ m2, expired_monitor (some m) (run_pass cfg p sys).2 = some m2 ∧
      expired_invariant (run_pass cfg p sys).1.sup m2 p.readings.millis_req := by
  simp only [pass_clocks, List.mem_append, List.mem_cons, List.mem_singleton,
    List.pairwise_append, List.pairwise_cons, List.Pairwise.nil, List.not_mem_nil] at hlow hup hpw
  obtain ⟨hp1, ⟨hp2, hp3, -, hp5⟩, hp4⟩ := hpw
  -- actions before the body
  obtain ⟨m1, hm1, hi1⟩ := env_steps_expired_invariant p.before sys m c p.readings.millis_body h
    (fun t ht => hlow t (Or.inl ht)) hp1 (hlow _ (Or.inr (Or.inl rfl)))
    (fun t ht => hp4 t ht _ (Or.inl rfl))
  -- the state body
  obtain ⟨m2, hm2, hi2⟩ := body_expired_invariant cfg p.readings (env_steps sys p.before).1.sup
    m1 p.readings.millis_body hi1 (le_refl _) (hup _ (Or.inr (Or.inl rfl)))
  -- actions during the yield
  obtain ⟨m3, hm3, hi3⟩ := env_steps_expired_invariant p.during
    { (env_steps sys p.before).1 with
      sup := (power_management_handle_state_body cfg p.readings
                (env_steps sys p.before).1.sup).1 }
    m2 p.readings.millis_body p.readings.millis_req hi2
    (fun t ht => hp2 t (Or.inl ht)) hp3 (hp2 _ (Or.inr (Or.inl rfl)))
    (fun t ht => hp5 t ht _ (Or.inl rfl))
  -- the queue part
  obtain ⟨m4, hm4, hi4⟩ := drain_expired_invariant p.readings _ m3 p.readings.millis_req hi3
    (le_refl _)
  refine ⟨m4, ?_, hi4⟩
  simp only [run_pass, power_management_handle_iteration]
  rw [expired_monitor_append, hm1, expired_monitor_append, hm2, expired_monitor_cons]
  have hd : ∀ b : Bool, expired_monitor_step (some b) (Effect.delay_ticks 1) = some b := by
    intro b; simp [expired_monitor_step, idle_timer_expired, is_activity, is_timeout_raise]
  rw [hd, expired_monitor_append, hm3, expired_monitor_append, hm4]
  exact hd m4

theorem run_expired_invariant (cfg : Config) (passes : List Pass) :
    ∀ (sys : System) (m : Bool) (c : Nat), expired_invariant sys.sup m c →
      (∀ t ∈ run_clocks passes, c ≤ t) → (∀ t ∈ run_clocks passes, t < UINT64_RANGE) →
      List.Pairwise (fun a b => a ≤ b) (run_clocks passes) →
      expired_monitor (some m) (run cfg sys passes).2 ≠ none := by
  induction passes with
  | nil => intro sys m c _ _ _ _; simp [run, expired_monitor]
  | cons p rest ih =>
    intro sys m c h hlow hup hpw
    simp only [run_clocks, List.mem_append, List.pairwise_append] at hlow hup hpw
    obtain ⟨m2, hm2, hi2⟩ := run_pass_expired_invariant cfg p sys m c h
      (fun t ht => hlow t (Or.inl ht)) (fun t ht => hup t (Or.inl ht)) hpw.1
    have hmem : p.readings.millis_req ∈ pass_clocks p := by simp [pass_clocks]
    simp only [run]
    rw [expired_monitor_append, hm2]
    exact ih _ m2 _ hi2 (fun t ht => hpw.2.2 _ hmem t ht) (fun t ht => hup t (Or.inr ht))
      hpw.2.1

/-- C7, as stated, fails: the run `example_run_timeout_raised`, whose clock
never decreases, has the effect trace `example_trace_timeout_raised`, in which
`IDLE_TIMER_EXPIRED` is emitted twice between the activity signals at 3000 ms
and at 63001 ms; the only request handled in between is an
`IDLE_INACTIVITY_SET`. -/
theorem C7_counterexample :
    clock_nondecreasing (0 :: 0 :: run_clocks example_run_timeout_raised) ∧
    (run example_config (system_start 0 0) example_run_timeout_raised).2
      = example_trace_timeout_raised ∧
    ¬ expired_once_per_activity_window
      (run example_config (system_start 0 0) example_run_timeout_raised).2 := by
  have htr : (run example_config (system_start 0 0) example_run_timeout_raised).2
      = example_trace_timeout_raised := by decide
  refine ⟨?_, htr, ?_⟩
  · unfold clock_nondecreasing; decide
  · intro h
    have hsplit : (run example_config (system_start 0 0) example_run_timeout_raised).2 =
        [Effect.read _on_button_state false, Effect.read _on_device_woken_up true,
         Effect.delay_ticks 1, Effect.delay_ticks 1,
         Effect.call _on_device_setup, Effect.delay_ms 3000,
         Effect.emit POWER_MANAGEMENT_EVENT_DEVICE_SETUP_FINISHED,
         Effect.delay_ticks 1, Effect.activity 3000, Effect.delay_ticks 1,
         Effect.call _on_pmic_loop]
        ++ idle_timer_expired ::
          ([Effect.delay_ticks 1, Effect.timeout_set 30000 60000, Effect.delay_ticks 1,
            Effect.call _on_pmic_loop, Effect.delay_ticks 1, Effect.delay_ticks 1,
            Effect.call _on_pmic_loop]
          ++ idle_timer_expired ::
            [Effect.delay_ticks 1, Effect.activity 63001, Effect.delay_ticks 1]) := by
      rw [htr]; rfl
    obtain ⟨e, he, hact⟩ := h _ _ _ hsplit
    simp only [List.mem_cons, List.mem_singleton, List.not_mem_nil, or_false] at he
    rcases he with he | he | he | he | he | he | he <;> (rw [he] at hact; cases hact)

/-- C7, amended: in every run of the lifecycle loop from its start with a
non-decreasing clock, between any two emissions of `IDLE_TIMER_EXPIRED` there
is an activity signal or an `IDLE_INACTIVITY_SET` that raised
`idle_timeout_ms`: at most one emission between two consecutive activity
signals unless the timeout is raised in between. -/
theorem C7_expired_once_unless_raised (cfg : Config) (passes : List Pass) (millis0 millis1 : Nat)
    (hclock : clock_nondecreasing (millis0 :: millis1 :: run_clocks passes)) :
    expired_once_per_window_unless_raised (run cfg (system_start millis0 millis1) passes).2 := by
  obtain ⟨hpw, hup⟩ := hclock
  simp only [List.pairwise_cons, List.mem_cons, forall_eq_or_imp] at hpw hup
  apply expired_monitor_sound false
  apply run_expired_invariant cfg passes (system_start millis0 millis1) false millis1
  · exact ⟨hpw.1.1, fun hx => by cases hx⟩
  · exact hpw.2.1
  · exact hup.2.2
  · exact hpw.2.2

/-- Witness of C7 amended: the run `example_run_timeout_raised`. -/
theorem C7_expired_once_unless_raised_witness :
    clock_nondecreasing (0 :: 0 :: run_clocks example_run_timeout_raised) ∧
    expired_once_per_window_unless_raised
      (run example_config (system_start 0 0) example_run_timeout_raised).2 :=
  ⟨by unfold clock_nondecreasing; decide,
    C7_expired_once_unless_raised example_config example_run_timeout_raised 0 0
      (by unfold clock_nondecreasing; decide)⟩

/-! ## C8 -/

/-- C8: in `DEV_IDLE` with `active_lock_count = 0`, no very-long press and
the idle timer expired, `IDLE_TIMER_EXPIRED` is emitted iff the latch was
false (whatever the action is), the latch is true afterwards, and the next
state is `SHUTDOWN_PREPARE`, `SLEEP_PREPARE` or `DEV_IDLE` for the actions
`SHUTDOWN`, `SLEEP` and `NONE`. -/
theorem C8_dev_idle_expired (cfg : Config) (r : Readings) (s : Supervisor)
    (h : s.pm_state = POWER_MANAGEMENT_STATE_DEV_IDLE)
    (hlock : s._active_lock = 0)
    (hb : s._button_state ≠ POWER_MANAGEMENT_BUTTON_STATE_VERY_LONG_PRESSED)
    (hle : s._last_activity_millis ≤ r.millis_body) (hr : r.millis_body < UINT64_RANGE)
    (hexp : r.millis_body - s._last_activity_millis > s._idle_timeout_ms_set) :
    (Effect.emit POWER_MANAGEMENT_EVENT_IDLE_TIMER_EXPIRED
        ∈ (power_management_handle_state_body cfg r s).2
      ↔ s._idle_timer_expired_event_sent = false) ∧
    (power_management_handle_state_body cfg r s).1._idle_timer_expired_event_sent = true ∧
    (s._idle_timer_expired_action = POWER_MANAGEMENT_IDLE_TIMER_EXPIRED_ACTION_SHUTDOWN →
      (power_management_handle_state_body cfg r s).1.pm_state
        = POWER_MANAGEMENT_STATE_SHUTDOWN_PREPARE) ∧
    (s._idle_timer_expired_action = POWER_MANAGEMENT_IDLE_TIMER_EXPIRED_ACTION_SLEEP →
      (power_management_handle_state_body cfg r s).1.pm_state
        = POWER_MANAGEMENT_STATE_SLEEP_PREPARE) ∧
    (s._idle_timer_expired_action = POWER_MANAGEMENT_IDLE_TIMER_EXPIRED_ACTION_NOT →
      (power_management_handle_state_body cfg r s).1.pm_state
        = POWER_MANAGEMENT_STATE_DEV_IDLE) := by
  rw [body_DEV_IDLE cfg r s h]
  have hx : u64_sub r.millis_body s._last_activity_millis > s._idle_timeout_ms_set := by
    rw [u64_sub_of_le _ _ hle hr]; exact hexp
  cases hlatch : s._idle_timer_expired_event_sent <;>
  cases hact : s._idle_timer_expired_action <;>
  simp [state_DEV_IDLE, state_DEV_IDLE_lock, state_DEV_IDLE_timer, state_DEV_IDLE_button,
    state_DEV_IDLE_action, hlock, hb, hx, hlatch, hact, h]

/-- Witness of C8: `DEV_IDLE` at 30001 ms with the last activity at 0. -/
theorem C8_dev_idle_expired_witness :
    (example_in_state POWER_MANAGEMENT_STATE_DEV_IDLE).pm_state
      = POWER_MANAGEMENT_STATE_DEV_IDLE ∧
    (example_in_state POWER_MANAGEMENT_STATE_DEV_IDLE)._active_lock = 0 ∧
    (example_in_state POWER_MANAGEMENT_STATE_DEV_IDLE)._button_state
      ≠ POWER_MANAGEMENT_BUTTON_STATE_VERY_LONG_PRESSED ∧
    (example_in_state POWER_MANAGEMENT_STATE_DEV_IDLE)._last_activity_millis
      ≤ (readings_quiet 30001).millis_body ∧
    (readings_quiet 30001).millis_body < UINT64_RANGE ∧
    (readings_quiet 30001).millis_body
        - (example_in_state POWER_MANAGEMENT_STATE_DEV_IDLE)._last_activity_millis
      > (example_in_state POWER_MANAGEMENT_STATE_DEV_IDLE)._idle_timeout_ms_set ∧
    (power_management_handle_state_body example_config (readings_quiet 30001)
      (example_in_state POWER_MANAGEMENT_STATE_DEV_IDLE)).1._idle_timer_expired_event_sent
      = true :=
  ⟨rfl, rfl, by decide, by decide, by decide, by decide,
    (C8_dev_idle_expired example_config (readings_quiet 30001)
      (example_in_state POWER_MANAGEMENT_STATE_DEV_IDLE) rfl rfl (by decide) (by decide)
      (by decide) (by decide)).2.1⟩

/-! ## C9 -/

/-- C9: in `DEV_IDLE` with `active_lock_count = 0`, no very-long press,
`last_activity_ms ≤ now` and `now - last_activity_ms ≤ idle_timeout_ms`, the
body only calls `pmic_loop()` and clears the latch: the state stays
`DEV_IDLE`, no event is emitted and no terminal callback is called. Hence a
`DEV_IDLE` body that moves to `SHUTDOWN_PREPARE` or `SLEEP_PREPARE` runs at a
clock value later than `last_activity_ms + idle_timeout_ms`. -/
theorem C9_dev_idle_not_expired (cfg : Config) (r : Readings) (s : Supervisor)
    (h : s.pm_state = POWER_MANAGEMENT_STATE_DEV_IDLE)
    (hlock : s._active_lock = 0)
    (hb : s._button_state ≠ POWER_MANAGEMENT_BUTTON_STATE_VERY_LONG_PRESSED)
    (hle : s._last_activity_millis ≤ r.millis_body) (hr : r.millis_body < UINT64_RANGE)
    (hnexp : r.millis_body - s._last_activity_millis ≤ s._idle_timeout_ms_set) :
    power_management_handle_state_body cfg r s
      = ({ s with _idle_timer_expired_event_sent := false }, [Effect.call _on_pmic_loop]) ∧
    (∀ s2 : Supervisor, s2.pm_state = POWER_MANAGEMENT_STATE_DEV_IDLE →
      s2._last_activity_millis ≤ r.millis_body →
      ((power_management_handle_state_body cfg r s2).1.pm_state
          = POWER_MANAGEMENT_STATE_SHUTDOWN_PREPARE ∨
        (power_management_handle_state_body cfg r s2).1.pm_state
          = POWER_MANAGEMENT_STATE_SLEEP_PREPARE) →
      s2._last_activity_millis + s2._idle_timeout_ms_set < r.millis_body) := by
  constructor
  · rw [body_DEV_IDLE cfg r s h]
    have hx : ¬ (u64_sub r.millis_body s._last_activity_millis > s._idle_timeout_ms_set) := by
      rw [u64_sub_of_le _ _ hle hr]; omega
    simp [state_DEV_IDLE, state_DEV_IDLE_lock, state_DEV_IDLE_timer, state_DEV_IDLE_button,
      hlock, hb, hx]
  · intro s2 h2 hle2 hd
    rw [body_DEV_IDLE cfg r s2 h2] at hd
    by_contra hcon
    have hx : ¬ (u64_sub r.millis_body s2._last_activity_millis > s2._idle_timeout_ms_set) := by
      rw [u64_sub_of_le _ _ hle2 hr]; omega
    by_cases hl : s2._active_lock = 0 <;>
    by_cases hbb : s2._button_state = POWER_MANAGEMENT_BUTTON_STATE_VERY_LONG_PRESSED <;>
    simp [state_DEV_IDLE, state_DEV_IDLE_lock, state_DEV_IDLE_timer, state_DEV_IDLE_button,
      hl, hbb, hx, h2] at hd

/-- Witness of C9: `DEV_IDLE` at 30000 ms with the last activity at 0. -/
theorem C9_dev_idle_not_expired_witness :
    (example_in_state POWER_MANAGEMENT_STATE_DEV_IDLE).pm_state
      = POWER_MANAGEMENT_STATE_DEV_IDLE ∧
    (example_in_state POWER_MANAGEMENT_STATE_DEV_IDLE)._active_lock = 0 ∧
    (example_in_state POWER_MANAGEMENT_STATE_DEV_IDLE)._button_state
      ≠ POWER_MANAGEMENT_BUTTON_STATE_VERY_LONG_PRESSED ∧
    (example_in_state POWER_MANAGEMENT_STATE_DEV_IDLE)._last_activity_millis
      ≤ (readings_quiet 30000).millis_body ∧
    (readings_quiet 30000).millis_body < UINT64_RANGE ∧
    (readings_quiet 30000).millis_body
        - (example_in_state POWER_MANAGEMENT_STATE_DEV_IDLE)._last_activity_millis
      ≤ (example_in_state POWER_MANAGEMENT_STATE_DEV_IDLE)._idle_timeout_ms_set ∧
    power_management_handle_state_body example_config (readings_quiet 30000)
        (example_in_state POWER_MANAGEMENT_STATE_DEV_IDLE)
      = ({ example_in_state POWER_MANAGEMENT_STATE_DEV_IDLE with
            _idle_timer_expired_event_sent := false },
         [Effect.call _on_pmic_loop]) :=
  ⟨rfl, rfl, by decide, by decide, by decide, by decide,
    (C9_dev_idle_not_expired example_config (readings_quiet 30000)
      (example_in_state POWER_MANAGEMENT_STATE_DEV_IDLE) rfl rfl (by decide) (by decide)
      (by decide) (by decide)).1⟩

/-! ## C10 -/

theorem announced_append (a b : List Effect)
    (ha : terminal_calls_announced_or_unplugged a)
    (hb : terminal_calls_announced_or_unplugged b) :
    terminal_calls_announced_or_unplugged (a ++ b) := by
  intro cb ev pre post hcb heq
  rcases List.append_eq_append_iff.mp heq with ⟨a', h1, h2⟩ | ⟨c', h1, h2⟩
  · -- the call lies in `b`
    rcases hb cb ev a' post hcb h2 with ⟨x, hx⟩ | ⟨hs, x, hx⟩
    · left; exact ⟨a ++ x, by rw [h1, hx, List.append_assoc]⟩
    · right; exact ⟨hs, a ++ x, by rw [h1, hx, List.append_assoc]⟩
  · cases c' with
    | nil =>
      simp only [List.nil_append, List.append_nil] at h1 h2
      rcases hb cb ev [] post hcb h2.symm with ⟨x, hx⟩ | ⟨hs, x, hx⟩
      · exact absurd hx (by simp)
      · exact absurd hx (by simp)
    | cons y c'' =>
      simp only [List.cons_append, List.cons.injEq] at h2
      obtain ⟨hy, _⟩ := h2
      subst hy
      exact ha cb ev pre c'' hcb h1

theorem announced_of_no_terminal_call (a : List Effect) (h : no_terminal_call a) :
    terminal_calls_announced_or_unplugged a := by
  intro cb ev pre post hcb heq
  exact absurd (by rw [heq]; simp) (h cb ev hcb)

theorem announced_snoc (l : List Effect) (cb : Callback) (h : no_terminal_call l)
    (hok : ∀ ev, terminal_event cb = some ev →
      (∃ a, l = a ++ [Effect.emit ev,
        Effect.delay_ms POWER_MANAGEMENT_EVENT_AND_ACTION_ON_SLEEP_SHUTDOWN_GAP_MS]) ∨
      (cb = _on_device_shutdown ∧
        ∃ a, l = a ++ [Effect.read _on_charger_connected_state false])) :
    terminal_calls_announced_or_unplugged (l ++ [Effect.call cb]) := by
  intro cb2 ev pre post hcb heq
  rcases List.append_eq_append_iff.mp heq with ⟨a', h1, h2⟩ | ⟨c', h1, h2⟩
  · cases a' with
    | nil =>
      simp only [List.nil_append, List.cons.injEq, Effect.call.injEq] at h2
      obtain ⟨hc, _⟩ := h2
      subst hc
      simp only [List.append_nil] at h1
      subst h1
      exact hok ev hcb
    | cons y a'' =>
      simp only [List.cons_append, List.cons.injEq] at h2
      obtain ⟨_, h3⟩ := h2
      exact absurd h3 (by simp)
  · cases c' with
    | nil =>
      simp only [List.nil_append, List.cons.injEq, Effect.call.injEq, List.append_nil] at h1 h2
      obtain ⟨hc, _⟩ := h2
      subst hc; subst h1
      exact hok ev hcb
    | cons y c'' =>
      simp only [List.cons_append, List.cons.injEq] at h2
      obtain ⟨hy, _⟩ := h2
      subst hy
      exact absurd (by rw [h1]; simp) (h cb2 ev hcb)

theorem no_terminal_call_of_forall (l : List Effect)
    (h : ∀ e ∈ l, ∀ cb, e = Effect.call cb → terminal_event cb = none) :
    no_terminal_call l := by
  intro cb ev hcb hmem
  have := h _ hmem cb rfl
  rw [this] at hcb
  exact absurd hcb (by simp)

theorem body_announced (cfg : Config) (r : Readings) (s : Supervisor) :
    terminal_calls_announced_or_unplugged (power_management_handle_state_body cfg r s).2 := by
  unfold power_management_handle_state_body
  split
  · -- INIT
    unfold state_INIT
    split
    · exact announced_of_no_terminal_call _ (no_terminal_call_of_forall _ (by simp))
    · split
      · exact announced_of_no_terminal_call _ (no_terminal_call_of_forall _ (by simp))
      · split
        · exact announced_of_no_terminal_call _
            (no_terminal_call_of_forall _ (by simp [terminal_event]))
        · split
          · exact announced_snoc
              [Effect.read _on_button_state false, Effect.read _on_device_woken_up false,
               Effect.read _on_charger_connected_state false] _on_device_shutdown
              (no_terminal_call_of_forall _ (by simp))
              (fun ev _ => Or.inr ⟨rfl,
                [Effect.read _on_button_state false, Effect.read _on_device_woken_up false],
                rfl⟩)
          · exact announced_of_no_terminal_call _ (no_terminal_call_of_forall _ (by simp))
  · -- OFF_CHARGER
    unfold state_OFF_CHARGER
    split
    · exact announced_of_no_terminal_call _
        (no_terminal_call_of_forall _ (by simp [terminal_event]))
    · exact announced_snoc [Effect.read _on_charger_connected_state false] _on_device_shutdown
        (no_terminal_call_of_forall _ (by simp))
        (fun ev _ => Or.inr ⟨rfl, [], rfl⟩)
  · -- SETUP
    exact announced_of_no_terminal_call _
      (no_terminal_call_of_forall _ (by simp [state_SETUP, terminal_event]))
  · -- DEV_IDLE
    apply announced_of_no_terminal_call
    apply no_terminal_call_of_forall
    intro e he cb hcb
    simp only [state_DEV_IDLE, List.mem_cons, List.mem_append] at he
    rcases he with he | he | he
    · rw [he] at hcb; cases hcb; rfl
    · unfold state_DEV_IDLE_timer at he
      split at he
      · split at he
        · simp only [List.mem_singleton] at he; rw [he] at hcb; cases hcb
        · simp at he
      · simp at he
    · unfold state_DEV_IDLE_button at he
      split at he
      · simp only [List.mem_singleton] at he; rw [he] at hcb; cases hcb
      · simp at he
  · -- DEV_ACTIVE
    exact announced_of_no_terminal_call _
      (no_terminal_call_of_forall _ (by simp [state_DEV_ACTIVE, terminal_event]))
  · -- SHUTDOWN_PREPARE
    exact announced_snoc
      [Effect.emit POWER_MANAGEMENT_EVENT_DEVICE_SHUTDOWN,
       Effect.delay_ms POWER_MANAGEMENT_EVENT_AND_ACTION_ON_SLEEP_SHUTDOWN_GAP_MS]
      _on_device_shutdown (no_terminal_call_of_forall _ (by simp))
      (fun ev hev => Or.inl ⟨[], by simp only [terminal_event, Option.some.injEq] at hev; rw [← hev]; rfl⟩)
  · exact announced_of_no_terminal_call _ (no_terminal_call_of_forall _ (by simp))
  · -- REBOOT_PREPARE
    exact announced_snoc
      [Effect.emit POWER_MANAGEMENT_EVENT_DEVICE_REBOOT,
       Effect.delay_ms POWER_MANAGEMENT_EVENT_AND_ACTION_ON_SLEEP_SHUTDOWN_GAP_MS]
      _on_device_reboot (no_terminal_call_of_forall _ (by simp))
      (fun ev hev => Or.inl ⟨[], by simp only [terminal_event, Option.some.injEq] at hev; rw [← hev]; rfl⟩)
  · -- SLEEP_PREPARE
    exact announced_snoc
      [Effect.emit POWER_MANAGEMENT_EVENT_DEVICE_SLEEP,
       Effect.delay_ms POWER_MANAGEMENT_EVENT_AND_ACTION_ON_SLEEP_SHUTDOWN_GAP_MS]
      _on_device_sleep (no_terminal_call_of_forall _ (by simp))
      (fun ev hev => Or.inl ⟨[], by simp only [terminal_event, Option.some.injEq] at hev; rw [← hev]; rfl⟩)
  · exact announced_of_no_terminal_call _ (no_terminal_call_of_forall _ (by simp))
  · exact announced_of_no_terminal_call _ (no_terminal_call_of_forall _ (by simp))

theorem env_step_trace (sys : System) (a : EnvAction) :
    ∀ e ∈ (env_step sys a).2, ∃ t, e = Effect.activity t := by
  cases a <;> simp [env_step]

theorem env_steps_trace (as : List EnvAction) :
    ∀ sys : System, ∀ e ∈ (env_steps sys as).2, ∃ t, e = Effect.activity t := by
  induction as with
  | nil => intro sys e he; simp [env_steps] at he
  | cons a rest ih =>
    intro sys e he
    simp only [env_steps, List.mem_append] at he
    rcases he with he | he
    · exact env_step_trace sys a e he
    · exact ih _ e he

theorem handle_request_trace (now : Nat) (s : Supervisor) (req : power_management_request_t) :
    ∀ e ∈ (power_management_handle_request now s req).2,
      (∃ t, e = Effect.activity t) ∨ (∃ a b, e = Effect.timeout_set a b) := by
  unfold power_management_handle_request
  split
  case h_2 => split <;> simp
  all_goals simp

theorem drain_trace (r : Readings) (sys : System) :
    ∀ e ∈ (power_management_handle_drain r sys).2,
      (∃ t, e = Effect.activity t) ∨ (∃ a b, e = Effect.timeout_set a b) := by
  unfold power_management_handle_drain
  split
  · simp
  · exact handle_request_trace _ _ _

theorem env_steps_announced (as : List EnvAction) (sys : System) :
    terminal_calls_announced_or_unplugged (env_steps sys as).2 := by
  apply announced_of_no_terminal_call
  apply no_terminal_call_of_forall
  intro e he cb hcb
  obtain ⟨t, ht⟩ := env_steps_trace as sys e he
  rw [ht] at hcb; cases hcb

theorem drain_announced (r : Readings) (sys : System) :
    terminal_calls_announced_or_unplugged (power_management_handle_drain r sys).2 := by
  apply announced_of_no_terminal_call
  apply no_terminal_call_of_forall
  intro e he cb hcb
  rcases drain_trace r sys e he with ⟨t, ht⟩ | ⟨a, b, ht⟩ <;> (rw [ht] at hcb; cases hcb)

theorem delay_announced (n : Nat) :
    terminal_calls_announced_or_unplugged [Effect.delay_ticks n] :=
  announced_of_no_terminal_call _ (no_terminal_call_of_forall _ (by simp))

theorem run_pass_announced (cfg : Config) (p : Pass) (sys : System) :
    terminal_calls_announced_or_unplugged (run_pass cfg p sys).2 := by
  simp only [run_pass, power_management_handle_iteration]
  apply announced_append _ _ (env_steps_announced _ _)
  apply announced_append _ _ (body_announced _ _ _)
  apply announced_append [Effect.delay_ticks 1] _ (delay_announced 1)
  apply announced_append _ _ (env_steps_announced _ _)
  exact announced_append _ _ (drain_announced _ _) (delay_announced 1)

theorem run_announced (cfg : Config) (passes : List Pass) :
    ∀ sys : System, terminal_calls_announced_or_unplugged (run cfg sys passes).2 := by
  induction passes with
  | nil => intro sys; exact announced_of_no_terminal_call _ (no_terminal_call_of_forall _ (by simp [run]))
  | cons p rest ih =>
    intro sys
    simp only [run]
    exact announced_append _ _ (run_pass_announced cfg p sys) (ih _)

/-- C10, as stated, fails: in the run `example_run_unexplained_boot` the `INIT`
body of the second pass calls `shutdown()` right after its three readings, and
no `DEVICE_SHUTDOWN` emission precedes the call. -/
theorem C10_counterexample :
    (run example_config (system_start 0 0) example_run_unexplained_boot).2
      = [Effect.read _on_button_state false, Effect.read _on_device_woken_up false,
         Effect.read _on_charger_connected_state false,
         Effect.delay_ticks 1, Effect.delay_ticks 1,
         Effect.read _on_button_state false, Effect.read _on_device_woken_up false,
         Effect.read _on_charger_connected_state false, Effect.call _on_device_shutdown,
         Effect.delay_ticks 1, Effect.delay_ticks 1] ∧
    ¬ terminal_calls_announced
      (run example_config (system_start 0 0) example_run_unexplained_boot).2 := by
  have htr : (run example_config (system_start 0 0) example_run_unexplained_boot).2 =
      [Effect.read _on_button_state false, Effect.read _on_device_woken_up false,
        Effect.read _on_charger_connected_state false,
        Effect.delay_ticks 1, Effect.delay_ticks 1,
        Effect.read _on_button_state false, Effect.read _on_device_woken_up false,
        Effect.read _on_charger_connected_state false]
      ++ Effect.call _on_device_shutdown :: [Effect.delay_ticks 1, Effect.delay_ticks 1] := by
    decide
  refine ⟨htr, ?_⟩
  intro h
  obtain ⟨a, b, hab, _⟩ :=
    h _on_device_shutdown POWER_MANAGEMENT_EVENT_DEVICE_SHUTDOWN _ _ rfl htr
  have hmem : Effect.emit POWER_MANAGEMENT_EVENT_DEVICE_SHUTDOWN ∈
      [Effect.read _on_button_state false, Effect.read _on_device_woken_up false,
        Effect.read _on_charger_connected_state false,
        Effect.delay_ticks 1, Effect.delay_ticks 1,
        Effect.read _on_button_state false, Effect.read _on_device_woken_up false,
        Effect.read _on_charger_connected_state false] := by
    rw [hab]; simp
  simp at hmem

/-- C10, amended: in every run of the lifecycle loop from its start, every
call of `sleep()` or `reboot()` comes right after the emission of
`DEVICE_SLEEP` or `DEVICE_REBOOT` and a delay of `GAP_MS`; every call of
`shutdown()` comes either right after the emission of `DEVICE_SHUTDOWN` and a
delay of `GAP_MS`, or right after a `charger_connected()` that returned false
(the calls made by the `INIT` and `OFF_CHARGER` bodies, which emit nothing). -/
theorem C10_terminal_calls (cfg : Config) (passes : List Pass) (millis0 millis1 : Nat)
    (cb : Callback) (ev : power_management_event_t) (pre post : List Effect)
    (hcb : terminal_event cb = some ev)
    (htr : (run cfg (system_start millis0 millis1) passes).2 = pre ++ Effect.call cb :: post) :
    (∃ a, pre = a ++ [Effect.emit ev,
        Effect.delay_ms POWER_MANAGEMENT_EVENT_AND_ACTION_ON_SLEEP_SHUTDOWN_GAP_MS]) ∨
    (cb = _on_device_shutdown ∧
      ∃ a, pre = a ++ [Effect.read _on_charger_connected_state false]) :=
  run_announced cfg passes (system_start millis0 millis1) cb ev pre post hcb htr

/-- Witness of C10 amended: the run `example_run_reboot`, in which `reboot()`
is called. -/
theorem C10_terminal_calls_witness :
    terminal_event _on_device_reboot = some POWER_MANAGEMENT_EVENT_DEVICE_REBOOT ∧
    (run example_config (system_start 0 0) example_run_reboot).2
      = [Effect.read _on_button_state false, Effect.read _on_device_woken_up true,
         Effect.delay_ticks 1, Effect.delay_ticks 1,
         Effect.emit POWER_MANAGEMENT_EVENT_DEVICE_REBOOT,
         Effect.delay_ms POWER_MANAGEMENT_EVENT_AND_ACTION_ON_SLEEP_SHUTDOWN_GAP_MS]
        ++ Effect.call _on_device_reboot :: [Effect.delay_ticks 1, Effect.delay_ticks 1] ∧
    ((∃ a, [Effect.read _on_button_state false, Effect.read _on_device_woken_up true,
         Effect.delay_ticks 1, Effect.delay_ticks 1,
         Effect.emit POWER_MANAGEMENT_EVENT_DEVICE_REBOOT,
         Effect.delay_ms POWER_MANAGEMENT_EVENT_AND_ACTION_ON_SLEEP_SHUTDOWN_GAP_MS]
        = a ++ [Effect.emit POWER_MANAGEMENT_EVENT_DEVICE_REBOOT,
          Effect.delay_ms POWER_MANAGEMENT_EVENT_AND_ACTION_ON_SLEEP_SHUTDOWN_GAP_MS]) ∨
      (_on_device_reboot = _on_device_shutdown ∧
        ∃ a, [Effect.read _on_button_state false, Effect.read _on_device_woken_up true,
         Effect.delay_ticks 1, Effect.delay_ticks 1,
         Effect.emit POWER_MANAGEMENT_EVENT_DEVICE_REBOOT,
         Effect.delay_ms POWER_MANAGEMENT_EVENT_AND_ACTION_ON_SLEEP_SHUTDOWN_GAP_MS]
          = a ++ [Effect.read _on_charger_connected_state false])) :=
  ⟨rfl, by decide,
    C10_terminal_calls example_config example_run_reboot 0 0 _on_device_reboot
      POWER_MANAGEMENT_EVENT_DEVICE_REBOOT
      [Effect.read _on_button_state false, Effect.read _on_device_woken_up true,
         Effect.delay_ticks 1, Effect.delay_ticks 1,
        Effect.emit POWER_MANAGEMENT_EVENT_DEVICE_REBOOT,
        Effect.delay_ms POWER_MANAGEMENT_EVENT_AND_ACTION_ON_SLEEP_SHUTDOWN_GAP_MS]
      [Effect.delay_ticks 1, Effect.delay_ticks 1] rfl (by decide)⟩

/-! ## C11 -/

/-- C11: the body of each prepare state leaves the supervisor state unchanged
and its effect trace is exactly: emit the event of the state
(`DEVICE_SHUTDOWN`, `DEVICE_REBOOT`, `DEVICE_SLEEP`), delay `GAP_MS`, call the
callback of the state (`shutdown`, `reboot`, `sleep`); `GAP_MS` is 3000. -/
theorem C11_prepare_bodies (cfg : Config) (r : Readings) (s : Supervisor) :
    power_management_handle_state_body cfg r
        { s with pm_state := POWER_MANAGEMENT_STATE_SHUTDOWN_PREPARE }
      = ({ s with pm_state := POWER_MANAGEMENT_STATE_SHUTDOWN_PREPARE },
         [Effect.emit POWER_MANAGEMENT_EVENT_DEVICE_SHUTDOWN,
          Effect.delay_ms POWER_MANAGEMENT_EVENT_AND_ACTION_ON_SLEEP_SHUTDOWN_GAP_MS,
          Effect.call _on_device_shutdown]) ∧
    power_management_handle_state_body cfg r
        { s with pm_state := POWER_MANAGEMENT_STATE_REBOOT_PREPARE }
      = ({ s with pm_state := POWER_MANAGEMENT_STATE_REBOOT_PREPARE },
         [Effect.emit POWER_MANAGEMENT_EVENT_DEVICE_REBOOT,
          Effect.delay_ms POWER_MANAGEMENT_EVENT_AND_ACTION_ON_SLEEP_SHUTDOWN_GAP_MS,
          Effect.call _on_device_reboot]) ∧
    power_management_handle_state_body cfg r
        { s with pm_state := POWER_MANAGEMENT_STATE_SLEEP_PREPARE }
      = ({ s with pm_state := POWER_MANAGEMENT_STATE_SLEEP_PREPARE },
         [Effect.emit POWER_MANAGEMENT_EVENT_DEVICE_SLEEP,
          Effect.delay_ms POWER_MANAGEMENT_EVENT_AND_ACTION_ON_SLEEP_SHUTDOWN_GAP_MS,
          Effect.call _on_device_sleep]) ∧
    POWER_MANAGEMENT_EVENT_AND_ACTION_ON_SLEEP_SHUTDOWN_GAP_MS = 3000 :=
  ⟨rfl, rfl, rfl, rfl⟩

/-! ## C12 -/

/-- C12: handling a `SLEEP`, `REBOOT` or `SHUTDOWN` request sets the state to
`SLEEP_PREPARE`, `REBOOT_PREPARE` or `SHUTDOWN_PREPARE` and changes no other
field of the supervisor, in every current state (the request switch does not
read `pm_state`), so in particular in every state other than the sentinels. -/
theorem C12_terminal_requests (now : Nat) (s : Supervisor) (req : power_management_request_t) :
    (power_management_handle_request now s
        { req with request_type := POWER_MANAGEMENT_REQUEST_TYPE_SLEEP }).1
      = { s with pm_state := POWER_MANAGEMENT_STATE_SLEEP_PREPARE } ∧
    (power_management_handle_request now s
        { req with request_type := POWER_MANAGEMENT_REQUEST_TYPE_REBOOT }).1
      = { s with pm_state := POWER_MANAGEMENT_STATE_REBOOT_PREPARE } ∧
    (power_management_handle_request now s
        { req with request_type := POWER_MANAGEMENT_REQUEST_TYPE_SHUTDOWN }).1
      = { s with pm_state := POWER_MANAGEMENT_STATE_SHUTDOWN_PREPARE } :=
  ⟨rfl, rfl, rfl⟩

/-! ## C13 -/

/-- C14: the `INIT` body. With the button read high, or the button low and
a wake-up boot, the next state is `SETUP` and the trace holds only the
readings; otherwise with the charger connected, `off_charger_setup()` is
called once, then a 3 s delay, then `OFF_CHARGER` is emitted, and the next
state is `OFF_CHARGER`; otherwise when the wait has run out, `shutdown()` is
called and nothing is emitted; otherwise the trace holds only the three
readings and the state stays `INIT`. -/
theorem C14_init_body (cfg : Config) (r : Readings) (s : Supervisor)
    (h : s.pm_state = POWER_MANAGEMENT_STATE_INIT) :
    (r.button = true →
      power_management_handle_state_body cfg r s
        = ({ s with pm_state := POWER_MANAGEMENT_STATE_SETUP },
           [Effect.read _on_button_state true])) ∧
    (r.button = false → r.woken_up = true →
      power_management_handle_state_body cfg r s
        = ({ s with pm_state := POWER_MANAGEMENT_STATE_SETUP },
           [Effect.read _on_button_state false, Effect.read _on_device_woken_up true])) ∧
    (r.button = false → r.woken_up = false → r.charger = true →
      power_management_handle_state_body cfg r s
        = ({ s with pm_state := POWER_MANAGEMENT_STATE_OFF_CHARGER },
           [Effect.read _on_button_state false, Effect.read _on_device_woken_up false,
            Effect.read _on_charger_connected_state true,
            Effect.call _on_off_charger_setup, Effect.delay_ms 3000,
            Effect.emit POWER_MANAGEMENT_EVENT_OFF_CHARGER])) ∧
    (r.button = false → r.woken_up = false → r.charger = false →
      u64_sub r.millis_body s._init_start_millis
        > cfg.CONFIG_POWER_MANAGEMENT_INIT_WAIT_FOR_BUTTON_ACTION_MS →
      power_management_handle_state_body cfg r s
        = ({ s with _shutdown_init_log := true },
           [Effect.read _on_button_state false, Effect.read _on_device_woken_up false,
            Effect.read _on_charger_connected_state false,
            Effect.call _on_device_shutdown])) ∧
    (r.button = false → r.woken_up = false → r.charger = false →
      ¬ (u64_sub r.millis_body s._init_start_millis
        > cfg.CONFIG_POWER_MANAGEMENT_INIT_WAIT_FOR_BUTTON_ACTION_MS) →
      power_management_handle_state_body cfg r s
        = (s, [Effect.read _on_button_state false, Effect.read _on_device_woken_up false,
               Effect.read _on_charger_connected_state false])) := by
  rw [body_INIT cfg r s h]
  refine ⟨?_, ?_, ?_, ?_, ?_⟩
  · intro h1; simp [state_INIT, h1]
  · intro h1 h2; simp [state_INIT, h1, h2]
  · intro h1 h2 h3; simp [state_INIT, h1, h2, h3]
  · intro h1 h2 h3 h4; simp [state_INIT, h1, h2, h3, h4]
  · intro h1 h2 h3 h4; simp [state_INIT, h1, h2, h3, h4]

/-- Witness of C14: the first `INIT` body after boot, nothing reported. -/
theorem C14_init_body_witness :
    (power_management_handle_start 0 0).pm_state = POWER_MANAGEMENT_STATE_INIT ∧
    power_management_handle_state_body example_config (readings_quiet 10)
        (power_management_handle_start 0 0)
      = (power_management_handle_start 0 0,
         [Effect.read _on_button_state false, Effect.read _on_device_woken_up false,
          Effect.read _on_charger_connected_state false]) :=
  ⟨rfl, (C14_init_body example_config (readings_quiet 10) (power_management_handle_start 0 0)
    rfl).2.2.2.2 rfl rfl rfl (by decide)⟩

/-! ## C15 -/

/-- C15: the `OFF_CHARGER` body. With the charger connected,
`off_charger_loop()` is called once and `shutdown()` is not, and the next
state is `SETUP` iff `button_state` is `LONG_PRESSED`, otherwise
`OFF_CHARGER`; with the charger disconnected, `shutdown()` is called,
`off_charger_loop()` is not, and nothing is emitted. -/
theorem C15_off_charger_body (cfg : Config) (r : Readings) (s : Supervisor)
    (h : s.pm_state = POWER_MANAGEMENT_STATE_OFF_CHARGER) :
    (r.charger = true →
      (power_management_handle_state_body cfg r s).2
        = [Effect.read _on_charger_connected_state true, Effect.call _on_off_charger_loop,
           Effect.delay_ms 100] ∧
      ((power_management_handle_state_body cfg r s).1.pm_state = POWER_MANAGEMENT_STATE_SETUP
        ↔ s._button_state = POWER_MANAGEMENT_BUTTON_STATE_LONG_PRESSED) ∧
      (s._button_state ≠ POWER_MANAGEMENT_BUTTON_STATE_LONG_PRESSED →
        (power_management_handle_state_body cfg r s).1.pm_state
          = POWER_MANAGEMENT_STATE_OFF_CHARGER)) ∧
    (r.charger = false →
      power_management_handle_state_body cfg r s
        = (s, [Effect.read _on_charger_connected_state false,
               Effect.call _on_device_shutdown])) := by
  rw [body_OFF_CHARGER cfg r s h]
  refine ⟨?_, ?_⟩
  · intro h1
    by_cases hb : s._button_state = POWER_MANAGEMENT_BUTTON_STATE_LONG_PRESSED <;>
    simp [state_OFF_CHARGER, h1, hb, h]
  · intro h1; simp [state_OFF_CHARGER, h1]

/-- Witness of C15: `OFF_CHARGER` with the charger unplugged. -/
theorem C15_off_charger_body_witness :
    (example_in_state POWER_MANAGEMENT_STATE_OFF_CHARGER).pm_state
      = POWER_MANAGEMENT_STATE_OFF_CHARGER ∧
    power_management_handle_state_body example_config (readings_quiet 10)
        (example_in_state POWER_MANAGEMENT_STATE_OFF_CHARGER)
      = (example_in_state POWER_MANAGEMENT_STATE_OFF_CHARGER,
         [Effect.read _on_charger_connected_state false, Effect.call _on_device_shutdown]) :=
  ⟨rfl, (C15_off_charger_body example_config (readings_quiet 10)
    (example_in_state POWER_MANAGEMENT_STATE_OFF_CHARGER) rfl).2 rfl⟩

/-! ## C16 -/

/-- C16: the effect trace of the `SETUP` body is exactly: call `setup()`,
delay 3 s, emit `DEVICE_SETUP_FINISHED`; the next state is `DEV_IDLE` and
nothing else changes, whatever the readings and the other variables are. -/
theorem C16_setup_body (cfg : Config) (r : Readings) (s : Supervisor) :
    power_management_handle_state_body cfg r { s with pm_state := POWER_MANAGEMENT_STATE_SETUP }
      = ({ s with pm_state := POWER_MANAGEMENT_STATE_DEV_IDLE },
         [Effect.call _on_device_setup, Effect.delay_ms 3000,
          Effect.emit POWER_MANAGEMENT_EVENT_DEVICE_SETUP_FINISHED]) :=
  rfl

/-! ## C17 -/

/-- C17, as stated, fails: the `SETUP` body executed at 5000 ms on a
supervisor whose last activity is at 0 leaves `last_activity_ms` at 0. -/
theorem C17_counterexample :
    (power_management_handle_state_body example_config (readings_quiet 5000)
        (example_in_state POWER_MANAGEMENT_STATE_SETUP)).1._last_activity_millis
      ≠ (readings_quiet 5000).millis_body := by
  decide

/-- C17, amended: the `SETUP` body leaves `last_activity_ms` unchanged;
`last_activity_ms` is set to the clock value read when the lifecycle task
starts, before its loop. -/
theorem C17_setup_keeps_last_activity (cfg : Config) (r : Readings) (s : Supervisor)
    (millis0 millis1 : Nat) :
    (power_management_handle_state_body cfg r
      { s with pm_state := POWER_MANAGEMENT_STATE_SETUP }).1._last_activity_millis
      = s._last_activity_millis ∧
    (power_management_handle_start millis0 millis1)._last_activity_millis = millis0 :=
  ⟨rfl, rfl⟩

/-! ## C18 -/

/-- C18: from a supervisor with `active_lock_count = c`, `0 ≤ c ≤ INT_MAX`,
handling an `ACTIVE_LOCK` and then an `ACTIVE_UNLOCK` at clock value `t`
gives `active_lock_count = c` again and `last_activity_ms = t`. -/
theorem C18_acquire_release (t0 t : Nat) (s : Supervisor)
    (h0 : 0 ≤ s._active_lock) (h1 : s._active_lock ≤ INT_MAX) :
    (power_management_handle_request t
        (power_management_handle_request t0 s request_active_lock).1
        request_active_unlock).1._active_lock = s._active_lock ∧
    (power_management_handle_request t
        (power_management_handle_request t0 s request_active_lock).1
        request_active_unlock).1._last_activity_millis = t := by
  unfold INT_MAX at h1
  refine ⟨?_, rfl⟩
  show (if wrap_int32 (wrap_int32 (s._active_lock + 1) - 1) < 0 then 0
    else wrap_int32 (wrap_int32 (s._active_lock + 1) - 1)) = s._active_lock
  have : wrap_int32 (wrap_int32 (s._active_lock + 1) - 1) = s._active_lock := by
    unfold wrap_int32; omega
  rw [this]
  split <;> omega

/-- Witness of C18: acquire at 5 ms and release at 9 ms in the initial state. -/
theorem C18_acquire_release_witness :
    0 ≤ (power_management_handle_start 0 0)._active_lock ∧
    (power_management_handle_start 0 0)._active_lock ≤ INT_MAX ∧
    ((power_management_handle_request 9
        (power_management_handle_request 5 (power_management_handle_start 0 0)
          request_active_lock).1
        request_active_unlock).1._active_lock = (power_management_handle_start 0 0)._active_lock ∧
    (power_management_handle_request 9
        (power_management_handle_request 5 (power_management_handle_start 0 0)
          request_active_lock).1
        request_active_unlock).1._last_activity_millis = 9) :=
  ⟨by decide, by decide,
    C18_acquire_release 5 9 (power_management_handle_start 0 0) (by decide) (by decide)⟩

/-! ## C19 -/

/-- C19: handling an `IDLE_TIMER_RESET` request at clock value `now` sets
`last_activity_ms` to `now` and changes no other field of the supervisor. -/
theorem C19_idle_timer_reset (now : Nat) (s : Supervisor) (req : power_management_request_t) :
    power_management_handle_request now s
        { req with request_type := POWER_MANAGEMENT_REQUEST_TYPE_IDLE_TIMER_RESET }
      = ({ s with _last_activity_millis := now }, [Effect.activity now]) :=
  rfl

/-! ## C20 -/

/-- C20: the `DEV_IDLE` body executed with `button_state` equal to
`VERY_LONG_PRESSED` leaves the state `REBOOT_PREPARE`, whatever the lock
counter, the idle timer and the idle action are. -/
theorem C20_dev_idle_very_long_press (cfg : Config) (r : Readings) (s : Supervisor)
    (h : s.pm_state = POWER_MANAGEMENT_STATE_DEV_IDLE)
    (hb : s._button_state = POWER_MANAGEMENT_BUTTON_STATE_VERY_LONG_PRESSED) :
    (power_management_handle_state_body cfg r s).1.pm_state
      = POWER_MANAGEMENT_STATE_REBOOT_PREPARE := by
  rw [body_DEV_IDLE cfg r s h]
  have key : ∀ t : Supervisor, t._button_state = POWER_MANAGEMENT_BUTTON_STATE_VERY_LONG_PRESSED →
      (state_DEV_IDLE_button t).1.pm_state = POWER_MANAGEMENT_STATE_REBOOT_PREPARE := by
    intro t ht; simp [state_DEV_IDLE_button, ht]
  apply key
  have hact : ∀ t : Supervisor, (state_DEV_IDLE_action t)._button_state = t._button_state := by
    intro t; unfold state_DEV_IDLE_action; split <;> rfl
  have hlk : (state_DEV_IDLE_lock s)._button_state = s._button_state := by
    unfold state_DEV_IDLE_lock; split <;> rfl
  unfold state_DEV_IDLE_timer
  split
  · split
    · rw [hact]; simp only; rw [hlk, hb]
    · rw [hact, hlk, hb]
  · simp only; rw [hlk, hb]

/-- Witness of C20: very-long press with the lock held, the idle timer
expired and the idle action `SHUTDOWN`. -/
theorem C20_dev_idle_very_long_press_witness :
    ({ example_locked_expired with
        _button_state := POWER_MANAGEMENT_BUTTON_STATE_VERY_LONG_PRESSED } : Supervisor).pm_state
      = POWER_MANAGEMENT_STATE_DEV_IDLE ∧
    ({ example_locked_expired with
        _button_state := POWER_MANAGEMENT_BUTTON_STATE_VERY_LONG_PRESSED }
        : Supervisor)._button_state
      = POWER_MANAGEMENT_BUTTON_STATE_VERY_LONG_PRESSED ∧
    (power_management_handle_state_body example_config (readings_quiet 31014)
      { example_locked_expired with
        _button_state := POWER_MANAGEMENT_BUTTON_STATE_VERY_LONG_PRESSED }).1.pm_state
      = POWER_MANAGEMENT_STATE_REBOOT_PREPARE :=
  ⟨rfl, rfl,
    C20_dev_idle_very_long_press example_config (readings_quiet 31014)
      { example_locked_expired with
        _button_state := POWER_MANAGEMENT_BUTTON_STATE_VERY_LONG_PRESSED } rfl rfl⟩

/-! ## Helper lemmas on the button task -/

theorem emitted_events_append (a b : List Effect) :
    emitted_events (a ++ b) = emitted_events a ++ emitted_events b := by
  induction a with
  | nil => rfl
  | cons e rest ih => cases e <;> simp [emitted_events, ih]

theorem button_run_append (cfg : Config) (a b : List ButtonReadings) :
    ∀ bt : ButtonTask, button_run cfg bt (a ++ b)
      = ((button_run cfg (button_run cfg bt a).1 b).1,
         (button_run cfg bt a).2 ++ (button_run cfg (button_run cfg bt a).1 b).2) := by
  induction a with
  | nil => intro bt; simp [button_run]
  | cons r rest ih => intro bt; simp [button_run, ih, List.append_assoc]

theorem samples_from_append (a b : List Bool) :
    ∀ t : Nat, samples_from t (a ++ b) = samples_from t a ++ samples_from (t + a.length) b := by
  induction a with
  | nil => intro t; simp [samples_from]
  | cons l rest ih =>
    intro t
    have hlen : t + 1 + rest.length = t + (rest.length + 1) := by omega
    show sample l t :: samples_from (t + 1) (rest ++ b)
      = sample l t :: samples_from (t + 1) rest ++ samples_from (t + (rest.length + 1)) b
    rw [ih, hlen]
    rfl

theorem tick_events (cfg : Config) (r : ButtonReadings) (bt : ButtonTask) :
    emitted_events (power_management_button_handle_iteration cfg r bt).2
      = emitted_events (power_management_button_handle_state_body cfg r bt).2 := by
  simp [power_management_button_handle_iteration, emitted_events_append, emitted_events]

theorem lows_released (cfg : Config) (n : Nat) :
    ∀ (bt : ButtonTask) (t : Nat),
      bt.sup._button_state = POWER_MANAGEMENT_BUTTON_STATE_RELEASED →
      (button_run cfg bt (samples_from t (List.replicate n false))).1.sup._button_state
        = POWER_MANAGEMENT_BUTTON_STATE_RELEASED ∧
      ((button_run cfg bt (samples_from t (List.replicate n false))).1._button_state_old = true →
        n = 0 ∧ bt._button_state_old = true) ∧
      emitted_events (button_run cfg bt (samples_from t (List.replicate n false))).2 = [] := by
  induction n with
  | zero => intro bt t h; simp [samples_from, button_run, emitted_events, h]
  | succ n ih =>
    intro bt t h
    have hold : (button_RELEASED_edge (sample false t) bt)._button_state_old = false := by
      unfold button_RELEASED_edge sample
      by_cases ho : bt._button_state_old = true <;> simp [ho]
    have hst : (button_RELEASED_edge (sample false t) bt).sup._button_state
        = POWER_MANAGEMENT_BUTTON_STATE_RELEASED := by
      unfold button_RELEASED_edge; split <;> exact h
    have htick : power_management_button_handle_state_body cfg (sample false t) bt
        = (button_RELEASED_edge (sample false t) bt,
           [Effect.read _on_button_state false]) := by
      unfold power_management_button_handle_state_body
      rw [h]
      simp only []
      unfold button_RELEASED
      rw [if_neg (by rw [hold]; simp)]
      rfl
    obtain ⟨a1, a2, a3⟩ := ih (button_RELEASED_edge (sample false t) bt) (t + 1) hst
    simp only [List.replicate_succ, samples_from, button_run,
      power_management_button_handle_iteration, htick, emitted_events_append]
    refine ⟨a1, ?_, ?_⟩
    · intro hx
      have := (a2 hx).2
      rw [hold] at this
      exact absurd this (by simp)
    · simp [emitted_events, a3]

theorem tick_released_high (cfg : Config) (bt : ButtonTask) (t c : Nat)
    (hst : bt.sup._button_state = POWER_MANAGEMENT_BUTTON_STATE_RELEASED)
    (hold : bt._button_state_old = true) (hch : bt._button_state_change_millis = c)
    (hc : c ≤ t) (ht : t < UINT64_RANGE) :
    (power_management_button_handle_iteration cfg (sample true t) bt).1.sup._button_state
      = (if t - c > cfg.CONFIG_POWER_MANAGEMENT_BUTTON_DEBOUNCE_TIME_MS
          then POWER_MANAGEMENT_BUTTON_STATE_PRESSED
          else POWER_MANAGEMENT_BUTTON_STATE_RELEASED) ∧
    (power_management_button_handle_iteration cfg (sample true t) bt).1._button_state_old = true ∧
    (power_management_button_handle_iteration cfg (sample true t) bt).1._button_state_change_millis
      = c ∧
    emitted_events (power_management_button_handle_iteration cfg (sample true t) bt).2
      = (if t - c > cfg.CONFIG_POWER_MANAGEMENT_BUTTON_DEBOUNCE_TIME_MS
          then [POWER_MANAGEMENT_EVENT_BUTTON_PRESSED] else []) := by
  have hedge : button_RELEASED_edge (sample true t) bt
      = { bt with _button_state_current := true } := by
    simp [button_RELEASED_edge, hold, sample]
  have hsub : u64_sub t c = t - c := u64_sub_of_le t c hc ht
  rw [tick_events]
  unfold power_management_button_handle_iteration power_management_button_handle_state_body
  rw [hst]
  simp only []
  unfold button_RELEASED
  rw [hedge]
  simp only [hold, hch, true_and]
  have hcheck : (sample true t).millis_check = t := rfl
  rw [hcheck, hsub]
  split
  · simp [set_button_state, emitted_events, hold, hch]
  · simp [emitted_events, hold, hch, hst]

theorem tick_pressed_high (cfg : Config) (bt : ButtonTask) (t c : Nat)
    (hst : bt.sup._button_state = POWER_MANAGEMENT_BUTTON_STATE_PRESSED)
    (hch : bt._button_state_change_millis = c)
    (hc : c ≤ t) (ht : t < UINT64_RANGE) :
    (power_management_button_handle_iteration cfg (sample true t) bt).1.sup._button_state
      = (if t - c > cfg.CONFIG_POWER_MANAGEMENT_BUTTON_LONG_PRESS_TIME_MS
          then POWER_MANAGEMENT_BUTTON_STATE_LONG_PRESSED
          else POWER_MANAGEMENT_BUTTON_STATE_PRESSED) ∧
    (power_management_button_handle_iteration cfg (sample true t) bt).1._button_state_old
      = bt._button_state_old ∧
    (power_management_button_handle_iteration cfg (sample true t) bt).1._button_state_change_millis
      = c ∧
    emitted_events (power_management_button_handle_iteration cfg (sample true t) bt).2
      = (if t - c > cfg.CONFIG_POWER_MANAGEMENT_BUTTON_LONG_PRESS_TIME_MS
          then [POWER_MANAGEMENT_EVENT_BUTTON_LONG_PRESSED] else []) := by
  have hsub : u64_sub t c = t - c := u64_sub_of_le t c hc ht
  rw [tick_events]
  unfold power_management_button_handle_iteration power_management_button_handle_state_body
  rw [hst]
  simp only []
  unfold button_PRESSED
  have hb : (sample true t).button = true := rfl
  have hcheck : (sample true t).millis_check = t := rfl
  rw [hb, hcheck, hch, hsub]
  simp only [Bool.true_eq_false, if_false]
  split
  · simp [set_button_state, emitted_events, hch]
  · simp [set_last_activity, emitted_events, hch, hst]

theorem tick_long_high (cfg : Config) (bt : ButtonTask) (t c : Nat)
    (hst : bt.sup._button_state = POWER_MANAGEMENT_BUTTON_STATE_LONG_PRESSED)
    (hch : bt._button_state_change_millis = c)
    (hc : c ≤ t) (ht : t < UINT64_RANGE) :
    (power_management_button_handle_iteration cfg (sample true t) bt).1.sup._button_state
      = (if t - c > cfg.CONFIG_POWER_MANAGEMENT_BUTTON_VERY_LONG_PRESS_TIME_MS
          then POWER_MANAGEMENT_BUTTON_STATE_VERY_LONG_PRESSED
          else POWER_MANAGEMENT_BUTTON_STATE_LONG_PRESSED) ∧
    (power_management_button_handle_iteration cfg (sample true t) bt).1._button_state_old
      = bt._button_state_old ∧
    (power_management_button_handle_iteration cfg (sample true t) bt).1._button_state_change_millis
      = c ∧
    emitted_events (power_management_button_handle_iteration cfg (sample true t) bt).2
      = (if t - c > cfg.CONFIG_POWER_MANAGEMENT_BUTTON_VERY_LONG_PRESS_TIME_MS
          then [POWER_MANAGEMENT_EVENT_BUTTON_VERY_LONG_PRESSED] else []) := by
  have hsub : u64_sub t c = t - c := u64_sub_of_le t c hc ht
  rw [tick_events]
  unfold power_management_button_handle_iteration power_management_button_handle_state_body
  rw [hst]
  simp only []
  unfold button_LONG_PRESSED
  have hb : (sample true t).button = true := rfl
  have hcheck : (sample true t).millis_check = t := rfl
  rw [hb, hcheck, hch, hsub]
  simp only [Bool.true_eq_false, if_false]
  split
  · simp [set_button_state, emitted_events, hch]
  · simp [set_last_activity, emitted_events, hch, hst]

theorem tick_very_long_high (cfg : Config) (bt : ButtonTask) (t : Nat)
    (hst : bt.sup._button_state = POWER_MANAGEMENT_BUTTON_STATE_VERY_LONG_PRESSED) :
    (power_management_button_handle_iteration cfg (sample true t) bt).1.sup._button_state
      = POWER_MANAGEMENT_BUTTON_STATE_VERY_LONG_PRESSED ∧
    (power_management_button_handle_iteration cfg (sample true t) bt).1._button_state_old
      = bt._button_state_old ∧
    (power_management_button_handle_iteration cfg (sample true t) bt).1._button_state_change_millis
      = bt._button_state_change_millis ∧
    emitted_events (power_management_button_handle_iteration cfg (sample true t) bt).2 = [] := by
  rw [tick_events]
  unfold power_management_button_handle_iteration power_management_button_handle_state_body
  rw [hst]
  simp only []
  unfold button_VERY_LONG_PRESSED
  have hb : (sample true t).button = true := rfl
  rw [hb]
  simp [set_last_activity, emitted_events, hst]

theorem tick_low (cfg : Config) (bt : ButtonTask) (t : Nat)
    (hst : bt.sup._button_state ≠ POWER_MANAGEMENT_BUTTON_STATE_RELEASED) :
    (power_management_button_handle_iteration cfg (sample false t) bt).1.sup._button_state
      = POWER_MANAGEMENT_BUTTON_STATE_RELEASED ∧
    emitted_events (power_management_button_handle_iteration cfg (sample false t) bt).2
      = release_events bt.sup._button_state := by
  rw [tick_events]
  unfold power_management_button_handle_iteration power_management_button_handle_state_body
  have hb : (sample false t).button = false := rfl
  cases h : bt.sup._button_state
  · exact absurd h hst
  · simp [button_PRESSED, hb, set_button_state, emitted_events, release_events]
  · simp [button_LONG_PRESSED, hb, set_button_state, emitted_events, release_events]
  · simp [button_VERY_LONG_PRESSED, hb, set_button_state, emitted_events, release_events]

theorem tick_edge_high (cfg : Config) (bt : ButtonTask) (t : Nat)
    (hst : bt.sup._button_state = POWER_MANAGEMENT_BUTTON_STATE_RELEASED)
    (hold : bt._button_state_old = false) (ht : t < UINT64_RANGE) :
    (power_management_button_handle_iteration cfg (sample true t) bt).1.sup._button_state
      = POWER_MANAGEMENT_BUTTON_STATE_RELEASED ∧
    (power_management_button_handle_iteration cfg (sample true t) bt).1._button_state_old = true ∧
    (power_management_button_handle_iteration cfg (sample true t) bt).1._button_state_change_millis
      = t ∧
    emitted_events (power_management_button_handle_iteration cfg (sample true t) bt).2 = [] := by
  have hedge : button_RELEASED_edge (sample true t) bt
      = { bt with _button_state_current := true, _button_state_old := true,
                  _button_state_change_millis := t } := by
    simp [button_RELEASED_edge, hold, sample]
  have hsub : u64_sub t t = 0 := by
    rw [u64_sub_of_le t t (le_refl _) ht]; omega
  rw [tick_events]
  unfold power_management_button_handle_iteration power_management_button_handle_state_body
  rw [hst]
  simp only []
  unfold button_RELEASED
  rw [hedge]
  have hcheck : (sample true t).millis_check = t := rfl
  simp only [hcheck, hsub, true_and]
  rw [if_neg (by omega)]
  simp [emitted_events, hst]

/-- The button read high on `e + 1` consecutive ticks, one per millisecond,
from a first high read in `RELEASED`: the state reached and the events
emitted. -/
theorem highs_classified (cfg : Config)
    (hDL : cfg.CONFIG_POWER_MANAGEMENT_BUTTON_DEBOUNCE_TIME_MS
      < cfg.CONFIG_POWER_MANAGEMENT_BUTTON_LONG_PRESS_TIME_MS)
    (hLV : cfg.CONFIG_POWER_MANAGEMENT_BUTTON_LONG_PRESS_TIME_MS
      < cfg.CONFIG_POWER_MANAGEMENT_BUTTON_VERY_LONG_PRESS_TIME_MS)
    (bt : ButtonTask) (t1 : Nat)
    (hst : bt.sup._button_state = POWER_MANAGEMENT_BUTTON_STATE_RELEASED)
    (hold : bt._button_state_old = false) (e : Nat) :
    t1 + e < UINT64_RANGE →
    (button_run cfg bt (samples_from t1 (List.replicate (e + 1) true))).1.sup._button_state
      = press_class cfg e ∧
    (button_run cfg bt (samples_from t1 (List.replicate (e + 1) true))).1._button_state_old
      = true ∧
    (button_run cfg bt
      (samples_from t1 (List.replicate (e + 1) true))).1._button_state_change_millis = t1 ∧
    emitted_events (button_run cfg bt (samples_from t1 (List.replicate (e + 1) true))).2
      = press_events cfg e := by
  induction e with
  | zero =>
    intro hb
    obtain ⟨a1, a2, a3, a4⟩ := tick_edge_high cfg bt t1 hst hold (by omega)
    simp only [List.replicate, samples_from, button_run, List.append_nil]
    refine ⟨?_, a2, a3, ?_⟩
    · rw [a1]; simp [press_class]
    · rw [a4]; simp [press_events]
  | succ e ih =>
    intro hb
    obtain ⟨i1, i2, i3, i4⟩ := ih (by omega)
    rw [List.replicate_succ', samples_from_append, button_run_append, List.length_replicate]
    generalize button_run cfg bt (samples_from t1 (List.replicate (e + 1) true)) = X
      at i1 i2 i3 i4 ⊢
    simp only [samples_from, button_run, List.append_nil, emitted_events_append]
    rw [i4]
    generalize X.1 = x at *
    have hsub : t1 + (e + 1) - t1 = e + 1 := by omega
    by_cases h1 : e ≤ cfg.CONFIG_POWER_MANAGEMENT_BUTTON_DEBOUNCE_TIME_MS
    · have hx : x.sup._button_state = POWER_MANAGEMENT_BUTTON_STATE_RELEASED := by
        rw [i1]; simp [press_class, h1]
      obtain ⟨a1, a2, a3, a4⟩ := tick_released_high cfg x (t1 + (e + 1)) t1 hx i2 i3
        (by omega) (by omega)
      rw [hsub] at a1 a4
      refine ⟨?_, a2, a3, ?_⟩
      · rw [a1]; unfold press_class; split_ifs <;> first | rfl | omega
      · rw [a4]; unfold press_events; split_ifs <;> first | rfl | omega
    · by_cases h2 : e ≤ cfg.CONFIG_POWER_MANAGEMENT_BUTTON_LONG_PRESS_TIME_MS
      · have hx : x.sup._button_state = POWER_MANAGEMENT_BUTTON_STATE_PRESSED := by
          rw [i1]; simp [press_class, h1, h2]
        obtain ⟨a1, a2, a3, a4⟩ := tick_pressed_high cfg x (t1 + (e + 1)) t1 hx i3
          (by omega) (by omega)
        rw [hsub] at a1 a4
        refine ⟨?_, by rw [a2]; exact i2, a3, ?_⟩
        · rw [a1]; unfold press_class; split_ifs <;> first | rfl | omega
        · rw [a4]; unfold press_events; split_ifs <;> first | rfl | omega
      · by_cases h3 : e ≤ cfg.CONFIG_POWER_MANAGEMENT_BUTTON_VERY_LONG_PRESS_TIME_MS
        · have hx : x.sup._button_state = POWER_MANAGEMENT_BUTTON_STATE_LONG_PRESSED := by
            rw [i1]; simp [press_class, h1, h2, h3]
          obtain ⟨a1, a2, a3, a4⟩ := tick_long_high cfg x (t1 + (e + 1)) t1 hx i3
            (by omega) (by omega)
          rw [hsub] at a1 a4
          refine ⟨?_, by rw [a2]; exact i2, a3, ?_⟩
          · rw [a1]; unfold press_class; split_ifs <;> first | rfl | omega
          · rw [a4]; unfold press_events; split_ifs <;> first | rfl | omega
        · have hx : x.sup._button_state = POWER_MANAGEMENT_BUTTON_STATE_VERY_LONG_PRESSED := by
            rw [i1]; simp [press_class, h1, h2, h3]
          obtain ⟨a1, a2, a3, a4⟩ := tick_very_long_high cfg x (t1 + (e + 1)) hx
          refine ⟨?_, by rw [a2]; exact i2, by rw [a3]; exact i3, ?_⟩
          · rw [a1]; unfold press_class; split_ifs <;> first | rfl | omega
          · rw [a4]; unfold press_events; split_ifs <;> first | omega | simp

/-- One press from the start of the button task, sampled once per
millisecond: `lead` low reads, `e + 1` high reads, then low reads. The events
are those of the press, classified by the time `e` between the first and the
last high read, followed by those of the release. -/
theorem press_classified (cfg : Config)
    (hDL : cfg.CONFIG_POWER_MANAGEMENT_BUTTON_DEBOUNCE_TIME_MS
      < cfg.CONFIG_POWER_MANAGEMENT_BUTTON_LONG_PRESS_TIME_MS)
    (hLV : cfg.CONFIG_POWER_MANAGEMENT_BUTTON_LONG_PRESS_TIME_MS
      < cfg.CONFIG_POWER_MANAGEMENT_BUTTON_VERY_LONG_PRESS_TIME_MS)
    (sup : Supervisor) (t0 lead e tail : Nat)
    (hs : sup._button_state = POWER_MANAGEMENT_BUTTON_STATE_RELEASED)
    (htail : 0 < tail) (hb : t0 + lead + e < UINT64_RANGE) :
    emitted_events (button_run cfg (power_management_button_handle_start sup)
        (samples_from t0 (press_levels lead (e + 1) tail))).2
      = press_events cfg e ++ release_events (press_class cfg e) ∧
    (button_run cfg (power_management_button_handle_start sup)
        (samples_from t0 (press_levels lead (e + 1) tail))).1.sup._button_state
      = POWER_MANAGEMENT_BUTTON_STATE_RELEASED := by
  unfold press_levels
  rw [samples_from_append, button_run_append, samples_from_append, button_run_append]
  simp only [List.length_replicate, emitted_events_append]
  -- the leading low reads
  obtain ⟨l1, l2, l3⟩ := lows_released cfg lead (power_management_button_handle_start sup) t0 hs
  have lold : (button_run cfg (power_management_button_handle_start sup)
      (samples_from t0 (List.replicate lead false))).1._button_state_old = false := by
    cases hx : (button_run cfg (power_management_button_handle_start sup)
      (samples_from t0 (List.replicate lead false))).1._button_state_old
    · rfl
    · exact absurd (l2 hx).2 (by simp [power_management_button_handle_start])
  rw [l3]
  generalize (button_run cfg (power_management_button_handle_start sup)
      (samples_from t0 (List.replicate lead false))).1 = x1 at l1 lold ⊢
  -- the high reads
  obtain ⟨h1, _, _, h4⟩ := highs_classified cfg hDL hLV x1 (t0 + lead) l1 lold e hb
  rw [h4]
  generalize (button_run cfg x1 (samples_from (t0 + lead) (List.replicate (e + 1) true))).1 = x2
    at h1 ⊢
  -- the trailing low reads
  obtain ⟨k, hk⟩ : ∃ k, tail = k + 1 := ⟨tail - 1, by omega⟩
  subst hk
  by_cases hrel : x2.sup._button_state = POWER_MANAGEMENT_BUTTON_STATE_RELEASED
  · obtain ⟨r1, _, r3⟩ := lows_released cfg (k + 1) x2 (t0 + lead + (e + 1)) hrel
    rw [r3, r1, ← h1, hrel]
    simp [release_events]
  · obtain ⟨r1, r2⟩ := tick_low cfg x2 (t0 + lead + (e + 1)) hrel
    obtain ⟨q1, _, q3⟩ := lows_released cfg k
      (power_management_button_handle_iteration cfg (sample false (t0 + lead + (e + 1))) x2).1
      (t0 + lead + (e + 1) + 1) r1
    simp only [List.replicate_succ, samples_from, button_run, emitted_events_append]
    rw [r2, q3, q1, h1]
    simp

/-! ## C21 -/

/-- C21: on a tick that reads the button low, from `PRESSED` the state becomes
`RELEASED` and exactly `BUTTON_RELEASED` then `BUTTON_CLICKED` are emitted;
from `LONG_PRESSED` and from `VERY_LONG_PRESSED` the state becomes `RELEASED`
and exactly `BUTTON_RELEASED` is emitted; the clock plays no part. -/
theorem C21_release_tick (cfg : Config) (r : ButtonReadings) (bt : ButtonTask)
    (hb : r.button = false) :
    (bt.sup._button_state = POWER_MANAGEMENT_BUTTON_STATE_PRESSED →
      power_management_button_handle_state_body cfg r bt
        = (set_button_state bt POWER_MANAGEMENT_BUTTON_STATE_RELEASED,
           [Effect.read _on_button_state false,
            Effect.emit POWER_MANAGEMENT_EVENT_BUTTON_RELEASED,
            Effect.emit POWER_MANAGEMENT_EVENT_BUTTON_CLICKED])) ∧
    (bt.sup._button_state = POWER_MANAGEMENT_BUTTON_STATE_LONG_PRESSED →
      power_management_button_handle_state_body cfg r bt
        = (set_button_state bt POWER_MANAGEMENT_BUTTON_STATE_RELEASED,
           [Effect.read _on_button_state false,
            Effect.emit POWER_MANAGEMENT_EVENT_BUTTON_RELEASED])) ∧
    (bt.sup._button_state = POWER_MANAGEMENT_BUTTON_STATE_VERY_LONG_PRESSED →
      power_management_button_handle_state_body cfg r bt
        = (set_button_state bt POWER_MANAGEMENT_BUTTON_STATE_RELEASED,
           [Effect.read _on_button_state false,
            Effect.emit POWER_MANAGEMENT_EVENT_BUTTON_RELEASED])) := by
  refine ⟨?_, ?_, ?_⟩ <;> intro hst <;>
    simp [power_management_button_handle_state_body, hst, button_PRESSED, button_LONG_PRESSED,
      button_VERY_LONG_PRESSED, hb]

/-- Witness of C21: a low read in `PRESSED`, 100 s after the press. -/
theorem C21_release_tick_witness :
    (sample false 100000).button = false ∧
    power_management_button_handle_state_body example_config (sample false 100000)
        (example_button_in POWER_MANAGEMENT_BUTTON_STATE_PRESSED 0)
      = (set_button_state (example_button_in POWER_MANAGEMENT_BUTTON_STATE_PRESSED 0)
           POWER_MANAGEMENT_BUTTON_STATE_RELEASED,
         [Effect.read _on_button_state false,
          Effect.emit POWER_MANAGEMENT_EVENT_BUTTON_RELEASED,
          Effect.emit POWER_MANAGEMENT_EVENT_BUTTON_CLICKED]) :=
  ⟨rfl, (C21_release_tick example_config (sample false 100000)
    (example_button_in POWER_MANAGEMENT_BUTTON_STATE_PRESSED 0) rfl).1 rfl⟩

/-! ## C22 -/

/-- C22: from the start of the button task, sampled once per millisecond,
with `DEBOUNCE_MS < LONG_PRESS_MS - 1` and `LONG_PRESS_MS < VERY_LONG_PRESS_MS`:
the button read high on the ticks taken 0, 1, ..., `LONG_PRESS_MS - 1` ms after
the first high read (high for `LONG_PRESS_MS - 1` ms) and low afterwards gives
exactly the events `BUTTON_PRESSED`, `BUTTON_RELEASED`, `BUTTON_CLICKED`. -/
theorem C22_short_press (cfg : Config) (sup : Supervisor) (t0 lead tail : Nat)
    (hs : sup._button_state = POWER_MANAGEMENT_BUTTON_STATE_RELEASED)
    (hD : cfg.CONFIG_POWER_MANAGEMENT_BUTTON_DEBOUNCE_TIME_MS
      < cfg.CONFIG_POWER_MANAGEMENT_BUTTON_LONG_PRESS_TIME_MS - 1)
    (hL : cfg.CONFIG_POWER_MANAGEMENT_BUTTON_LONG_PRESS_TIME_MS
      < cfg.CONFIG_POWER_MANAGEMENT_BUTTON_VERY_LONG_PRESS_TIME_MS)
    (htail : 0 < tail)
    (hb : t0 + lead + cfg.CONFIG_POWER_MANAGEMENT_BUTTON_LONG_PRESS_TIME_MS < UINT64_RANGE) :
    emitted_events (button_run cfg (power_management_button_handle_start sup)
        (samples_from t0
          (press_levels lead cfg.CONFIG_POWER_MANAGEMENT_BUTTON_LONG_PRESS_TIME_MS tail))).2
      = [POWER_MANAGEMENT_EVENT_BUTTON_PRESSED, POWER_MANAGEMENT_EVENT_BUTTON_RELEASED,
         POWER_MANAGEMENT_EVENT_BUTTON_CLICKED] := by
  have hL1 : cfg.CONFIG_POWER_MANAGEMENT_BUTTON_LONG_PRESS_TIME_MS - 1 + 1
      = cfg.CONFIG_POWER_MANAGEMENT_BUTTON_LONG_PRESS_TIME_MS := by omega
  have h := (press_classified cfg (by omega) hL sup t0 lead
    (cfg.CONFIG_POWER_MANAGEMENT_BUTTON_LONG_PRESS_TIME_MS - 1) tail hs htail (by omega)).1
  rw [hL1] at h
  rw [h]
  have hc : press_class cfg (cfg.CONFIG_POWER_MANAGEMENT_BUTTON_LONG_PRESS_TIME_MS - 1)
      = POWER_MANAGEMENT_BUTTON_STATE_PRESSED := by
    unfold press_class; split_ifs <;> first | rfl | omega
  have he : press_events cfg (cfg.CONFIG_POWER_MANAGEMENT_BUTTON_LONG_PRESS_TIME_MS - 1)
      = [POWER_MANAGEMENT_EVENT_BUTTON_PRESSED] := by
    unfold press_events; split_ifs <;> first | rfl | omega
  rw [hc, he]
  rfl

/-- Witness of C22: debounce 2 ms, long press 5 ms, very long press 8 ms; two
low reads, five high reads, three low reads, from 10 ms on. -/
theorem C22_short_press_witness :
    (power_management_handle_start 0 0)._button_state = POWER_MANAGEMENT_BUTTON_STATE_RELEASED ∧
    example_config_short.CONFIG_POWER_MANAGEMENT_BUTTON_DEBOUNCE_TIME_MS
      < example_config_short.CONFIG_POWER_MANAGEMENT_BUTTON_LONG_PRESS_TIME_MS - 1 ∧
    example_config_short.CONFIG_POWER_MANAGEMENT_BUTTON_LONG_PRESS_TIME_MS
      < example_config_short.CONFIG_POWER_MANAGEMENT_BUTTON_VERY_LONG_PRESS_TIME_MS ∧
    emitted_events (button_run example_config_short
        (power_management_button_handle_start (power_management_handle_start 0 0))
        (samples_from 10 (press_levels 2
          example_config_short.CONFIG_POWER_MANAGEMENT_BUTTON_LONG_PRESS_TIME_MS 3))).2
      = [POWER_MANAGEMENT_EVENT_BUTTON_PRESSED, POWER_MANAGEMENT_EVENT_BUTTON_RELEASED,
         POWER_MANAGEMENT_EVENT_BUTTON_CLICKED] :=
  ⟨rfl, by decide, by decide,
    C22_short_press example_config_short (power_management_handle_start 0 0) 10 2 3 rfl
      (by decide) (by decide) (by decide) (by decide)⟩

/-! ## C23 -/

/-- C23, as stated, fails: with debounce 2 ms, long press 5 ms and very long
press 8 ms, the button read high on the ticks taken 0, 1, ..., 8 ms after the
first high read (high for exactly 8 ms), and also on one tick less, gives
`BUTTON_PRESSED`, `BUTTON_LONG_PRESSED`, `BUTTON_RELEASED`: the state
`VERY_LONG_PRESSED` is not reached. -/
theorem C23_counterexample :
    example_config_short.CONFIG_POWER_MANAGEMENT_BUTTON_DEBOUNCE_TIME_MS
      < example_config_short.CONFIG_POWER_MANAGEMENT_BUTTON_LONG_PRESS_TIME_MS ∧
    example_config_short.CONFIG_POWER_MANAGEMENT_BUTTON_LONG_PRESS_TIME_MS
      < example_config_short.CONFIG_POWER_MANAGEMENT_BUTTON_VERY_LONG_PRESS_TIME_MS ∧
    emitted_events (button_run example_config_short example_button_start
        (samples_from 10 (press_levels 2
          (example_config_short.CONFIG_POWER_MANAGEMENT_BUTTON_VERY_LONG_PRESS_TIME_MS + 1)
          3))).2
      = [POWER_MANAGEMENT_EVENT_BUTTON_PRESSED, POWER_MANAGEMENT_EVENT_BUTTON_LONG_PRESSED,
         POWER_MANAGEMENT_EVENT_BUTTON_RELEASED] ∧
    emitted_events (button_run example_config_short example_button_start
        (samples_from 10 (press_levels 2
          example_config_short.CONFIG_POWER_MANAGEMENT_BUTTON_VERY_LONG_PRESS_TIME_MS 3))).2
      = [POWER_MANAGEMENT_EVENT_BUTTON_PRESSED, POWER_MANAGEMENT_EVENT_BUTTON_LONG_PRESSED,
         POWER_MANAGEMENT_EVENT_BUTTON_RELEASED] := by
  decide

/-- C23, amended: from the start of the button task, sampled once per
millisecond, with `DEBOUNCE_MS < LONG_PRESS_MS < VERY_LONG_PRESS_MS`: the
button read high on every tick up to a tick `e > VERY_LONG_PRESS_MS` ms after
the first high read and low afterwards gives exactly `BUTTON_PRESSED`,
`BUTTON_LONG_PRESSED`, `BUTTON_VERY_LONG_PRESSED`, `BUTTON_RELEASED`; read
high up to exactly `VERY_LONG_PRESS_MS` ms after the first high read, it gives
`BUTTON_PRESSED`, `BUTTON_LONG_PRESSED`, `BUTTON_RELEASED`. -/
theorem C23_very_long_press (cfg : Config) (sup : Supervisor) (t0 lead e tail : Nat)
    (hs : sup._button_state = POWER_MANAGEMENT_BUTTON_STATE_RELEASED)
    (hD : cfg.CONFIG_POWER_MANAGEMENT_BUTTON_DEBOUNCE_TIME_MS
      < cfg.CONFIG_POWER_MANAGEMENT_BUTTON_LONG_PRESS_TIME_MS)
    (hL : cfg.CONFIG_POWER_MANAGEMENT_BUTTON_LONG_PRESS_TIME_MS
      < cfg.CONFIG_POWER_MANAGEMENT_BUTTON_VERY_LONG_PRESS_TIME_MS)
    (htail : 0 < tail) (hb : t0 + lead + e < UINT64_RANGE) :
    (cfg.CONFIG_POWER_MANAGEMENT_BUTTON_VERY_LONG_PRESS_TIME_MS < e →
      emitted_events (button_run cfg (power_management_button_handle_start sup)
          (samples_from t0 (press_levels lead (e + 1) tail))).2
        = [POWER_MANAGEMENT_EVENT_BUTTON_PRESSED, POWER_MANAGEMENT_EVENT_BUTTON_LONG_PRESSED,
           POWER_MANAGEMENT_EVENT_BUTTON_VERY_LONG_PRESSED,
           POWER_MANAGEMENT_EVENT_BUTTON_RELEASED]) ∧
    (e = cfg.CONFIG_POWER_MANAGEMENT_BUTTON_VERY_LONG_PRESS_TIME_MS →
      emitted_events (button_run cfg (power_management_button_handle_start sup)
          (samples_from t0 (press_levels lead (e + 1) tail))).2
        = [POWER_MANAGEMENT_EVENT_BUTTON_PRESSED, POWER_MANAGEMENT_EVENT_BUTTON_LONG_PRESSED,
           POWER_MANAGEMENT_EVENT_BUTTON_RELEASED]) := by
  have h := (press_classified cfg hD hL sup t0 lead e tail hs htail hb).1
  rw [h]
  constructor
  · intro he
    have hc : press_class cfg e = POWER_MANAGEMENT_BUTTON_STATE_VERY_LONG_PRESSED := by
      unfold press_class; split_ifs <;> first | rfl | omega
    have hev : press_events cfg e
        = [POWER_MANAGEMENT_EVENT_BUTTON_PRESSED, POWER_MANAGEMENT_EVENT_BUTTON_LONG_PRESSED,
           POWER_MANAGEMENT_EVENT_BUTTON_VERY_LONG_PRESSED] := by
      unfold press_events; split_ifs <;> first | rfl | omega
    rw [hc, hev]; rfl
  · intro he
    have hc : press_class cfg e = POWER_MANAGEMENT_BUTTON_STATE_LONG_PRESSED := by
      unfold press_class; split_ifs <;> first | rfl | omega
    have hev : press_events cfg e
        = [POWER_MANAGEMENT_EVENT_BUTTON_PRESSED, POWER_MANAGEMENT_EVENT_BUTTON_LONG_PRESSED] := by
      unfold press_events; split_ifs <;> first | rfl | omega
    rw [hc, hev]; rfl

/-- Witness of C23 amended: debounce 2 ms, long press 5 ms, very long press
8 ms; the button read high up to 9 ms after the first high read. -/
theorem C23_very_long_press_witness :
    (power_management_handle_start 0 0)._button_state = POWER_MANAGEMENT_BUTTON_STATE_RELEASED ∧
    example_config_short.CONFIG_POWER_MANAGEMENT_BUTTON_DEBOUNCE_TIME_MS
      < example_config_short.CONFIG_POWER_MANAGEMENT_BUTTON_LONG_PRESS_TIME_MS ∧
    example_config_short.CONFIG_POWER_MANAGEMENT_BUTTON_LONG_PRESS_TIME_MS
      < example_config_short.CONFIG_POWER_MANAGEMENT_BUTTON_VERY_LONG_PRESS_TIME_MS ∧
    emitted_events (button_run example_config_short
        (power_management_button_handle_start (power_management_handle_start 0 0))
        (samples_from 10 (press_levels 2 (9 + 1) 3))).2
      = [POWER_MANAGEMENT_EVENT_BUTTON_PRESSED, POWER_MANAGEMENT_EVENT_BUTTON_LONG_PRESSED,
         POWER_MANAGEMENT_EVENT_BUTTON_VERY_LONG_PRESSED,
         POWER_MANAGEMENT_EVENT_BUTTON_RELEASED] :=
  ⟨rfl, by decide, by decide,
    (C23_very_long_press example_config_short (power_management_handle_start 0 0) 10 2 9 3 rfl
      (by decide) (by decide) (by decide) (by decide)).1 (by decide)⟩

/-! ## C24 -/

/-- C24, on the failing input: with a debounce time of 2 ms, the button read
high at 0, 1, 2, 3 ms, low at 4 ms and high at 5 ms. The tick at 4 ms releases
the button, and the tick at 5 ms moves the FSM from `RELEASED` to `PRESSED`
and emits `BUTTON_PRESSED`, although the button was read low 1 ms before:
the release ticks leave `_button_state_old` true and the time stamp of the
first press in place. -/
theorem C24_bounce_after_release :
    emitted_events (button_run example_config_short example_button_start
        example_bounce_samples).2
      = [POWER_MANAGEMENT_EVENT_BUTTON_PRESSED, POWER_MANAGEMENT_EVENT_BUTTON_RELEASED,
         POWER_MANAGEMENT_EVENT_BUTTON_CLICKED, POWER_MANAGEMENT_EVENT_BUTTON_PRESSED] ∧
    (button_run example_config_short example_button_start
        (samples_from 0 [true, true, true, true, false])).1.sup._button_state
      = POWER_MANAGEMENT_BUTTON_STATE_RELEASED ∧
    (button_run example_config_short example_button_start
        example_bounce_samples).1.sup._button_state
      = POWER_MANAGEMENT_BUTTON_STATE_PRESSED ∧
    ¬ presses_debounced example_config_short example_button_start example_bounce_samples := by
  refine ⟨by decide, by decide, by decide, ?_⟩
  intro h
  have := h (samples_from 0 [true, true, true, true, false]) (sample true 5) [] rfl
    (by decide) (by decide) (sample false 4) (by simp [samples_from]) (by decide)
  exact absurd this (by decide)

/-! ## C29 -/

/-- C29, as stated, fails: with a long-press time of 5 ms, the tick at 6 ms in
`PRESSED` with the button read high moves the FSM to `LONG_PRESSED` and leaves
`last_activity_ms` at its old value 0. -/
theorem C29_counterexample :
    (example_button_in POWER_MANAGEMENT_BUTTON_STATE_PRESSED 0).sup._button_state
      = POWER_MANAGEMENT_BUTTON_STATE_PRESSED ∧
    (sample true 6).button = true ∧
    (power_management_button_handle_iteration example_config_short (sample true 6)
      (example_button_in POWER_MANAGEMENT_BUTTON_STATE_PRESSED 0)).1.sup._button_state
      = POWER_MANAGEMENT_BUTTON_STATE_LONG_PRESSED ∧
    (power_management_button_handle_iteration example_config_short (sample true 6)
      (example_button_in POWER_MANAGEMENT_BUTTON_STATE_PRESSED 0)).1.sup._last_activity_millis
      ≠ (sample true 6).millis_activity := by
  decide

/-- C29, amended: on a tick that starts in a pressed sub-state with the button
read high, `last_activity_ms` is set to the current clock value when the tick
leaves the sub-state unchanged, and is left unchanged when the tick moves the
FSM from `PRESSED` to `LONG_PRESSED` or from `LONG_PRESSED` to
`VERY_LONG_PRESSED`. -/
theorem C29_pressed_refresh (cfg : Config) (r : ButtonReadings) (bt : ButtonTask)
    (hb : r.button = true)
    (hst : bt.sup._button_state ≠ POWER_MANAGEMENT_BUTTON_STATE_RELEASED) :
    ((power_management_button_handle_iteration cfg r bt).1.sup._button_state
        = bt.sup._button_state →
      (power_management_button_handle_iteration cfg r bt).1.sup._last_activity_millis
        = r.millis_activity) ∧
    ((power_management_button_handle_iteration cfg r bt).1.sup._button_state
        ≠ bt.sup._button_state →
      (power_management_button_handle_iteration cfg r bt).1.sup._last_activity_millis
        = bt.sup._last_activity_millis) := by
  unfold power_management_button_handle_iteration power_management_button_handle_state_body
  cases h : bt.sup._button_state
  · exact absurd h hst
  · simp only [button_PRESSED, hb, Bool.true_eq_false, if_false]
    split <;> simp [set_button_state, set_last_activity, h]
  · simp only [button_LONG_PRESSED, hb, Bool.true_eq_false, if_false]
    split <;> simp [set_button_state, set_last_activity, h]
  · simp [button_VERY_LONG_PRESSED, hb, set_last_activity, h]

/-- Witness of C29 amended: a tick at 3 ms in `PRESSED`, the press recorded at
0 ms, long-press time 5 ms. -/
theorem C29_pressed_refresh_witness :
    (sample true 3).button = true ∧
    (example_button_in POWER_MANAGEMENT_BUTTON_STATE_PRESSED 0).sup._button_state
      ≠ POWER_MANAGEMENT_BUTTON_STATE_RELEASED ∧
    (power_management_button_handle_iteration example_config_short (sample true 3)
      (example_button_in POWER_MANAGEMENT_BUTTON_STATE_PRESSED 0)).1.sup._last_activity_millis
      = 3 :=
  ⟨rfl, by decide,
    (C29_pressed_refresh example_config_short (sample true 3)
      (example_button_in POWER_MANAGEMENT_BUTTON_STATE_PRESSED 0) rfl (by decide)).1
      (by decide)⟩

/-! ## C30 -/

theorem button_run_cycles (cfg : Config) (rs : List ButtonReadings) :
    ∀ bt : ButtonTask,
      button_cycles bt.sup._button_state (emitted_events (button_run cfg bt rs).2) = true := by
  induction rs with
  | nil => intro bt; simp [button_run, emitted_events, button_cycles]
  | cons r rest ih =>
    intro bt
    have h := ih (power_management_button_handle_iteration cfg r bt).1
    simp only [button_run, emitted_events_append]
    revert h
    generalize emitted_events (button_run cfg (power_management_button_handle_iteration cfg r bt).1 rest).2 = evs
    simp only [power_management_button_handle_iteration, power_management_button_handle_state_body]
    cases hst : bt.sup._button_state <;> simp only
    · unfold button_RELEASED
      split
      · simp [emitted_events, button_cycles, set_button_state]
      · have : (button_RELEASED_edge r bt).sup._button_state = bt.sup._button_state := by
          unfold button_RELEASED_edge; split <;> rfl
        simp [emitted_events, this, hst]
    · unfold button_PRESSED
      split
      · simp [emitted_events, button_cycles, set_button_state]
      · split
        · simp [emitted_events, button_cycles, set_button_state]
        · simp [emitted_events, set_last_activity, hst]
    · unfold button_LONG_PRESSED
      split
      · simp [emitted_events, button_cycles, set_button_state]
      · split
        · simp [emitted_events, button_cycles, set_button_state]
        · simp [emitted_events, set_last_activity, hst]
    · unfold button_VERY_LONG_PRESSED
      split
      · simp [emitted_events, button_cycles, set_button_state]
      · simp [emitted_events, set_last_activity, hst]

theorem cycles_alternating (st : power_management_button_state_t)
    (evs : List power_management_event_t) (h : button_cycles st evs = true) :
    alternating (decide (st ≠ POWER_MANAGEMENT_BUTTON_STATE_RELEASED))
      (presses_and_releases evs) = true := by
  induction st, evs using button_cycles.induct with
  | case1 st => simp [presses_and_releases, alternating]
  | case2 rest ih =>
    simp only [button_cycles] at h
    have := ih h
    simpa [presses_and_releases, alternating] using this
  | case3 rest ih =>
    simp only [button_cycles] at h
    have := ih h
    simpa [presses_and_releases, alternating] using this
  | case4 rest ih =>
    simp only [button_cycles] at h
    have := ih h
    simpa [presses_and_releases, alternating] using this
  | case5 rest ih =>
    simp only [button_cycles] at h
    have := ih h
    simpa [presses_and_releases, alternating] using this
  | case6 rest ih =>
    simp only [button_cycles] at h
    have := ih h
    simpa [presses_and_releases, alternating] using this
  | case7 rest ih =>
    simp only [button_cycles] at h
    have := ih h
    simpa [presses_and_releases, alternating] using this
  | case8 st evs h1 h2 h3 h4 h5 h6 h7 =>
    rw [button_cycles] at h
    · exact absurd h (by simp)
    all_goals assumption

/-- C30: the events emitted in any run of the button task from its start, for
any readings of the button and of the clock, are a sequence of press cycles
`PRESSED RELEASED CLICKED`, `PRESSED LONG_PRESSED RELEASED` or
`PRESSED LONG_PRESSED VERY_LONG_PRESSED RELEASED`, the last one possibly cut
short; in particular `BUTTON_PRESSED` and `BUTTON_RELEASED` alternate,
starting with `BUTTON_PRESSED`. -/
theorem C30_button_event_order (cfg : Config) (sup : Supervisor) (rs : List ButtonReadings)
    (hs : sup._button_state = POWER_MANAGEMENT_BUTTON_STATE_RELEASED) :
    button_cycles POWER_MANAGEMENT_BUTTON_STATE_RELEASED
      (emitted_events (button_run cfg (power_management_button_handle_start sup) rs).2) = true ∧
    alternating false
      (presses_and_releases
        (emitted_events (button_run cfg (power_management_button_handle_start sup) rs).2))
      = true := by
  have h := button_run_cycles cfg rs (power_management_button_handle_start sup)
  have hs2 : (power_management_button_handle_start sup).sup._button_state
      = POWER_MANAGEMENT_BUTTON_STATE_RELEASED := hs
  rw [hs2] at h
  exact ⟨h, by simpa using cycles_alternating _ _ h⟩

/-- Witness of C30: the run on `example_bounce_samples`. -/
theorem C30_button_event_order_witness :
    (power_management_handle_start 0 0)._button_state = POWER_MANAGEMENT_BUTTON_STATE_RELEASED ∧
    button_cycles POWER_MANAGEMENT_BUTTON_STATE_RELEASED
      (emitted_events (button_run example_config_short
        (power_management_button_handle_start (power_management_handle_start 0 0))
        example_bounce_samples).2) = true :=
  ⟨rfl, (C30_button_event_order example_config_short (power_management_handle_start 0 0)
    example_bounce_samples rfl).1⟩

/-! ## The lifecycle loop and its queue -/

theorem iteration_quiet_empty (cfg : Config) (r : Readings) (s : Supervisor) :
    power_management_handle_iteration cfg r [] { sup := s, queue := [] }
      = ({ sup := (power_management_handle_state_body cfg r s).1, queue := [] },
         (power_management_handle_state_body cfg r s).2
           ++ [Effect.delay_ticks 1, Effect.delay_ticks 1]) := by
  simp [power_management_handle_iteration, env_steps, power_management_handle_drain]

theorem iteration_quiet_cons (cfg : Config) (r : Readings) (s : Supervisor)
    (req : power_management_request_t) (rest : List power_management_request_t) :
    power_management_handle_iteration cfg r [] { sup := s, queue := req :: rest }
      = ({ sup := (power_management_handle_request r.millis_req
                    (power_management_handle_state_body cfg r s).1 req).1
           queue := rest },
         (power_management_handle_state_body cfg r s).2
           ++ (Effect.delay_ticks 1 ::
             ((power_management_handle_request r.millis_req
                (power_management_handle_state_body cfg r s).1 req).2
               ++ [Effect.delay_ticks 1]))) := by
  simp [power_management_handle_iteration, env_steps, power_management_handle_drain]

theorem run_pass_quiet (cfg : Config) (r : Readings) (sys : System) :
    run_pass cfg (quiet_pass r) sys = power_management_handle_iteration cfg r [] sys := by
  simp [run_pass, quiet_pass, env_steps]

theorem run_quiet_in_order (cfg : Config) (rs : List Readings) :
    ∀ (s : Supervisor) (q : List power_management_request_t), rs.length = q.length →
      (run cfg { sup := s, queue := q } (rs.map quiet_pass)).1
        = { sup := handle_in_order cfg s (rs.zip q), queue := [] } := by
  induction rs with
  | nil =>
    intro s q hq
    have : q = [] := List.length_eq_zero.mp hq.symm
    subst this
    rfl
  | cons r rest ih =>
    intro s q hq
    cases q with
    | nil => simp at hq
    | cons req q2 =>
      simp only [List.length_cons, add_left_inj] at hq
      simp only [List.map_cons, run, run_pass_quiet, iteration_quiet_cons, List.zip_cons_cons,
        handle_in_order]
      exact ih _ q2 hq

/-- C25: one iteration of the lifecycle loop on an empty queue is the state
body alone; on a queue `req :: rest` it is the state body followed by the
request switch on `req`, the oldest request, applied to the variables the body
left, and `rest` stays queued; a send puts its request behind the pending
ones; `n` pending requests are handled over `n` iterations in the order in
which they were queued, each after the state body of its iteration; and in
`DEV_IDLE` with action `SHUTDOWN` and the timer expired, where the body alone
chooses `SHUTDOWN_PREPARE`, a pending `REBOOT` request leaves the state
`REBOOT_PREPARE` at the end of the iteration. -/
theorem C25_body_then_one_request (cfg : Config) (r : Readings) (s : Supervisor)
    (req : power_management_request_t) (rest : List power_management_request_t) :
    (power_management_handle_iteration cfg r [] { sup := s, queue := [] }).1
      = { sup := (power_management_handle_state_body cfg r s).1, queue := [] } ∧
    (power_management_handle_iteration cfg r [] { sup := s, queue := req :: rest }).1
      = { sup := (power_management_handle_request r.millis_req
                   (power_management_handle_state_body cfg r s).1 req).1
          queue := rest } ∧
    (∀ (rs : List Readings) (q : List power_management_request_t), rs.length = q.length →
      (run cfg { sup := s, queue := q } (rs.map quiet_pass)).1
        = { sup := handle_in_order cfg s (rs.zip q), queue := [] }) ∧
    (rest.length < POWER_MANAGEMENT_REQUESTS_QUEUE_SIZE →
      power_management_send_request req.request_type req.inactivity_time_ms
        req.idle_timer_expired_action rest = rest ++ [req]) ∧
    (power_management_handle_state_body example_config (readings_quiet 30001)
        example_idle_shutdown).1.pm_state = POWER_MANAGEMENT_STATE_SHUTDOWN_PREPARE ∧
    (power_management_handle_iteration example_config (readings_quiet 30001) []
        { sup := example_idle_shutdown, queue := [request_reboot] }).1.sup.pm_state
      = POWER_MANAGEMENT_STATE_REBOOT_PREPARE := by
  refine ⟨?_, ?_, ?_, ?_, by decide, by decide⟩
  · rw [iteration_quiet_empty]
  · rw [iteration_quiet_cons]
  · intro rs q hq; exact run_quiet_in_order cfg rs s q hq
  · intro hlen; simp [power_management_send_request, hlen]

/-- C25 at a queue of two requests, handled over two iterations in the order
in which they were queued. -/
theorem C25_body_then_one_request_witness :
    (run example_config
        { sup := example_idle_shutdown, queue := [request_active_lock, request_reboot] }
        ([readings_quiet 1, readings_quiet 2].map quiet_pass)).1
      = { sup := handle_in_order example_config example_idle_shutdown
            ([readings_quiet 1, readings_quiet 2].zip [request_active_lock, request_reboot])
          queue := [] } :=
  (C25_body_then_one_request example_config (readings_quiet 1) example_idle_shutdown
    request_reboot []).2.2.1 [readings_quiet 1, readings_quiet 2]
    [request_active_lock, request_reboot] rfl

/-- A state body leaves `pm_state` none of the two sentinel states. -/
theorem body_not_sentinel (cfg : Config) (r : Readings) (s : Supervisor)
    (h : s.pm_state ≠ POWER_MANAGEMENT_STATE_SHUTDOWN ∧ s.pm_state ≠ POWER_MANAGEMENT_STATE_SLEEP) :
    (power_management_handle_state_body cfg r s).1.pm_state ≠ POWER_MANAGEMENT_STATE_SHUTDOWN ∧
    (power_management_handle_state_body cfg r s).1.pm_state ≠ POWER_MANAGEMENT_STATE_SLEEP := by
  unfold power_management_handle_state_body
  split
  · unfold state_INIT; repeat' split
    all_goals simp_all
  · unfold state_OFF_CHARGER; repeat' split
    all_goals simp_all
  · simp [state_SETUP]
  · have hl : (state_DEV_IDLE_lock s).pm_state ≠ POWER_MANAGEMENT_STATE_SHUTDOWN ∧
        (state_DEV_IDLE_lock s).pm_state ≠ POWER_MANAGEMENT_STATE_SLEEP := by
      unfold state_DEV_IDLE_lock; split
      · simp
      · exact h
    have ha : ∀ t : Supervisor,
        (t.pm_state ≠ POWER_MANAGEMENT_STATE_SHUTDOWN ∧
          t.pm_state ≠ POWER_MANAGEMENT_STATE_SLEEP) →
        ((state_DEV_IDLE_action t).pm_state ≠ POWER_MANAGEMENT_STATE_SHUTDOWN ∧
          (state_DEV_IDLE_action t).pm_state ≠ POWER_MANAGEMENT_STATE_SLEEP) := by
      intro t ht; unfold state_DEV_IDLE_action; split
      · simp
      · simp
      · exact ht
    have ht : (state_DEV_IDLE_timer r.millis_body (state_DEV_IDLE_lock s)).1.pm_state
          ≠ POWER_MANAGEMENT_STATE_SHUTDOWN ∧
        (state_DEV_IDLE_timer r.millis_body (state_DEV_IDLE_lock s)).1.pm_state
          ≠ POWER_MANAGEMENT_STATE_SLEEP := by
      unfold state_DEV_IDLE_timer; split
      · split
        · exact ha _ hl
        · exact ha _ hl
      · exact hl
    simp only [state_DEV_IDLE]
    unfold state_DEV_IDLE_button
    split
    · simp
    · exact ht
  · unfold state_DEV_ACTIVE; repeat' split
    all_goals simp_all
  all_goals simp_all [state_SHUTDOWN_PREPARE, state_REBOOT_PREPARE, state_SLEEP_PREPARE]

theorem request_not_sentinel (now : Nat) (s : Supervisor) (req : power_management_request_t)
    (h : s.pm_state ≠ POWER_MANAGEMENT_STATE_SHUTDOWN ∧ s.pm_state ≠ POWER_MANAGEMENT_STATE_SLEEP) :
    (power_management_handle_request now s req).1.pm_state ≠ POWER_MANAGEMENT_STATE_SHUTDOWN ∧
    (power_management_handle_request now s req).1.pm_state ≠ POWER_MANAGEMENT_STATE_SLEEP := by
  unfold power_management_handle_request
  repeat' split
  all_goals simp_all

theorem env_steps_pm_state (as : List EnvAction) :
    ∀ sys : System, (env_steps sys as).1.sup.pm_state = sys.sup.pm_state := by
  induction as with
  | nil => intro sys; rfl
  | cons a rest ih =>
    intro sys
    simp only [env_steps, ih]
    cases a <;> rfl

theorem run_pass_not_sentinel (cfg : Config) (p : Pass) (sys : System)
    (h : sys.sup.pm_state ≠ POWER_MANAGEMENT_STATE_SHUTDOWN ∧
      sys.sup.pm_state ≠ POWER_MANAGEMENT_STATE_SLEEP) :
    (run_pass cfg p sys).1.sup.pm_state ≠ POWER_MANAGEMENT_STATE_SHUTDOWN ∧
    (run_pass cfg p sys).1.sup.pm_state ≠ POWER_MANAGEMENT_STATE_SLEEP := by
  simp only [run_pass, power_management_handle_iteration]
  have h1 : (env_steps sys p.before).1.sup.pm_state ≠ POWER_MANAGEMENT_STATE_SHUTDOWN ∧
      (env_steps sys p.before).1.sup.pm_state ≠ POWER_MANAGEMENT_STATE_SLEEP := by
    rw [env_steps_pm_state]; exact h
  have h2 := body_not_sentinel cfg p.readings _ h1
  generalize (power_management_handle_state_body cfg p.readings
    (env_steps sys p.before).1.sup).1 = s2 at h2 ⊢
  have h3 : (env_steps { (env_steps sys p.before).1 with sup := s2 } p.during).1.sup.pm_state
      ≠ POWER_MANAGEMENT_STATE_SHUTDOWN ∧
      (env_steps { (env_steps sys p.before).1 with sup := s2 } p.during).1.sup.pm_state
      ≠ POWER_MANAGEMENT_STATE_SLEEP := by
    rw [env_steps_pm_state]; exact h2
  generalize (env_steps { (env_steps sys p.before).1 with sup := s2 } p.during).1 = sys3 at h3 ⊢
  unfold power_management_handle_drain
  split
  · exact h3
  · exact request_not_sentinel _ _ _ h3

theorem run_not_sentinel (cfg : Config) (passes : List Pass) :
    ∀ sys : System,
      sys.sup.pm_state ≠ POWER_MANAGEMENT_STATE_SHUTDOWN ∧
        sys.sup.pm_state ≠ POWER_MANAGEMENT_STATE_SLEEP →
      (run cfg sys passes).1.sup.pm_state ≠ POWER_MANAGEMENT_STATE_SHUTDOWN ∧
      (run cfg sys passes).1.sup.pm_state ≠ POWER_MANAGEMENT_STATE_SLEEP := by
  induction passes with
  | nil => intro sys h; exact h
  | cons p rest ih =>
    intro sys h
    simp only [run]
    exact ih _ (run_pass_not_sentinel cfg p sys h)

/-- C26: after any run of the lifecycle task from its start in `INIT`, whatever
the callbacks and the clock return and whatever the other tasks send or store
into the button state, `pm_state` is neither `SHUTDOWN` nor `SLEEP`, at the end
of a pass and also right after the state body of the next pass. -/
theorem C26_sentinels_unreachable (cfg : Config) (passes : List Pass) (millis0 millis1 : Nat)
    (r : Readings) :
    (run cfg (system_start millis0 millis1) passes).1.sup.pm_state
      ≠ POWER_MANAGEMENT_STATE_SHUTDOWN ∧
    (run cfg (system_start millis0 millis1) passes).1.sup.pm_state
      ≠ POWER_MANAGEMENT_STATE_SLEEP ∧
    (power_management_handle_state_body cfg r
      (run cfg (system_start millis0 millis1) passes).1.sup).1.pm_state
      ≠ POWER_MANAGEMENT_STATE_SHUTDOWN ∧
    (power_management_handle_state_body cfg r
      (run cfg (system_start millis0 millis1) passes).1.sup).1.pm_state
      ≠ POWER_MANAGEMENT_STATE_SLEEP := by
  have h := run_not_sentinel cfg passes (system_start millis0 millis1)
    ⟨by simp [system_start, power_management_handle_start],
     by simp [system_start, power_management_handle_start]⟩
  have h2 := body_not_sentinel cfg r _ h
  exact ⟨h.1, h.2, h2.1, h2.2⟩

/-! ## The lock scenario -/

theorem run_append (cfg : Config) (a b : List Pass) :
    ∀ sys : System, run cfg sys (a ++ b)
      = ((run cfg (run cfg sys a).1 b).1, (run cfg sys a).2 ++ (run cfg (run cfg sys a).1 b).2) := by
  induction a with
  | nil => intro sys; simp [run]
  | cons p rest ih => intro sys; simp [run, ih, List.append_assoc]

theorem run_pass_sending (cfg : Config) (req : power_management_request_t) (r : Readings)
    (s : Supervisor) :
    run_pass cfg (pass_sending req r) { sup := s, queue := [] }
      = power_management_handle_iteration cfg r [] { sup := s, queue := [req] } := by
  simp [run_pass, pass_sending, env_steps, env_step, power_management_send_request,
    POWER_MANAGEMENT_REQUESTS_QUEUE_SIZE]

theorem dev_idle_body_not_expired (cfg : Config) (r : Readings) (s : Supervisor)
    (h : s.pm_state = POWER_MANAGEMENT_STATE_DEV_IDLE)
    (hb : s._button_state ≠ POWER_MANAGEMENT_BUTTON_STATE_VERY_LONG_PRESSED)
    (hle : s._last_activity_millis ≤ r.millis_body) (hr : r.millis_body < UINT64_RANGE)
    (hnexp : r.millis_body ≤ s._last_activity_millis + s._idle_timeout_ms_set) :
    power_management_handle_state_body cfg r s
      = ({ s with
            pm_state := if s._active_lock = 0 then POWER_MANAGEMENT_STATE_DEV_IDLE
                        else POWER_MANAGEMENT_STATE_DEV_ACTIVE
            _idle_timer_expired_event_sent := false },
         [Effect.call _on_pmic_loop]) := by
  rw [body_DEV_IDLE cfg r s h]
  have hx : ¬ (u64_sub r.millis_body s._last_activity_millis > s._idle_timeout_ms_set) := by
    rw [u64_sub_of_le _ _ hle hr]; omega
  by_cases hl : s._active_lock = 0 <;>
    simp [state_DEV_IDLE, state_DEV_IDLE_lock, state_DEV_IDLE_timer, state_DEV_IDLE_button,
      hl, hb, hx, h]

theorem dev_active_body (cfg : Config) (r : Readings) (s : Supervisor)
    (h : s.pm_state = POWER_MANAGEMENT_STATE_DEV_ACTIVE) :
    power_management_handle_state_body cfg r s
      = ({ s with
            pm_state := if s._active_lock = 0 then POWER_MANAGEMENT_STATE_DEV_IDLE
                        else POWER_MANAGEMENT_STATE_DEV_ACTIVE },
         [Effect.call _on_pmic_loop]) := by
  rw [body_DEV_ACTIVE cfg r s h]
  by_cases hl : s._active_lock = 0
  · simp [state_DEV_ACTIVE, hl, h]
  · simp only [state_DEV_ACTIVE, hl, if_false, ← h]

theorem run_quiet_active (cfg : Config) (rs : List Readings) (s : Supervisor)
    (h : s.pm_state = POWER_MANAGEMENT_STATE_DEV_ACTIVE) (hl : s._active_lock ≠ 0) :
    (run cfg { sup := s, queue := [] } (rs.map quiet_pass)).1 = { sup := s, queue := [] } ∧
    emitted_events (run cfg { sup := s, queue := [] } (rs.map quiet_pass)).2 = [] := by
  induction rs with
  | nil => exact ⟨rfl, rfl⟩
  | cons r rest ih =>
    have hb : power_management_handle_state_body cfg r s = (s, [Effect.call _on_pmic_loop]) := by
      rw [dev_active_body cfg r s h]
      simp only [hl, if_false]
      rw [← h]
    simp only [List.map_cons, run, run_pass_quiet, iteration_quiet_empty, hb,
      emitted_events_append]
    exact ⟨ih.1, by rw [ih.2]; simp [emitted_events]⟩

theorem run_quiet_idle (cfg : Config) (rs : List Readings) :
    ∀ s : Supervisor, s.pm_state = POWER_MANAGEMENT_STATE_DEV_IDLE → s._active_lock = 0 →
      s._button_state ≠ POWER_MANAGEMENT_BUTTON_STATE_VERY_LONG_PRESSED →
      (∀ r ∈ rs, s._last_activity_millis ≤ r.millis_body ∧
        r.millis_body ≤ s._last_activity_millis + s._idle_timeout_ms_set ∧
        r.millis_body < UINT64_RANGE) →
      (run cfg { sup := s, queue := [] } (rs.map quiet_pass)).1.sup.pm_state
        = POWER_MANAGEMENT_STATE_DEV_IDLE ∧
      emitted_events (run cfg { sup := s, queue := [] } (rs.map quiet_pass)).2 = [] := by
  induction rs with
  | nil => intro s h _ _ _; exact ⟨h, rfl⟩
  | cons r rest ih =>
    intro s h hl hb hr
    obtain ⟨h1, h2, h3⟩ := hr r (List.mem_cons_self _ _)
    have hbody := dev_idle_body_not_expired cfg r s h hb h1 h3 h2
    simp only [hl, if_true] at hbody
    have ih2 := ih { s with pm_state := POWER_MANAGEMENT_STATE_DEV_IDLE,
                            _idle_timer_expired_event_sent := false } rfl hl hb
      (fun q hq => hr q (List.mem_cons_of_mem _ hq))
    simp only [hl] at ih2
    simp only [List.map_cons, run, run_pass_quiet, iteration_quiet_empty, hbody,
      emitted_events_append]
    exact ⟨ih2.1, by rw [ih2.2]; simp [emitted_events]⟩

theorem pass_lock_idle (cfg : Config) (r : Readings) (s : Supervisor)
    (h : s.pm_state = POWER_MANAGEMENT_STATE_DEV_IDLE) (hl : s._active_lock = 0)
    (hb : s._button_state ≠ POWER_MANAGEMENT_BUTTON_STATE_VERY_LONG_PRESSED)
    (hle : s._last_activity_millis ≤ r.millis_body) (hr : r.millis_body < UINT64_RANGE)
    (hnexp : r.millis_body ≤ s._last_activity_millis + s._idle_timeout_ms_set) :
    (run_pass cfg (pass_sending request_active_lock r) { sup := s, queue := [] }).1
      = { sup := { s with
                    _idle_timer_expired_event_sent := false
                    _last_activity_millis := r.millis_req
                    _active_lock := 1 }
          queue := [] } ∧
    emitted_events
      (run_pass cfg (pass_sending request_active_lock r) { sup := s, queue := [] }).2 = [] := by
  have hbody := dev_idle_body_not_expired cfg r s h hb hle hr hnexp
  simp only [hl, if_true] at hbody
  rw [run_pass_sending, iteration_quiet_cons, hbody]
  have hw : wrap_int32 1 = 1 := by decide
  constructor
  · simp [power_management_handle_request, request_active_lock, hw, ← h]
  · simp [power_management_handle_request, request_active_lock, emitted_events]

theorem pass_unlock_active (cfg : Config) (r : Readings) (s : Supervisor)
    (h : s.pm_state = POWER_MANAGEMENT_STATE_DEV_ACTIVE) (hl : s._active_lock = 1) :
    (run_pass cfg (pass_sending request_active_unlock r) { sup := s, queue := [] }).1
      = { sup := { s with _last_activity_millis := r.millis_req, _active_lock := 0 }
          queue := [] } ∧
    emitted_events
      (run_pass cfg (pass_sending request_active_unlock r) { sup := s, queue := [] }).2 = [] := by
  have hbody : power_management_handle_state_body cfg r s = (s, [Effect.call _on_pmic_loop]) := by
    have hne : s._active_lock ≠ 0 := by rw [hl]; decide
    rw [dev_active_body cfg r s h]
    simp only [hne, if_false]
    rw [← h]
  rw [run_pass_sending, iteration_quiet_cons, hbody]
  have hw : wrap_int32 0 = 0 := by decide
  constructor
  · simp [power_management_handle_request, request_active_unlock, hl, hw]
  · simp [power_management_handle_request, request_active_unlock, emitted_events]

theorem run_quiet_after_unlock (cfg : Config) (rs : List Readings) (s : Supervisor)
    (h : s.pm_state = POWER_MANAGEMENT_STATE_DEV_ACTIVE) (hl : s._active_lock = 0)
    (hb : s._button_state ≠ POWER_MANAGEMENT_BUTTON_STATE_VERY_LONG_PRESSED)
    (hr : ∀ r ∈ rs, s._last_activity_millis ≤ r.millis_body ∧
        r.millis_body ≤ s._last_activity_millis + s._idle_timeout_ms_set ∧
        r.millis_body < UINT64_RANGE) :
    (run cfg { sup := s, queue := [] } (rs.map quiet_pass)).1.sup.pm_state
        = (if rs = [] then POWER_MANAGEMENT_STATE_DEV_ACTIVE
           else POWER_MANAGEMENT_STATE_DEV_IDLE) ∧
    emitted_events (run cfg { sup := s, queue := [] } (rs.map quiet_pass)).2 = [] := by
  cases rs with
  | nil => exact ⟨h, rfl⟩
  | cons r rest =>
    have hbody := dev_active_body cfg r s h
    simp only [hl, if_true] at hbody
    have ih := run_quiet_idle cfg rest
      { s with pm_state := POWER_MANAGEMENT_STATE_DEV_IDLE } rfl hl hb
      (fun q hq => hr q (List.mem_cons_of_mem _ hq))
    simp only [hl] at ih
    simp only [List.map_cons, run, run_pass_quiet, iteration_quiet_empty, hbody,
      emitted_events_append]
    exact ⟨by simpa using ih.1, by rw [ih.2]; simp [emitted_events]⟩

/-- The lock scenario, pass by pass. -/
theorem lock_scenario_run (cfg : Config) (s0 : Supervisor) (rL rA : Readings)
    (rsA : List Readings) (rU : Readings) (rsI : List Readings)
    (h0 : s0.pm_state = POWER_MANAGEMENT_STATE_DEV_IDLE) (hl0 : s0._active_lock = 0)
    (hb0 : s0._button_state ≠ POWER_MANAGEMENT_BUTTON_STATE_VERY_LONG_PRESSED)
    (hL : s0._last_activity_millis ≤ rL.millis_body ∧
      rL.millis_body ≤ s0._last_activity_millis + s0._idle_timeout_ms_set ∧
      rL.millis_body < UINT64_RANGE)
    (hA : rL.millis_req ≤ rA.millis_body ∧
      rA.millis_body ≤ rL.millis_req + s0._idle_timeout_ms_set ∧
      rA.millis_body < UINT64_RANGE)
    (hI : ∀ r ∈ rsI, rU.millis_req ≤ r.millis_body ∧
      r.millis_body ≤ rU.millis_req + s0._idle_timeout_ms_set ∧
      r.millis_body < UINT64_RANGE) :
    (run cfg { sup := s0, queue := [] }
        (pass_sending request_active_lock rL :: quiet_pass rA :: rsA.map quiet_pass)).1
      = { sup := { s0 with
                    pm_state := POWER_MANAGEMENT_STATE_DEV_ACTIVE
                    _idle_timer_expired_event_sent := false
                    _last_activity_millis := rL.millis_req
                    _active_lock := 1 }
          queue := [] } ∧
    emitted_events
      (run cfg { sup := s0, queue := [] } (lock_scenario rL rA rsA rU rsI)).2 = [] ∧
    (run cfg { sup := s0, queue := [] } (lock_scenario rL rA rsA rU rsI)).1.sup.pm_state
      = (if rsI = [] then POWER_MANAGEMENT_STATE_DEV_ACTIVE
         else POWER_MANAGEMENT_STATE_DEV_IDLE) := by
  obtain ⟨e1s, e1t⟩ := pass_lock_idle cfg rL s0 h0 hl0 hb0 hL.1 hL.2.2 hL.2.1
  have hbody2 := dev_idle_body_not_expired cfg rA
    { s0 with _idle_timer_expired_event_sent := false, _last_activity_millis := rL.millis_req,
              _active_lock := 1 } h0 hb0 hA.1 hA.2.2 hA.2.1
  simp only [one_ne_zero, if_false] at hbody2
  obtain ⟨e3s, e3t⟩ := run_quiet_active cfg rsA
    { s0 with pm_state := POWER_MANAGEMENT_STATE_DEV_ACTIVE,
              _idle_timer_expired_event_sent := false, _last_activity_millis := rL.millis_req,
              _active_lock := 1 } rfl (by simp)
  obtain ⟨e4s, e4t⟩ := pass_unlock_active cfg rU
    { s0 with pm_state := POWER_MANAGEMENT_STATE_DEV_ACTIVE,
              _idle_timer_expired_event_sent := false, _last_activity_millis := rL.millis_req,
              _active_lock := 1 } rfl rfl
  obtain ⟨e5s, e5t⟩ := run_quiet_after_unlock cfg rsI
    { s0 with pm_state := POWER_MANAGEMENT_STATE_DEV_ACTIVE,
              _idle_timer_expired_event_sent := false, _last_activity_millis := rU.millis_req,
              _active_lock := 0 } rfl rfl hb0 hI
  have hA1 : (run cfg { sup := s0, queue := [] }
        (pass_sending request_active_lock rL :: quiet_pass rA :: rsA.map quiet_pass)).1
      = { sup := { s0 with
                    pm_state := POWER_MANAGEMENT_STATE_DEV_ACTIVE
                    _idle_timer_expired_event_sent := false
                    _last_activity_millis := rL.millis_req
                    _active_lock := 1 }
          queue := [] } := by
    simp only [run, e1s, run_pass_quiet, iteration_quiet_empty, hbody2]
    exact e3s
  have hA2 : emitted_events (run cfg { sup := s0, queue := [] }
        (pass_sending request_active_lock rL :: quiet_pass rA :: rsA.map quiet_pass)).2 = [] := by
    simp only [run, e1s, run_pass_quiet, iteration_quiet_empty, hbody2, emitted_events_append,
      e1t]
    rw [e3t]
    simp [emitted_events]
  refine ⟨hA1, ?_, ?_⟩
  · unfold lock_scenario
    rw [run_append]
    simp only []
    rw [emitted_events_append, hA2, hA1]
    simp only [run, emitted_events_append, e4s, e4t]
    rw [e5t]
    rfl
  · unfold lock_scenario
    rw [run_append]
    simp only []
    rw [hA1]
    simp only [run, e4s]
    exact e5s

/-- C27: from `DEV_IDLE` with no lock held and no very long press, in a run in
which `ACTIVE_LOCK` is sent and handled at time `rL.millis_req` in a pass whose
state body found the idle timer not expired, and the state body of the next
pass reads a clock within the timeout of that time: the state is `DEV_ACTIVE`
after that pass and after any number `rsA` of further passes, whatever their
clock values; when `ACTIVE_UNLOCK` is then sent and handled at time
`rU.millis_req` and the state bodies of the passes `rsI` read clocks between
that time and that time plus the timeout, the state is `DEV_IDLE` after the
first of them and after every later one, so never `SHUTDOWN_PREPARE` or
`SLEEP_PREPARE`; and the whole run emits no event at all, whatever the idle
timer expired action is. -/
theorem C27_lock_preempts_idle_action (cfg : Config) (s0 : Supervisor) (rL rA : Readings)
    (rsA : List Readings) (rU : Readings) (rsI : List Readings)
    (h0 : s0.pm_state = POWER_MANAGEMENT_STATE_DEV_IDLE) (hl0 : s0._active_lock = 0)
    (hb0 : s0._button_state ≠ POWER_MANAGEMENT_BUTTON_STATE_VERY_LONG_PRESSED)
    (hL : s0._last_activity_millis ≤ rL.millis_body ∧
      rL.millis_body ≤ s0._last_activity_millis + s0._idle_timeout_ms_set ∧
      rL.millis_body < UINT64_RANGE)
    (hA : rL.millis_req ≤ rA.millis_body ∧
      rA.millis_body ≤ rL.millis_req + s0._idle_timeout_ms_set ∧
      rA.millis_body < UINT64_RANGE)
    (hI : ∀ r ∈ rsI, rU.millis_req ≤ r.millis_body ∧
      r.millis_body ≤ rU.millis_req + s0._idle_timeout_ms_set ∧
      r.millis_body < UINT64_RANGE) :
    (run cfg { sup := s0, queue := [] }
        (pass_sending request_active_lock rL :: quiet_pass rA :: rsA.map quiet_pass)).1.sup.pm_state
      = POWER_MANAGEMENT_STATE_DEV_ACTIVE ∧
    emitted_events
      (run cfg { sup := s0, queue := [] } (lock_scenario rL rA rsA rU rsI)).2 = [] ∧
    (∀ k : Nat,
      (run cfg { sup := s0, queue := [] }
          (lock_scenario rL rA rsA rU (rsI.take k))).1.sup.pm_state
        = (if rsI.take k = [] then POWER_MANAGEMENT_STATE_DEV_ACTIVE
           else POWER_MANAGEMENT_STATE_DEV_IDLE)) := by
  refine ⟨?_, (lock_scenario_run cfg s0 rL rA rsA rU rsI h0 hl0 hb0 hL hA hI).2.1, ?_⟩
  · rw [(lock_scenario_run cfg s0 rL rA rsA rU rsI h0 hl0 hb0 hL hA hI).1]
  · intro k
    exact (lock_scenario_run cfg s0 rL rA rsA rU (rsI.take k) h0 hl0 hb0 hL hA
      (fun r hr => hI r (List.mem_of_mem_take hr))).2.2

/-- C27 at a concrete run: timeout 30000 ms, action `SHUTDOWN`, the lock taken
at 29500 ms, held until 200000 ms, and two passes after the release. -/
theorem C27_lock_preempts_idle_action_witness :
    (run example_config { sup := example_idle_shutdown, queue := [] }
        (pass_sending request_active_lock (readings_quiet 29500)
          :: quiet_pass (readings_quiet 29600)
          :: [readings_quiet 100000].map quiet_pass)).1.sup.pm_state
      = POWER_MANAGEMENT_STATE_DEV_ACTIVE ∧
    emitted_events
      (run example_config { sup := example_idle_shutdown, queue := [] }
        (lock_scenario (readings_quiet 29500) (readings_quiet 29600) [readings_quiet 100000]
          (readings_quiet 200000) [readings_quiet 200100, readings_quiet 230000])).2 = [] ∧
    (∀ k : Nat,
      (run example_config { sup := example_idle_shutdown, queue := [] }
          (lock_scenario (readings_quiet 29500) (readings_quiet 29600) [readings_quiet 100000]
            (readings_quiet 200000)
            ([readings_quiet 200100, readings_quiet 230000].take k))).1.sup.pm_state
        = (if [readings_quiet 200100, readings_quiet 230000].take k = []
           then POWER_MANAGEMENT_STATE_DEV_ACTIVE
           else POWER_MANAGEMENT_STATE_DEV_IDLE)) :=
  C27_lock_preempts_idle_action example_config example_idle_shutdown (readings_quiet 29500)
    (readings_quiet 29600) [readings_quiet 100000] (readings_quiet 200000)
    [readings_quiet 200100, readings_quiet 230000] rfl rfl (by decide)
    (by decide) (by decide) (by decide)

/-! ## The return value of the event post -/

theorem emit_statement_eq (esp_event_post : power_management_event_t → Int)
    (event : power_management_event_t) :
    emit_statement esp_event_post event = [Effect.emit event] := rfl

theorem state_body_posting_eq (esp_event_post : power_management_event_t → Int) (cfg : Config)
    (r : Readings) (s : Supervisor) :
    power_management_handle_state_body_posting esp_event_post cfg r s
      = power_management_handle_state_body cfg r s := by
  unfold power_management_handle_state_body_posting power_management_handle_state_body
  cases h : s.pm_state <;>
    simp only [state_INIT_posting, state_INIT, state_SETUP_posting, state_SETUP,
      state_DEV_IDLE_posting, state_DEV_IDLE, state_DEV_IDLE_timer_posting,
      state_DEV_IDLE_timer, state_SHUTDOWN_PREPARE_posting, state_SHUTDOWN_PREPARE,
      state_REBOOT_PREPARE_posting, state_REBOOT_PREPARE, state_SLEEP_PREPARE_posting,
      state_SLEEP_PREPARE, emit_statement_eq, List.cons_append, List.nil_append]

theorem button_body_posting_eq (esp_event_post : power_management_event_t → Int) (cfg : Config)
    (r : ButtonReadings) (bt : ButtonTask) :
    power_management_button_handle_state_body_posting esp_event_post cfg r bt
      = power_management_button_handle_state_body cfg r bt := by
  unfold power_management_button_handle_state_body_posting
    power_management_button_handle_state_body
  cases h : bt.sup._button_state <;>
    simp only [button_RELEASED_posting, button_RELEASED, button_PRESSED_posting, button_PRESSED,
      button_LONG_PRESSED_posting, button_LONG_PRESSED, button_VERY_LONG_PRESSED_posting,
      button_VERY_LONG_PRESSED, emit_statement_eq, List.cons_append, List.nil_append]

theorem state_DEV_IDLE_action_latch (s : Supervisor) :
    (state_DEV_IDLE_action s)._idle_timer_expired_event_sent
      = s._idle_timer_expired_event_sent := by
  unfold state_DEV_IDLE_action
  split <;> rfl

theorem state_DEV_IDLE_button_latch (s : Supervisor) :
    (state_DEV_IDLE_button s).1._idle_timer_expired_event_sent
      = s._idle_timer_expired_event_sent := by
  unfold state_DEV_IDLE_button
  split <;> rfl

theorem state_DEV_IDLE_lock_fields (s : Supervisor) :
    (state_DEV_IDLE_lock s)._idle_timer_expired_event_sent = s._idle_timer_expired_event_sent ∧
    (state_DEV_IDLE_lock s)._last_activity_millis = s._last_activity_millis ∧
    (state_DEV_IDLE_lock s)._idle_timeout_ms_set = s._idle_timeout_ms_set := by
  unfold state_DEV_IDLE_lock
  split <;> exact ⟨rfl, rfl, rfl⟩

/-- C28: with the return value of every event post made explicit, each
lifecycle state body and each button tick gives the same variables and the same
effects (callbacks called, delays, posts attempted) for any two assignments of
return values to the posts, the ones of the embedding that has no return
values; and in `DEV_IDLE` with the idle timer expired and the latch clear the
body posts `IDLE_TIMER_EXPIRED` and leaves the latch set, whatever the post
returns. -/
theorem C28_emit_result_ignored (post post2 : power_management_event_t → Int)
    (cfg : Config) :
    (∀ (r : Readings) (s : Supervisor),
      power_management_handle_state_body_posting post cfg r s
        = power_management_handle_state_body_posting post2 cfg r s ∧
      power_management_handle_state_body_posting post cfg r s
        = power_management_handle_state_body cfg r s) ∧
    (∀ (r : ButtonReadings) (bt : ButtonTask),
      power_management_button_handle_state_body_posting post cfg r bt
        = power_management_button_handle_state_body_posting post2 cfg r bt ∧
      power_management_button_handle_state_body_posting post cfg r bt
        = power_management_button_handle_state_body cfg r bt) ∧
    (∀ (r : Readings) (s : Supervisor),
      s.pm_state = POWER_MANAGEMENT_STATE_DEV_IDLE →
      u64_sub r.millis_body s._last_activity_millis > s._idle_timeout_ms_set →
      s._idle_timer_expired_event_sent = false →
      (power_management_handle_state_body_posting post cfg r s).1._idle_timer_expired_event_sent
        = true ∧
      emitted_events (power_management_handle_state_body_posting post cfg r s).2
        = [POWER_MANAGEMENT_EVENT_IDLE_TIMER_EXPIRED]) := by
  refine ⟨fun r s => ⟨?_, state_body_posting_eq post cfg r s⟩,
    fun r bt => ⟨?_, button_body_posting_eq post cfg r bt⟩, ?_⟩
  · rw [state_body_posting_eq, state_body_posting_eq]
  · rw [button_body_posting_eq, button_body_posting_eq]
  · intro r s h hexp hlatch
    obtain ⟨l1, l2, l3⟩ := state_DEV_IDLE_lock_fields s
    have hexp2 : u64_sub r.millis_body (state_DEV_IDLE_lock s)._last_activity_millis
        > (state_DEV_IDLE_lock s)._idle_timeout_ms_set := by rw [l2, l3]; exact hexp
    have hlatch2 : (state_DEV_IDLE_lock s)._idle_timer_expired_event_sent = false := by
      rw [l1]; exact hlatch
    unfold power_management_handle_state_body_posting
    rw [h]
    simp only [state_DEV_IDLE_posting, state_DEV_IDLE_timer_posting, hexp2, hlatch2, if_true,
      state_DEV_IDLE_button_latch, state_DEV_IDLE_action_latch, emit_statement_eq]
    refine ⟨trivial, ?_⟩
    unfold state_DEV_IDLE_button
    split <;> rfl

/-- C28 at a bus on which every post fails: the bodies give what they give
when every post succeeds, and from `DEV_IDLE` at 30001 ms without activity the
latch is set. -/
theorem C28_emit_result_ignored_witness :
    (power_management_handle_state_body_posting post_fails example_config
        (readings_quiet 30001) example_idle_unlatched
      = power_management_handle_state_body_posting post_succeeds example_config
        (readings_quiet 30001) example_idle_unlatched) ∧
    (power_management_handle_state_body_posting post_fails example_config
        (readings_quiet 30001) example_idle_unlatched).1._idle_timer_expired_event_sent = true ∧
    emitted_events (power_management_handle_state_body_posting post_fails example_config
        (readings_quiet 30001) example_idle_unlatched).2
      = [POWER_MANAGEMENT_EVENT_IDLE_TIMER_EXPIRED] :=
  ⟨((C28_emit_result_ignored post_fails post_succeeds example_config).1
      (readings_quiet 30001) example_idle_unlatched).1,
   (C28_emit_result_ignored post_fails post_succeeds example_config).2.2
      (readings_quiet 30001) example_idle_unlatched rfl (by decide) rfl⟩

/-! ## A clock value smaller than the last activity -/

theorem u64_sub_of_lt (a b : Nat) (h : a < b) (hb : b < UINT64_RANGE) :
    u64_sub a b = UINT64_RANGE - (b - a) := by
  unfold u64_sub UINT64_RANGE at *
  omega

/-- C31: in `DEV_IDLE`, when the clock value read in the state body is smaller
than `last_activity_ms`, the `uint64_t` difference is `2 ^ 64` minus the
distance of the two, so the timer counts as expired exactly when
`idle_timeout_ms < 2 ^ 64 - (last_activity_ms - now)`; then
`IDLE_TIMER_EXPIRED` is emitted iff the latch was clear, the latch is set
afterwards, and with `active_lock_count = 0` and no very long press the next
state is the one the idle action selects. -/
theorem C31_clock_behind_last_activity (cfg : Config) (r : Readings) (s : Supervisor)
    (h : s.pm_state = POWER_MANAGEMENT_STATE_DEV_IDLE)
    (hlt : r.millis_body < s._last_activity_millis)
    (hlast : s._last_activity_millis < UINT64_RANGE) :
    u64_sub r.millis_body s._last_activity_millis
      = UINT64_RANGE - (s._last_activity_millis - r.millis_body) ∧
    (u64_sub r.millis_body s._last_activity_millis > s._idle_timeout_ms_set
      ↔ s._idle_timeout_ms_set < UINT64_RANGE - (s._last_activity_millis - r.millis_body)) ∧
    (s._idle_timeout_ms_set < UINT64_RANGE - (s._last_activity_millis - r.millis_body) →
      (Effect.emit POWER_MANAGEMENT_EVENT_IDLE_TIMER_EXPIRED
          ∈ (power_management_handle_state_body cfg r s).2
        ↔ s._idle_timer_expired_event_sent = false) ∧
      (power_management_handle_state_body cfg r s).1._idle_timer_expired_event_sent = true ∧
      (s._active_lock = 0 →
        s._button_state ≠ POWER_MANAGEMENT_BUTTON_STATE_VERY_LONG_PRESSED →
        (power_management_handle_state_body cfg r s).1.pm_state
          = (match s._idle_timer_expired_action with
             | POWER_MANAGEMENT_IDLE_TIMER_EXPIRED_ACTION_SHUTDOWN =>
               POWER_MANAGEMENT_STATE_SHUTDOWN_PREPARE
             | POWER_MANAGEMENT_IDLE_TIMER_EXPIRED_ACTION_SLEEP =>
               POWER_MANAGEMENT_STATE_SLEEP_PREPARE
             | POWER_MANAGEMENT_IDLE_TIMER_EXPIRED_ACTION_NOT =>
               POWER_MANAGEMENT_STATE_DEV_IDLE))) := by
  have hd := u64_sub_of_lt _ _ hlt hlast
  refine ⟨hd, by rw [hd], ?_⟩
  intro hT
  have hx : u64_sub r.millis_body s._last_activity_millis > s._idle_timeout_ms_set := by
    rw [hd]; exact hT
  rw [body_DEV_IDLE cfg r s h]
  refine ⟨?_, ?_, ?_⟩
  · by_cases hl : s._active_lock = 0 <;>
    by_cases hb : s._button_state = POWER_MANAGEMENT_BUTTON_STATE_VERY_LONG_PRESSED <;>
    cases hlatch : s._idle_timer_expired_event_sent <;>
    cases hact : s._idle_timer_expired_action <;>
    simp [state_DEV_IDLE, state_DEV_IDLE_lock, state_DEV_IDLE_timer, state_DEV_IDLE_button,
      state_DEV_IDLE_action, hl, hb, hx, hlatch, hact, h]
  · by_cases hl : s._active_lock = 0 <;>
    by_cases hb : s._button_state = POWER_MANAGEMENT_BUTTON_STATE_VERY_LONG_PRESSED <;>
    cases hlatch : s._idle_timer_expired_event_sent <;>
    cases hact : s._idle_timer_expired_action <;>
    simp [state_DEV_IDLE, state_DEV_IDLE_lock, state_DEV_IDLE_timer, state_DEV_IDLE_button,
      state_DEV_IDLE_action, hl, hb, hx, hlatch, hact, h]
  · intro hl hb
    cases hlatch : s._idle_timer_expired_event_sent <;>
    cases hact : s._idle_timer_expired_action <;>
    simp [state_DEV_IDLE, state_DEV_IDLE_lock, state_DEV_IDLE_timer, state_DEV_IDLE_button,
      state_DEV_IDLE_action, hl, hb, hx, hlatch, hact, h]

/-- C31 at a clock that has wrapped at `2 ^ 32`: the last activity at
4294967000 ms, the body 301 ms later at clock value 5, timeout 30000 ms,
action `SHUTDOWN`. -/
theorem C31_clock_behind_last_activity_witness :
    u64_sub (readings_quiet 5).millis_body example_after_wrap._last_activity_millis
      = 18446744069414584621 ∧
    (Effect.emit POWER_MANAGEMENT_EVENT_IDLE_TIMER_EXPIRED
        ∈ (power_management_handle_state_body example_config (readings_quiet 5)
            example_after_wrap).2
      ↔ example_after_wrap._idle_timer_expired_event_sent = false) ∧
    (power_management_handle_state_body example_config (readings_quiet 5)
        example_after_wrap).1.pm_state = POWER_MANAGEMENT_STATE_SHUTDOWN_PREPARE :=
  ⟨(C31_clock_behind_last_activity example_config (readings_quiet 5) example_after_wrap rfl
      (by decide) (by decide)).1,
   ((C31_clock_behind_last_activity example_config (readings_quiet 5) example_after_wrap rfl
      (by decide) (by decide)).2.2 (by decide)).1,
   ((C31_clock_behind_last_activity example_config (readings_quiet 5) example_after_wrap rfl
      (by decide) (by decide)).2.2 (by decide)).2.2 rfl (by decide)⟩

/-! ## The boot order of the lifecycle states -/

theorem body_phase (cfg : Config) (r : Readings) (s : Supervisor) :
    boot_phase s.pm_state ≤ boot_phase (power_management_handle_state_body cfg r s).1.pm_state := by
  unfold power_management_handle_state_body
  cases h : s.pm_state
  case POWER_MANAGEMENT_STATE_INIT =>
    simp only [state_INIT]; repeat' split
    all_goals simp [boot_phase, h]
  case POWER_MANAGEMENT_STATE_OFF_CHARGER =>
    simp only [state_OFF_CHARGER]; repeat' split
    all_goals simp [boot_phase, h]
  case POWER_MANAGEMENT_STATE_SETUP => simp [state_SETUP, boot_phase]
  case POWER_MANAGEMENT_STATE_DEV_IDLE =>
    simp only [state_DEV_IDLE, state_DEV_IDLE_button, state_DEV_IDLE_timer,
      state_DEV_IDLE_action, state_DEV_IDLE_lock]
    repeat' split
    all_goals simp_all [boot_phase]
  case POWER_MANAGEMENT_STATE_DEV_ACTIVE =>
    simp only [state_DEV_ACTIVE]; split <;> simp [boot_phase, h]
  all_goals simp [state_SHUTDOWN_PREPARE, state_REBOOT_PREPARE, state_SLEEP_PREPARE, h]

theorem request_phase (now : Nat) (s : Supervisor) (req : power_management_request_t) :
    boot_phase s.pm_state
      ≤ boot_phase (power_management_handle_request now s req).1.pm_state := by
  unfold power_management_handle_request
  repeat' split
  all_goals first
    | exact le_refl _
    | (cases h : s.pm_state <;> simp [boot_phase])

theorem drain_phase (r : Readings) (sys : System) :
    boot_phase sys.sup.pm_state ≤ boot_phase (power_management_handle_drain r sys).1.sup.pm_state := by
  unfold power_management_handle_drain
  split
  · exact le_refl _
  · exact request_phase _ _ _

theorem run_pass_phase (cfg : Config) (p : Pass) (sys : System) :
    boot_phase sys.sup.pm_state
      ≤ boot_phase (power_management_handle_state_body cfg p.readings
          (env_steps sys p.before).1.sup).1.pm_state ∧
    boot_phase (power_management_handle_state_body cfg p.readings
          (env_steps sys p.before).1.sup).1.pm_state
      ≤ boot_phase (run_pass cfg p sys).1.sup.pm_state := by
  constructor
  · have h := body_phase cfg p.readings (env_steps sys p.before).1.sup
    rw [env_steps_pm_state] at h
    exact h
  · simp only [run_pass, power_management_handle_iteration]
    have h := drain_phase p.readings
      (env_steps { (env_steps sys p.before).1 with
        sup := (power_management_handle_state_body cfg p.readings
          (env_steps sys p.before).1.sup).1 } p.during).1
    rw [env_steps_pm_state] at h
    exact h

theorem run_states_phase (cfg : Config) (passes : List Pass) :
    ∀ sys : System,
      (∀ x ∈ run_states cfg sys passes, boot_phase sys.sup.pm_state ≤ boot_phase x) ∧
      List.Pairwise (fun a b => boot_phase a ≤ boot_phase b) (run_states cfg sys passes) := by
  induction passes with
  | nil => intro sys; simp [run_states]
  | cons p rest ih =>
    intro sys
    obtain ⟨h1, h2⟩ := run_pass_phase cfg p sys
    obtain ⟨i1, i2⟩ := ih (run_pass cfg p sys).1
    simp only [run_states, List.mem_cons, List.pairwise_cons]
    refine ⟨?_, ?_, ?_, i2⟩
    · intro x hx
      rcases hx with hx | hx | hx
      · rw [hx]; exact h1
      · rw [hx]; exact le_trans h1 h2
      · exact le_trans (le_trans h1 h2) (i1 x hx)
    · intro x hx
      rcases hx with hx | hx
      · rw [hx]; exact h2
      · exact le_trans h2 (i1 x hx)
    · exact i1

/-- What a state body adds to the count of an effect that only the `SETUP`
body produces: one from `SETUP`, nothing from any other state. -/
theorem body_setup_count (cfg : Config) (r : Readings) (s : Supervisor) (e : Effect)
    (he : e = Effect.call _on_device_setup
      ∨ e = Effect.emit POWER_MANAGEMENT_EVENT_DEVICE_SETUP_FINISHED) :
    (power_management_handle_state_body cfg r s).2.count e
      = if s.pm_state = POWER_MANAGEMENT_STATE_SETUP then 1 else 0 := by
  unfold power_management_handle_state_body
  cases h : s.pm_state <;>
    simp only [state_INIT, state_OFF_CHARGER, state_SETUP, state_DEV_IDLE,
      state_DEV_IDLE_button, state_DEV_IDLE_timer, state_DEV_ACTIVE, state_SHUTDOWN_PREPARE,
      state_REBOOT_PREPARE, state_SLEEP_PREPARE, reduceCtorEq, if_false, if_true]
  all_goals repeat' split
  all_goals rcases he with he | he <;> subst he <;> simp [List.count_cons]

theorem setup_ahead_mono (a b : power_management_state_t) (h : boot_phase a ≤ boot_phase b) :
    setup_ahead b ≤ setup_ahead a := by
  unfold setup_ahead
  split_ifs <;> omega

theorem body_setup_ahead (cfg : Config) (r : Readings) (s : Supervisor) (e : Effect)
    (he : e = Effect.call _on_device_setup
      ∨ e = Effect.emit POWER_MANAGEMENT_EVENT_DEVICE_SETUP_FINISHED) :
    (power_management_handle_state_body cfg r s).2.count e
        + setup_ahead (power_management_handle_state_body cfg r s).1.pm_state
      ≤ setup_ahead s.pm_state := by
  rw [body_setup_count cfg r s e he]
  by_cases h : s.pm_state = POWER_MANAGEMENT_STATE_SETUP
  · have hb : (power_management_handle_state_body cfg r s).1.pm_state
        = POWER_MANAGEMENT_STATE_DEV_IDLE := by
      simp [power_management_handle_state_body, h, state_SETUP]
    rw [hb, h]
    decide
  · rw [if_neg h, Nat.zero_add]
    exact setup_ahead_mono _ _ (body_phase cfg r s)

theorem env_steps_setup_count (as : List EnvAction) (sys : System) (e : Effect)
    (he : e = Effect.call _on_device_setup
      ∨ e = Effect.emit POWER_MANAGEMENT_EVENT_DEVICE_SETUP_FINISHED) :
    (env_steps sys as).2.count e = 0 := by
  rw [List.count_eq_zero]
  intro hm
  obtain ⟨t, ht⟩ := env_steps_trace as sys e hm
  rcases he with he | he <;> rw [he] at ht <;> cases ht

theorem drain_setup_count (r : Readings) (sys : System) (e : Effect)
    (he : e = Effect.call _on_device_setup
      ∨ e = Effect.emit POWER_MANAGEMENT_EVENT_DEVICE_SETUP_FINISHED) :
    (power_management_handle_drain r sys).2.count e = 0 := by
  rw [List.count_eq_zero]
  intro hm
  rcases drain_trace r sys e hm with ⟨t, ht⟩ | ⟨a, b, ht⟩ <;>
    rcases he with he | he <;> rw [he] at ht <;> cases ht

theorem run_pass_setup_ahead (cfg : Config) (p : Pass) (sys : System) (e : Effect)
    (he : e = Effect.call _on_device_setup
      ∨ e = Effect.emit POWER_MANAGEMENT_EVENT_DEVICE_SETUP_FINISHED) :
    (run_pass cfg p sys).2.count e + setup_ahead (run_pass cfg p sys).1.sup.pm_state
      ≤ setup_ahead sys.sup.pm_state := by
  have h1 := body_setup_ahead cfg p.readings (env_steps sys p.before).1.sup e he
  rw [env_steps_pm_state] at h1
  have h2 := setup_ahead_mono _ _ (run_pass_phase cfg p sys).2
  have hd : List.count e [Effect.delay_ticks 1] = 0 := by
    rcases he with he | he <;> subst he <;> decide
  have hc : (run_pass cfg p sys).2.count e
      = (power_management_handle_state_body cfg p.readings
          (env_steps sys p.before).1.sup).2.count e := by
    simp only [run_pass, power_management_handle_iteration, List.count_append,
      env_steps_setup_count _ _ e he, drain_setup_count _ _ e he, hd,
      List.count_cons, List.count_nil]
    rcases he with he | he <;> subst he <;> simp
  rw [hc]
  omega

theorem run_setup_ahead (cfg : Config) (passes : List Pass) (e : Effect)
    (he : e = Effect.call _on_device_setup
      ∨ e = Effect.emit POWER_MANAGEMENT_EVENT_DEVICE_SETUP_FINISHED) :
    ∀ sys : System,
      (run cfg sys passes).2.count e + setup_ahead (run cfg sys passes).1.sup.pm_state
        ≤ setup_ahead sys.sup.pm_state := by
  induction passes with
  | nil => intro sys; simp [run]
  | cons p rest ih =>
    intro sys
    have h1 := run_pass_setup_ahead cfg p sys e he
    have h2 := ih (run_pass cfg p sys).1
    simp only [run, List.count_append]
    omega

theorem run_states_last (cfg : Config) (passes : List Pass) :
    ∀ sys : System,
      (sys.sup.pm_state :: run_states cfg sys passes).getLast?
        = some (run cfg sys passes).1.sup.pm_state := by
  induction passes with
  | nil => intro sys; rfl
  | cons p rest ih =>
    intro sys
    simp only [run_states, run, List.getLast?_cons_cons]
    exact ih (run_pass cfg p sys).1

theorem boot_phase_setup (st : power_management_state_t)
    (h : 2 ≤ boot_phase st) (hne : st ≠ POWER_MANAGEMENT_STATE_SETUP) : 3 ≤ boot_phase st := by
  cases st <;> simp_all [boot_phase]

theorem boot_phase_last (st : power_management_state_t) (h : 3 ≤ boot_phase st) :
    st ≠ POWER_MANAGEMENT_STATE_INIT ∧ st ≠ POWER_MANAGEMENT_STATE_OFF_CHARGER ∧
    st ≠ POWER_MANAGEMENT_STATE_SETUP := by
  cases st <;> simp_all [boot_phase]

/-- C32: in every run of the lifecycle task from its start in `INIT`, whatever
the callbacks and the clock return and whatever the other tasks send or store:
`_on_device_setup` is called at most once and `DEVICE_SETUP_FINISHED` is
emitted at most once; the values `pm_state` takes (after each state body and
after each queue part) never go back in the order `INIT`, `OFF_CHARGER`,
`SETUP`, later states, and the last of them is the state at the end of the
run; so once `SETUP` has been left it is not entered again, and once `DEV_IDLE`
has been reached the state is never `INIT`, `OFF_CHARGER` or `SETUP` again. -/
theorem C32_setup_at_most_once (cfg : Config) (passes : List Pass) (millis0 millis1 : Nat) :
    setup_calls (run cfg (system_start millis0 millis1) passes).2 ≤ 1 ∧
    setup_finished_events (run cfg (system_start millis0 millis1) passes).2 ≤ 1 ∧
    List.Pairwise (fun a b => boot_phase a ≤ boot_phase b)
      (POWER_MANAGEMENT_STATE_INIT :: run_states cfg (system_start millis0 millis1) passes) ∧
    (POWER_MANAGEMENT_STATE_INIT :: run_states cfg (system_start millis0 millis1) passes).getLast?
      = some (run cfg (system_start millis0 millis1) passes).1.sup.pm_state ∧
    (∀ (pre : List power_management_state_t) (x : power_management_state_t)
        (mid : List power_management_state_t) (y : power_management_state_t)
        (post : List power_management_state_t),
      POWER_MANAGEMENT_STATE_INIT :: run_states cfg (system_start millis0 millis1) passes
        = pre ++ x :: (mid ++ y :: post) →
      (x = POWER_MANAGEMENT_STATE_SETUP → y ≠ POWER_MANAGEMENT_STATE_SETUP →
        POWER_MANAGEMENT_STATE_SETUP ∉ post) ∧
      (x = POWER_MANAGEMENT_STATE_DEV_IDLE →
        y ≠ POWER_MANAGEMENT_STATE_INIT ∧ y ≠ POWER_MANAGEMENT_STATE_OFF_CHARGER ∧
        y ≠ POWER_MANAGEMENT_STATE_SETUP)) := by
  have hstart : (system_start millis0 millis1).sup.pm_state = POWER_MANAGEMENT_STATE_INIT := rfl
  have hc := run_setup_ahead cfg passes (Effect.call _on_device_setup) (Or.inl rfl)
    (system_start millis0 millis1)
  have hf := run_setup_ahead cfg passes
    (Effect.emit POWER_MANAGEMENT_EVENT_DEVICE_SETUP_FINISHED) (Or.inr rfl)
    (system_start millis0 millis1)
  have ha : setup_ahead (system_start millis0 millis1).sup.pm_state = 1 := rfl
  obtain ⟨p1, p2⟩ := run_states_phase cfg passes (system_start millis0 millis1)
  have hp : List.Pairwise (fun a b => boot_phase a ≤ boot_phase b)
      (POWER_MANAGEMENT_STATE_INIT
        :: run_states cfg (system_start millis0 millis1) passes) := by
    rw [List.pairwise_cons]
    exact ⟨fun x hx => by have := p1 x hx; rw [hstart] at this; exact this, p2⟩
  have hl := run_states_last cfg passes (system_start millis0 millis1)
  rw [hstart] at hl
  refine ⟨by unfold setup_calls; omega, by unfold setup_finished_events; omega, hp, hl, ?_⟩
  intro pre x mid y post heq
  rw [heq, List.pairwise_append] at hp
  obtain ⟨_, hx, _⟩ := hp
  rw [List.pairwise_cons, List.pairwise_append] at hx
  obtain ⟨hxy, _, hy, _⟩ := hx
  rw [List.pairwise_cons] at hy
  have hxy2 := hxy y (by simp)
  constructor
  · intro hxs hys hmem
    rw [hxs] at hxy2
    have h3 := boot_phase_setup y hxy2 hys
    have hz := hy.1 _ hmem
    have : boot_phase POWER_MANAGEMENT_STATE_SETUP = 2 := rfl
    omega
  · intro hxi
    rw [hxi] at hxy2
    exact boot_phase_last y hxy2

/-- C32 at `example_run_charger_boot`: one call of `_on_device_setup`, and after
`SETUP`, left for `DEV_IDLE`, the state is not `SETUP` again. -/
theorem C32_setup_at_most_once_witness :
    POWER_MANAGEMENT_STATE_INIT :: run_states example_config (system_start 0 0)
        example_run_charger_boot
      = [POWER_MANAGEMENT_STATE_INIT, POWER_MANAGEMENT_STATE_OFF_CHARGER,
         POWER_MANAGEMENT_STATE_OFF_CHARGER, POWER_MANAGEMENT_STATE_SETUP,
         POWER_MANAGEMENT_STATE_SETUP, POWER_MANAGEMENT_STATE_DEV_IDLE,
         POWER_MANAGEMENT_STATE_DEV_IDLE, POWER_MANAGEMENT_STATE_DEV_IDLE,
         POWER_MANAGEMENT_STATE_DEV_IDLE, POWER_MANAGEMENT_STATE_DEV_IDLE,
         POWER_MANAGEMENT_STATE_DEV_IDLE] ∧
    setup_calls (run example_config (system_start 0 0) example_run_charger_boot).2 ≤ 1 ∧
    POWER_MANAGEMENT_STATE_SETUP ∉
      [POWER_MANAGEMENT_STATE_DEV_IDLE, POWER_MANAGEMENT_STATE_DEV_IDLE,
       POWER_MANAGEMENT_STATE_DEV_IDLE, POWER_MANAGEMENT_STATE_DEV_IDLE,
       POWER_MANAGEMENT_STATE_DEV_IDLE] :=
  ⟨by decide,
   (C32_setup_at_most_once example_config example_run_charger_boot 0 0).1,
   ((C32_setup_at_most_once example_config example_run_charger_boot 0 0).2.2.2.2
      [POWER_MANAGEMENT_STATE_INIT, POWER_MANAGEMENT_STATE_OFF_CHARGER,
       POWER_MANAGEMENT_STATE_OFF_CHARGER]
      POWER_MANAGEMENT_STATE_SETUP [POWER_MANAGEMENT_STATE_SETUP]
      POWER_MANAGEMENT_STATE_DEV_IDLE
      [POWER_MANAGEMENT_STATE_DEV_IDLE, POWER_MANAGEMENT_STATE_DEV_IDLE,
       POWER_MANAGEMENT_STATE_DEV_IDLE, POWER_MANAGEMENT_STATE_DEV_IDLE,
       POWER_MANAGEMENT_STATE_DEV_IDLE]
      (by decide)).1 rfl (by decide)⟩

end PowerManagement
